import Mathlib

/-! AI-DatabaseAssistant: query dispatch, result normalisation, connection registry
and mode orchestrator.

A shallow embedding of the decision logic of the React front end
(`QueryResults.jsx`, `DatabaseConnections.jsx`, `QueryInput.jsx`) together
with the part of the JavaScript runtime that logic relies on: JSON values,
truthiness, property access, `JSON.parse`, `JSON.stringify`, `parseInt`.

Conventions of the embedding.
* A JavaScript value is a `JsVal`.  Numbers are kept as exact decimals
  `m * 10 ^ e`, as written in the JSON text; the rounding of IEEE doubles is
  outside the model (so is the sign of zero: `-0` and `0` are both `num 0 _`).
* Strings are sequences of Unicode scalar values.  `length` counts UTF-16 code
  units as JavaScript does.
* Objects are property lists in JavaScript's own-property order: array-index
  keys first in ascending order, then the other keys in insertion order.
* Asynchronous calls are replaced by their outcome, passed in as an argument;
  state setters become fields of an explicit state record, and `alert`,
  `prompt` and `fetch` calls are recorded in the outcome.
-/

namespace AIDatabaseAssistant

/-! ## JavaScript values -/

/-- A JavaScript value as far as JSON and the front end need it. -/
inductive JsVal where
  | undefined : JsVal
  | null : JsVal
  | bool (b : Bool) : JsVal
  | num (m : Int) (e : Int) : JsVal
  | str (s : String) : JsVal
  | arr (xs : List JsVal) : JsVal
  | obj (kvs : List (String × JsVal)) : JsVal
  deriving Inhabited

mutual
/-- Decidable structural equality of JavaScript values. -/
def JsVal.decEq : (a b : JsVal) → Decidable (a = b)
  | .undefined, .undefined => isTrue rfl
  | .undefined, .null => isFalse (fun h => JsVal.noConfusion h)
  | .undefined, .bool _ => isFalse (fun h => JsVal.noConfusion h)
  | .undefined, .num _ _ => isFalse (fun h => JsVal.noConfusion h)
  | .undefined, .str _ => isFalse (fun h => JsVal.noConfusion h)
  | .undefined, .arr _ => isFalse (fun h => JsVal.noConfusion h)
  | .undefined, .obj _ => isFalse (fun h => JsVal.noConfusion h)
  | .null, .undefined => isFalse (fun h => JsVal.noConfusion h)
  | .null, .null => isTrue rfl
  | .null, .bool _ => isFalse (fun h => JsVal.noConfusion h)
  | .null, .num _ _ => isFalse (fun h => JsVal.noConfusion h)
  | .null, .str _ => isFalse (fun h => JsVal.noConfusion h)
  | .null, .arr _ => isFalse (fun h => JsVal.noConfusion h)
  | .null, .obj _ => isFalse (fun h => JsVal.noConfusion h)
  | .bool _, .undefined => isFalse (fun h => JsVal.noConfusion h)
  | .bool _, .null => isFalse (fun h => JsVal.noConfusion h)
  | .bool x, .bool y => if h : x = y then isTrue (h ▸ rfl) else isFalse (fun h2 => JsVal.noConfusion h2 (fun h3 => h h3))
  | .bool _, .num _ _ => isFalse (fun h => JsVal.noConfusion h)
  | .bool _, .str _ => isFalse (fun h => JsVal.noConfusion h)
  | .bool _, .arr _ => isFalse (fun h => JsVal.noConfusion h)
  | .bool _, .obj _ => isFalse (fun h => JsVal.noConfusion h)
  | .num _ _, .undefined => isFalse (fun h => JsVal.noConfusion h)
  | .num _ _, .null => isFalse (fun h => JsVal.noConfusion h)
  | .num _ _, .bool _ => isFalse (fun h => JsVal.noConfusion h)
  | .num m e, .num n f => if h : m = n ∧ e = f then isTrue (by rw [h.1, h.2]) else isFalse (fun h2 => JsVal.noConfusion h2 (fun h3 h4 => h ⟨h3, h4⟩))
  | .num _ _, .str _ => isFalse (fun h => JsVal.noConfusion h)
  | .num _ _, .arr _ => isFalse (fun h => JsVal.noConfusion h)
  | .num _ _, .obj _ => isFalse (fun h => JsVal.noConfusion h)
  | .str _, .undefined => isFalse (fun h => JsVal.noConfusion h)
  | .str _, .null => isFalse (fun h => JsVal.noConfusion h)
  | .str _, .bool _ => isFalse (fun h => JsVal.noConfusion h)
  | .str _, .num _ _ => isFalse (fun h => JsVal.noConfusion h)
  | .str x, .str y => if h : x = y then isTrue (h ▸ rfl) else isFalse (fun h2 => JsVal.noConfusion h2 (fun h3 => h h3))
  | .str _, .arr _ => isFalse (fun h => JsVal.noConfusion h)
  | .str _, .obj _ => isFalse (fun h => JsVal.noConfusion h)
  | .arr _, .undefined => isFalse (fun h => JsVal.noConfusion h)
  | .arr _, .null => isFalse (fun h => JsVal.noConfusion h)
  | .arr _, .bool _ => isFalse (fun h => JsVal.noConfusion h)
  | .arr _, .num _ _ => isFalse (fun h => JsVal.noConfusion h)
  | .arr _, .str _ => isFalse (fun h => JsVal.noConfusion h)
  | .arr xs, .arr ys => match JsVal.decEqList xs ys with
    | isTrue h => isTrue (h ▸ rfl)
    | isFalse h => isFalse (fun h2 => JsVal.noConfusion h2 (fun h3 => h h3))
  | .arr _, .obj _ => isFalse (fun h => JsVal.noConfusion h)
  | .obj _, .undefined => isFalse (fun h => JsVal.noConfusion h)
  | .obj _, .null => isFalse (fun h => JsVal.noConfusion h)
  | .obj _, .bool _ => isFalse (fun h => JsVal.noConfusion h)
  | .obj _, .num _ _ => isFalse (fun h => JsVal.noConfusion h)
  | .obj _, .str _ => isFalse (fun h => JsVal.noConfusion h)
  | .obj _, .arr _ => isFalse (fun h => JsVal.noConfusion h)
  | .obj xs, .obj ys => match JsVal.decEqKvs xs ys with
    | isTrue h => isTrue (h ▸ rfl)
    | isFalse h => isFalse (fun h2 => JsVal.noConfusion h2 (fun h3 => h h3))
/-- Decidable equality of element lists. -/
def JsVal.decEqList : (a b : List JsVal) → Decidable (a = b)
  | [], [] => isTrue rfl
  | [], _ :: _ => isFalse (fun h => List.noConfusion h)
  | _ :: _, [] => isFalse (fun h => List.noConfusion h)
  | x :: xs, y :: ys =>
    match JsVal.decEq x y, JsVal.decEqList xs ys with
    | isTrue h1, isTrue h2 => isTrue (by rw [h1, h2])
    | isFalse h1, _ => isFalse (fun h => List.noConfusion h (fun h3 _ => h1 h3))
    | _, isFalse h2 => isFalse (fun h => List.noConfusion h (fun _ h4 => h2 h4))
/-- Decidable equality of property lists. -/
def JsVal.decEqKvs : (a b : List (String × JsVal)) → Decidable (a = b)
  | [], [] => isTrue rfl
  | [], _ :: _ => isFalse (fun h => List.noConfusion h)
  | _ :: _, [] => isFalse (fun h => List.noConfusion h)
  | (k, x) :: xs, (l, y) :: ys =>
    if hk : k = l then
      match JsVal.decEq x y, JsVal.decEqKvs xs ys with
      | isTrue h1, isTrue h2 => isTrue (by rw [hk, h1, h2])
      | isFalse h1, _ => isFalse (fun h => List.noConfusion h (fun h3 _ => Prod.noConfusion h3 (fun _ h5 => h1 h5)))
      | _, isFalse h2 => isFalse (fun h => List.noConfusion h (fun _ h4 => h2 h4))
    else isFalse (fun h => List.noConfusion h (fun h3 _ => Prod.noConfusion h3 (fun h5 _ => hk h5)))
end

instance : DecidableEq JsVal := JsVal.decEq

namespace JsVal

/-- JavaScript truthiness (`ToBoolean`). -/
def truthy : JsVal → Bool
  | undefined => false
  | null => false
  | bool b => b
  | num m _ => decide (m ≠ 0)
  | str s => decide (s ≠ "")
  | arr _ => true
  | obj _ => true

/-- The operator `a || b`: `a` when it is truthy, else `b`. -/
def or (a b : JsVal) : JsVal := if a.truthy then a else b

/-- The operator `a && b`: `a` when it is falsy, else `b`. -/
def and (a b : JsVal) : JsVal := if a.truthy then b else a

/-- The operator `typeof v`. -/
def typeof : JsVal → String
  | undefined => "undefined"
  | null => "object"
  | bool _ => "boolean"
  | num _ _ => "number"
  | str _ => "string"
  | arr _ => "object"
  | obj _ => "object"

/-- A non-negative integer as a JavaScript number. -/
def ofNat (n : Nat) : JsVal := num (Int.ofNat n) 0

end JsVal

/-- Number of UTF-16 code units of a character. -/
def utf16Units (c : Char) : Nat := if c.toNat < 65536 then 1 else 2

/-- The `length` of a JavaScript string: its number of UTF-16 code units. -/
def jsLength (s : String) : Nat := (s.data.map utf16Units).sum

/-- The call `s.substring(0, n)`: the first `n` UTF-16 code units of the
text.  A supplementary character cut in half leaves a lone surrogate, which
no `Char` is; it is written U+FFFD, the character it is displayed as. -/
def substringUnits : Nat → List Char → List Char
  | _, [] => []
  | 0, _ :: _ => []
  | 1, c :: _ => if c.toNat < 65536 then [c] else ['\uFFFD']
  | n + 2, c :: cs =>
    if c.toNat < 65536 then c :: substringUnits (n + 1) cs else c :: substringUnits n cs

/-- Value of a run of decimal digits. -/
def digitsToNat (ds : List Char) : Nat := ds.foldl (fun n c => 10 * n + (c.toNat - 48)) 0

/-- The array index a property key denotes, if it is one: a canonical decimal
numeral (no leading zero) below `2 ^ 32 - 1`. -/
def arrayIndex? (k : String) : Option Nat :=
  match k.data with
  | [] => none
  | c :: cs =>
    if (c :: cs).all Char.isDigit && (c != '0' || cs.isEmpty) && decide (digitsToNat (c :: cs) < 4294967295)
    then some (digitsToNat (c :: cs)) else none

/-- Own-property lookup in a property list. -/
def lookupKey (k : String) : List (String × JsVal) → Option JsVal
  | [] => none
  | (k', v) :: rest => if k' = k then some v else lookupKey k rest

/-- Places a new array-index key `i` at its position among the index keys. -/
def insertIndexKey (i : Nat) (k : String) (v : JsVal) : List (String × JsVal) → List (String × JsVal)
  | [] => [(k, v)]
  | (k', v') :: rest =>
    match arrayIndex? k' with
    | some j => if j < i then (k', v') :: insertIndexKey i k v rest else (k, v) :: (k', v') :: rest
    | none => (k, v) :: (k', v') :: rest

/-- The assignment `o[k] = v` on a property list: an existing key keeps its
place and takes the new value, a new key is added in own-property order. -/
def setKey (kvs : List (String × JsVal)) (k : String) (v : JsVal) : List (String × JsVal) :=
  if (lookupKey k kvs).isSome then kvs.map (fun p => if p.1 = k then (k, v) else p)
  else match arrayIndex? k with
    | some i => insertIndexKey i k v kvs
    | none => kvs ++ [(k, v)]

/-- Pairs the elements of a list with their indices written as property keys. -/
def indexed {α : Type} (f : α → JsVal) : Nat → List α → List (String × JsVal)
  | _, [] => []
  | i, x :: xs => (toString i, f x) :: indexed f (i + 1) xs

/-- The own enumerable properties of a value, as copied by object spread and
by rest destructuring. -/
def ownProps : JsVal → List (String × JsVal)
  | .obj kvs => kvs
  | .arr xs => indexed id 0 xs
  | .str s => indexed (fun c => JsVal.str (String.singleton c)) 0 s.data
  | _ => []

/-- The call `Object.keys(v)` for a value other than `null` and `undefined`. -/
def objectKeys (v : JsVal) : List String := (ownProps v).map Prod.fst

/-- Property read `v.k` (or `v[k]`) for a value other than `null` and
`undefined`, for keys that no built-in prototype defines. -/
def getProp (v : JsVal) (k : String) : JsVal :=
  match v with
  | .obj kvs => (lookupKey k kvs).getD .undefined
  | .arr xs => if k = "length" then JsVal.ofNat xs.length else (lookupKey k (ownProps (.arr xs))).getD .undefined
  | .str s => if k = "length" then JsVal.ofNat (jsLength s) else (lookupKey k (ownProps (.str s))).getD .undefined
  | _ => .undefined

/-- The test `key.startsWith('$')`. -/
def startsWithDollar (key : String) : Bool :=
  match key.data with
  | c :: _ => c == '$'
  | [] => false

/-- Whether the characters `pat` open the text `cs`. -/
def opensWith : List Char → List Char → Bool
  | [], _ => true
  | _ :: _, [] => false
  | p :: ps, c :: cs => p == c && opensWith ps cs

/-- Substring test on character lists. -/
def includesChars (pat : List Char) : List Char → Bool
  | [] => pat.isEmpty
  | c :: cs => opensWith pat (c :: cs) || includesChars pat cs

/-- The test `text.includes(pat)`. -/
def includes (text pat : String) : Bool := includesChars pat.data text.data

/-! ## `JSON.parse` -/

namespace JSON

/-- JSON whitespace. -/
def isWs (c : Char) : Bool := c == ' ' || c == '\t' || c == '\n' || c == '\r'

/-- Drops leading JSON whitespace. -/
def skipWs : List Char → List Char
  | [] => []
  | c :: cs => if isWs c then skipWs cs else c :: cs

/-- Value of a hexadecimal digit. -/
def hexVal (c : Char) : Option Nat :=
  if '0' ≤ c ∧ c ≤ '9' then some (c.toNat - 48)
  else if 'a' ≤ c ∧ c ≤ 'f' then some (c.toNat - 87)
  else if 'A' ≤ c ∧ c ≤ 'F' then some (c.toNat - 55)
  else none

/-- Value of four hexadecimal digits. -/
def hex4 (a b c d : Char) : Option Nat :=
  match hexVal a, hexVal b, hexVal c, hexVal d with
  | some w, some x, some y, some z => some (((w * 16 + x) * 16 + y) * 16 + z)
  | _, _, _, _ => none

/-- The character of a UTF-16 code unit standing alone; a lone surrogate,
which a Lean string cannot hold, is replaced by U+FFFD. -/
def unitChar (n : Nat) : Char := if 55296 ≤ n ∧ n ≤ 57343 then Char.ofNat 65533 else Char.ofNat n

/-- Joins surrogate pairs produced by `\u` escapes into characters; the
first argument is a high surrogate waiting for its partner. -/
def decodeUnits : Option Nat → List Nat → List Char
  | none, [] => []
  | some hi, [] => [unitChar hi]
  | none, u :: rest =>
    if 55296 ≤ u ∧ u ≤ 56319 then decodeUnits (some u) rest
    else unitChar u :: decodeUnits none rest
  | some hi, u :: rest =>
    if 56320 ≤ u ∧ u ≤ 57343 then
      Char.ofNat (65536 + (hi - 55296) * 1024 + (u - 56320)) :: decodeUnits none rest
    else if 55296 ≤ u ∧ u ≤ 56319 then unitChar hi :: decodeUnits (some u) rest
    else unitChar hi :: unitChar u :: decodeUnits none rest

/-- Reads a string body after its opening quote; yields its code units
(escapes resolved) and the text after the closing quote. -/
def parseStringBody : List Char → List Nat → Option (List Nat × List Char)
  | [], _ => none
  | '\x22' :: rest, acc => some (acc.reverse, rest)
  | '\x5c' :: 'u' :: a :: b :: c :: d :: rest, acc =>
    match hex4 a b c d with
    | none => none
    | some n => parseStringBody rest (n :: acc)
  | '\x5c' :: '\x22' :: rest, acc => parseStringBody rest (34 :: acc)
  | '\x5c' :: '\x5c' :: rest, acc => parseStringBody rest (92 :: acc)
  | '\x5c' :: '/' :: rest, acc => parseStringBody rest (47 :: acc)
  | '\x5c' :: 'b' :: rest, acc => parseStringBody rest (8 :: acc)
  | '\x5c' :: 'f' :: rest, acc => parseStringBody rest (12 :: acc)
  | '\x5c' :: 'n' :: rest, acc => parseStringBody rest (10 :: acc)
  | '\x5c' :: 'r' :: rest, acc => parseStringBody rest (13 :: acc)
  | '\x5c' :: 't' :: rest, acc => parseStringBody rest (9 :: acc)
  | '\x5c' :: _, _ => none
  | c :: rest, acc => if c.toNat < 32 then none else parseStringBody rest (c.toNat :: acc)

/-- Reads a JSON string after its opening quote. -/
def parseString (cs : List Char) : Option (String × List Char) :=
  match parseStringBody cs [] with
  | some (units, rest) => some (String.mk (decodeUnits none units), rest)
  | none => none

/-- Splits off the leading decimal digits. -/
def takeDigits : List Char → List Char × List Char
  | [] => ([], [])
  | c :: cs =>
    if c.isDigit then ((takeDigits cs).1.cons c, (takeDigits cs).2) else ([], c :: cs)

/-- Reads the optional exponent part of a number: its value and the rest. -/
def parseExponent (cs : List Char) : Option (Int × List Char) :=
  match cs with
  | c :: rest =>
    if c == 'e' || c == 'E' then
      match rest with
      | '-' :: r =>
        match takeDigits r with
        | ([], _) => none
        | (ds, r2) => some (- Int.ofNat (digitsToNat ds), r2)
      | '+' :: r =>
        match takeDigits r with
        | ([], _) => none
        | (ds, r2) => some (Int.ofNat (digitsToNat ds), r2)
      | r =>
        match takeDigits r with
        | ([], _) => none
        | (ds, r2) => some (Int.ofNat (digitsToNat ds), r2)
    else some (0, cs)
  | [] => some (0, [])

/-- Reads the optional fraction part of a number: its digits and the rest. -/
def parseFraction (cs : List Char) : Option (List Char × List Char) :=
  match cs with
  | '.' :: rest =>
    match takeDigits rest with
    | ([], _) => none
    | (ds, r) => some (ds, r)
  | _ => some ([], cs)

/-- Reads an unsigned JSON number whose integer digits are `ds`. -/
def finishNumber (neg : Bool) (ds : List Char) (cs : List Char) : Option (JsVal × List Char) :=
  match parseFraction cs with
  | none => none
  | some (fs, r1) =>
    match parseExponent r1 with
    | none => none
    | some (ex, r2) =>
      let mag : Int := Int.ofNat (digitsToNat (ds ++ fs))
      some (JsVal.num (if neg then - mag else mag) (ex - Int.ofNat fs.length), r2)

/-- Reads the digits of a JSON number after its optional sign: a single `0`
or a run of digits not starting with `0`. -/
def parseUnsigned (neg : Bool) (cs : List Char) : Option (JsVal × List Char) :=
  match cs with
  | '0' :: rest => finishNumber neg ['0'] rest
  | _ =>
    match takeDigits cs with
    | ([], _) => none
    | (ds, rest) => finishNumber neg ds rest

/-- Reads a JSON number. -/
def parseNumber (cs : List Char) : Option (JsVal × List Char) :=
  match cs with
  | '-' :: rest => parseUnsigned true rest
  | _ => parseUnsigned false cs

mutual
/-- Reads one JSON value, leading whitespace allowed. -/
def parseValue : Nat → List Char → Option (JsVal × List Char)
  | 0, _ => none
  | fuel + 1, cs =>
    match skipWs cs with
    | 'n' :: 'u' :: 'l' :: 'l' :: rest => some (JsVal.null, rest)
    | 't' :: 'r' :: 'u' :: 'e' :: rest => some (JsVal.bool true, rest)
    | 'f' :: 'a' :: 'l' :: 's' :: 'e' :: rest => some (JsVal.bool false, rest)
    | '\x22' :: rest =>
      match parseString rest with
      | some (s, r) => some (JsVal.str s, r)
      | none => none
    | '[' :: rest =>
      match skipWs rest with
      | ']' :: r => some (JsVal.arr [], r)
      | r => parseElements fuel r []
    | '\x7b' :: rest =>
      match skipWs rest with
      | '\x7d' :: r => some (JsVal.obj [], r)
      | r => parseMembers fuel r []
    | other => parseNumber other
/-- Reads the elements of a non-empty array up to its closing bracket. -/
def parseElements : Nat → List Char → List JsVal → Option (JsVal × List Char)
  | 0, _, _ => none
  | fuel + 1, cs, acc =>
    match parseValue fuel cs with
    | none => none
    | some (v, rest) =>
      match skipWs rest with
      | ',' :: r => parseElements fuel r (acc ++ [v])
      | ']' :: r => some (JsVal.arr (acc ++ [v]), r)
      | _ => none
/-- Reads the members of a non-empty object up to its closing brace; a
repeated key takes the last value. -/
def parseMembers : Nat → List Char → List (String × JsVal) → Option (JsVal × List Char)
  | 0, _, _ => none
  | fuel + 1, cs, acc =>
    match skipWs cs with
    | '\x22' :: rest =>
      match parseString rest with
      | none => none
      | some (k, r1) =>
        match skipWs r1 with
        | ':' :: r2 =>
          match parseValue fuel r2 with
          | none => none
          | some (v, r3) =>
            match skipWs r3 with
            | ',' :: r4 => parseMembers fuel r4 (setKey acc k v)
            | '\x7d' :: r4 => some (JsVal.obj (setKey acc k v), r4)
            | _ => none
        | _ => none
    | _ => none
end

/-- The function `JSON.parse`: `none` stands for the `SyntaxError` it throws.
The recursion budget is the length of the text, which no JSON text exhausts
(every nested call has consumed a character). -/
def parse (text : String) : Option JsVal :=
  match parseValue (text.data.length + 1) text.data with
  | some (v, rest) => if (skipWs rest).isEmpty then some v else none
  | none => none

end JSON

/-! ## `ToString` -/

/-- Decimal digits of `r` padded with leading zeros to width `k`. -/
def padDigits (k r : Nat) : List Char :=
  List.replicate (k - (Nat.toDigits 10 r).length) '0' ++ Nat.toDigits 10 r

/-- Drops the trailing zeros of a digit list. -/
def dropTrailingZeros (ds : List Char) : List Char :=
  (ds.reverse.dropWhile (fun c => c == '0')).reverse

/-- The string form (`ToString`) of the number `m * 10 ^ e`, in plain decimal writing (the
form JavaScript prints for magnitudes from `1e-6` up to `1e21`). -/
def numToString (m e : Int) : String :=
  let sign := if m < 0 then "-" else ""
  match e with
  | Int.ofNat k => sign ++ toString (m.natAbs * 10 ^ k)
  | Int.negSucc k =>
    let q := m.natAbs / 10 ^ (k + 1)
    let r := m.natAbs % 10 ^ (k + 1)
    if r = 0 then sign ++ toString q
    else sign ++ toString q ++ "." ++ String.mk (dropTrailingZeros (padDigits (k + 1) r))

mutual
/-- The string form (`ToString`) of a value (`String(v)`, template literals, `new Error(v)`),
for values whose `toString` and `valueOf` are the built-in ones. -/
def toStr : JsVal → String
  | .undefined => "undefined"
  | .null => "null"
  | .bool b => if b then "true" else "false"
  | .num m e => numToString m e
  | .str s => s
  | .arr xs => joinElems xs
  | .obj _ => "[object Object]"
/-- The call `Array.prototype.join(',')`: `null` and `undefined` elements print as
the empty string. -/
def joinElems : List JsVal → String
  | [] => ""
  | [x] => elemStr x
  | x :: y :: rest => elemStr x ++ "," ++ joinElems (y :: rest)
/-- One element of a joined array. -/
def elemStr : JsVal → String
  | .undefined => ""
  | .null => ""
  | .bool b => if b then "true" else "false"
  | .num m e => numToString m e
  | .str s => s
  | .arr xs => joinElems xs
  | .obj _ => "[object Object]"
end

/-- Message of the `TypeError` raised by reading property `k` of `null`
(the wording of V8). -/
def typeErrorNull (k : String) : String :=
  "Cannot read properties of null (reading '" ++ k ++ "')"

/-! ## Data model -/

/-- The backend kinds offered by the connection form (`databaseTypes`). -/
inductive DbType where
  | Mongodb : DbType
  | Supabase : DbType
  | Mysql : DbType
  deriving DecidableEq, Inhabited

/-- The `value` of a backend kind. -/
def DbType.value : DbType → String
  | .Mongodb => "Mongodb"
  | .Supabase => "Supabase"
  | .Mysql => "Mysql"

/-- The call `type.toLowerCase()`. -/
def DbType.toLowerCase : DbType → String
  | .Mongodb => "mongodb"
  | .Supabase => "supabase"
  | .Mysql => "mysql"

/-- A connection object of the registry (`DatabaseConnections.jsx`, lines
95-104, with `selectedDatabase` added by `handlePrepareRag`, lines 175-179;
`undefined` until then). -/
structure Connection where
  id : Nat
  name : String
  type : DbType
  host : String
  status : String
  databases : JsVal
  rag_ready : JsVal
  version : JsVal
  selectedDatabase : JsVal
  deriving DecidableEq

/-- The metadata bundle of a generated query, as far as the dispatcher reads
it: an object whose `relevant_tables`, when truthy, is an array.  A field that
is missing is `undefined` (respectively `none`).  The bundle itself is
optional: `none` stands for `null`. -/
structure Metadata where
  primary_collection : JsVal
  relevant_tables : Option (List JsVal)
  deriving DecidableEq

/-- Outcome of a `fetch` followed by `response.text()`. -/
inductive FetchOutcome where
  | failed (message : String) : FetchOutcome
  | response (status : Nat) (text : String) : FetchOutcome
  deriving DecidableEq

/-- The flag `response.ok`: the status is in the range 200-299. -/
def statusOk (status : Nat) : Bool := decide (200 ≤ status) && decide (status ≤ 299)

/-! ## Execution dispatcher and result normaliser (`QueryResults.jsx`) -/

/-- The state of the `QueryResults` component that `handleExecute` writes. -/
structure QueryResultsState where
  showPreview : Bool
  isExecuting : Bool
  executionResults : Option JsVal
  executionError : Option String
  deriving DecidableEq

/-- The three locals set by the parsing block of `handleExecute`. -/
structure QueryParse where
  parsedQuery : JsVal
  queryType : String
  collectionName : JsVal
  deriving DecidableEq

/-- Lines 38-60 of `handleExecute`: try the query as JSON, take out the
collection keys.  A query that parses to `null` raises a `TypeError` at
`jsonQuery.collection`, which the `catch` turns into the SQL case. -/
def parseQuery (query : String) : QueryParse :=
  match JSON.parse query with
  | none => { parsedQuery := .str query, queryType := "sql", collectionName := .null }
  | some .null => { parsedQuery := .str query, queryType := "sql", collectionName := .null }
  | some jsonQuery =>
    if ((getProp jsonQuery "collection").or (getProp jsonQuery "collection_name")).truthy then
      { parsedQuery := .obj ((ownProps jsonQuery).filter
          (fun p => p.1 ≠ "collection" ∧ p.1 ≠ "collection_name")),
        queryType := "mongodb",
        collectionName := (getProp jsonQuery "collection").or (getProp jsonQuery "collection_name") }
    else { parsedQuery := jsonQuery, queryType := "mongodb", collectionName := .null }

/-- Lines 64-65: the aggregation test on the parsed query. -/
def isAggregation (parsedQuery : JsVal) : Bool :=
  parsedQuery.truthy && (parsedQuery.typeof == "object") &&
    (objectKeys parsedQuery).any startsWithDollar

/-- What building the request produced: the prompts shown and either the
request body or the message of the error thrown. -/
structure BuildResult where
  prompts : List String
  result : Except String JsVal

/-- Lines 79-98: the collection name of a document-store request. -/
def resolveCollection (metadata : Option Metadata) (collectionName : JsVal)
    (promptReply : Option String) (requestBody : List (String × JsVal)) : BuildResult :=
  let primary : JsVal := match metadata with
    | some m => m.primary_collection
    | none => .null
  let firstRelevant : Option JsVal := match metadata with
    | some m => match m.relevant_tables with
      | some (t :: _) => some t
      | _ => none
    | none => none
  if primary.truthy then
    { prompts := [], result := .ok (.obj (setKey requestBody "collection_name" primary)) }
  else match firstRelevant with
    | some t => { prompts := [], result := .ok (.obj (setKey requestBody "collection_name" t)) }
    | none =>
      if collectionName.truthy then
        { prompts := [], result := .ok (.obj (setKey requestBody "collection_name" collectionName)) }
      else
        match promptReply with
        | none =>
          { prompts := ["Enter collection name for this MongoDB query:"],
            result := .error "Collection name is required for MongoDB queries" }
        | some userCollection =>
          if userCollection = "" then
            { prompts := ["Enter collection name for this MongoDB query:"],
              result := .error "Collection name is required for MongoDB queries" }
          else
            { prompts := ["Enter collection name for this MongoDB query:"],
              result := .ok (.obj (setKey requestBody "collection_name" (.str userCollection))) }

/-- Lines 34-106 of `handleExecute`: the request body for the active
connection. -/
def buildRequest (query : String) (activeConnection : Connection) (metadata : Option Metadata)
    (promptReply : Option String) : BuildResult :=
  let requestBody : List (String × JsVal) :=
    [("database_type", .str activeConnection.type.toLowerCase)]
  let p := parseQuery query
  if activeConnection.type.toLowerCase = "mongodb" then
    let withQuery :=
      if isAggregation p.parsedQuery then
        setKey (setKey requestBody "query" (.str query)) "is_aggregation" (.bool true)
      else setKey requestBody "query" p.parsedQuery
    let withType := setKey withQuery "query_type" (.str "mongodb")
    let withDb := setKey withType "database_name" activeConnection.selectedDatabase
    resolveCollection metadata p.collectionName promptReply withDb
  else
    let withQuery := setKey requestBody "query" p.parsedQuery
    let withType := setKey withQuery "query_type" (.str "sql")
    if activeConnection.selectedDatabase.truthy then
      { prompts := [], result := .ok (.obj (setKey withType "database_name" activeConnection.selectedDatabase)) }
    else { prompts := [], result := .ok (.obj withType) }

/-- Lines 133-138: the normalised result object. -/
def normalize (data : JsVal) : JsVal :=
  let rows := ((getProp data "data").or (getProp data "result")).or (.arr [])
  .obj (setKey (setKey (ownProps data) "data" rows) "count"
    ((getProp data "count").or (getProp rows "length")))

/-- Lines 118-138: decode the response, classify it, normalise it; an error
carries the message of the exception thrown. -/
def readResponse : FetchOutcome → Except String JsVal
  | .failed message => .error message
  | .response status text =>
    match (if text = "" then some (JsVal.obj []) else JSON.parse text) with
    | none => .error "Server returned invalid response"
    | some .null => .error (typeErrorNull (if statusOk status then "status" else "error"))
    | some data =>
      if !statusOk status || decide (getProp data "status" = .str "failure") then
        .error (toStr (((getProp data "error").or (getProp data "message")).or
          (.str "Query execution failed")))
      else .ok (normalize data)

/-- Lines 147-156: the message shown for a caught error. -/
def describeError (message : String) : String :=
  if includes message "unknown top level operator" || includes message "$count" then
    "MongoDB Aggregation Error: The query contains aggregation operators (like $count, $group, etc.) which require special handling. \n        \nThe backend needs to use the aggregation pipeline instead of find(). Please ensure the backend /execute endpoint supports aggregation queries.\n\nOriginal error: " ++ message
  else message

/-- What one run of `handleExecute` did: the component state it leaves, the
alerts and prompts it showed, and the bodies it sent to `/api/execute`. -/
structure ExecuteOutcome where
  state : QueryResultsState
  alerts : List String
  prompts : List String
  requests : List JsVal

/-- The handler `handleExecute` (lines 21-162).  `promptReply` is what
`prompt` returns if it is shown (`none` for `null`), `server` gives the
outcome of the call for a request body. -/
def handleExecute (query : String) (activeConnection : Option Connection)
    (metadata : Option Metadata) (promptReply : Option String)
    (server : JsVal → FetchOutcome) (st : QueryResultsState) : ExecuteOutcome :=
  let refused : ExecuteOutcome :=
    { state := st, alerts := ["Please connect to a database first!"], prompts := [], requests := [] }
  match activeConnection with
  | none => refused
  | some conn =>
    if !conn.rag_ready.truthy then refused
    else
      let started : QueryResultsState :=
        { st with isExecuting := true, executionError := none, executionResults := none }
      let built := buildRequest query conn metadata promptReply
      match built.result with
      | .error message =>
        { state := { started with executionError := some (describeError message), isExecuting := false },
          alerts := [], prompts := built.prompts, requests := [] }
      | .ok requestBody =>
        match readResponse (server requestBody) with
        | .error message =>
          { state := { started with executionError := some (describeError message), isExecuting := false },
            alerts := [], prompts := built.prompts, requests := [requestBody] }
        | .ok normalizedData =>
          { state := { started with executionResults := some normalizedData, showPreview := true,
                                    isExecuting := false },
            alerts := [], prompts := built.prompts, requests := [requestBody] }


/-! ## Connection registry (`DatabaseConnections.jsx`) -/

/-- The connection form (`newConnection`). -/
structure NewConnection where
  name : String
  type : DbType
  host : String
  database : String
  anonKey : String
  username : String
  port : String
  password : String
  deriving DecidableEq

/-- The cleared form set after a successful connect (lines 112-121), also
the initial form. -/
def blankForm : NewConnection :=
  { name := "", type := .Mongodb, host := "", database := "", anonKey := "",
    username := "", port := "", password := "" }

/-- The state of the `DatabaseConnections` component. -/
structure RegistryState where
  connections : List Connection
  showAddForm : Bool
  isConnecting : Bool
  error : String
  selectedConnectionId : Option Nat
  isPreparingRag : Bool
  newConnection : NewConnection
  deriving DecidableEq

/-- What one run of a registry handler did: the component state it leaves,
the request bodies it sent, the connections it passed to
`onConnectionSelect`, and the alerts it showed. -/
structure RegistryOutcome where
  state : RegistryState
  requests : List JsVal
  selected : List Connection
  alerts : List String
  deriving DecidableEq

/-- Lines 32-39: the truthiness of `isValid`. -/
def isValid (newConnection : NewConnection) : Bool :=
  match newConnection.type with
  | .Mongodb => decide (newConnection.name ≠ "") && decide (newConnection.host ≠ "")
  | .Supabase =>
    decide (newConnection.name ≠ "") && decide (newConnection.host ≠ "") &&
      decide (newConnection.anonKey ≠ "")
  | .Mysql =>
    decide (newConnection.name ≠ "") && decide (newConnection.host ≠ "") &&
      decide (newConnection.username ≠ "") && decide (newConnection.port ≠ "") &&
      decide (newConnection.password ≠ "")

/-- White space and line terminators skipped by `parseInt`. -/
def isJsWhitespace (c : Char) : Bool :=
  [9, 10, 11, 12, 13, 32, 160, 5760, 8232, 8233, 8239, 8287, 12288, 65279].contains c.toNat ||
    (decide (8192 ≤ c.toNat) && decide (c.toNat ≤ 8202))

/-- Value of a character as a digit in a radix up to 36. -/
def digitValue (c : Char) : Option Nat :=
  if '0' ≤ c ∧ c ≤ '9' then some (c.toNat - 48)
  else if 'a' ≤ c ∧ c ≤ 'z' then some (c.toNat - 87)
  else if 'A' ≤ c ∧ c ≤ 'Z' then some (c.toNat - 55)
  else none

/-- The values of the leading digits of the given radix. -/
def takeRadixDigits (radix : Nat) : List Char → List Nat
  | [] => []
  | c :: cs =>
    match digitValue c with
    | some d => if d < radix then d :: takeRadixDigits radix cs else []
    | none => []

/-- Reads the digits of `parseInt` after white space and sign. -/
def parseIntDigits (cs : List Char) : Option Nat :=
  match cs with
  | '0' :: 'x' :: rest =>
    match takeRadixDigits 16 rest with
    | [] => none
    | ds => some (ds.foldl (fun n d => 16 * n + d) 0)
  | '0' :: 'X' :: rest =>
    match takeRadixDigits 16 rest with
    | [] => none
    | ds => some (ds.foldl (fun n d => 16 * n + d) 0)
  | _ =>
    match takeRadixDigits 10 cs with
    | [] => none
    | ds => some (ds.foldl (fun n d => 10 * n + d) 0)

/-- The function `parseInt` with one argument; `none` stands for `NaN`. -/
def parseInt (s : String) : Option Int :=
  match s.data.dropWhile isJsWhitespace with
  | '-' :: rest => (parseIntDigits rest).map (fun n => - Int.ofNat n)
  | '+' :: rest => (parseIntDigits rest).map Int.ofNat
  | cs => (parseIntDigits cs).map Int.ofNat

/-- The expression `parseInt(newConnection.port) || 3306` (line 59). -/
def portNumber (port : String) : Int :=
  match parseInt port with
  | some n => if n = 0 then 3306 else n
  | none => 3306

/-- Lines 47-61: the body of the connect request. -/
def connectRequest (newConnection : NewConnection) : JsVal :=
  let requestBody : List (String × JsVal) :=
    [("database_type", .str newConnection.type.toLowerCase)]
  match newConnection.type with
  | .Mongodb => .obj (setKey requestBody "connection_string" (.str newConnection.host))
  | .Supabase =>
    .obj (setKey (setKey requestBody "connection_string" (.str newConnection.host))
      "connection_key" (.str newConnection.anonKey))
  | .Mysql =>
    .obj (setKey (setKey (setKey (setKey requestBody "host" (.str newConnection.host))
      "username" (.str newConnection.username))
      "port" (.num (portNumber newConnection.port) 0))
      "password" (.str newConnection.password))

/-- Lines 74-104: decode the connect response and build the connection
object; an error carries the message of the exception thrown.  `now` is the
value of `Date.now()`. -/
def readConnect (newConnection : NewConnection) (now : Nat) :
    FetchOutcome → Except String (Connection × JsVal)
  | .failed message => .error message
  | .response status text =>
    match (if text = "" then some (JsVal.obj []) else JSON.parse text) with
    | none =>
      .error ("Server returned invalid response: " ++ String.mk (substringUnits 100 text.data))
    | some .null => .error (typeErrorNull (if statusOk status then "databases" else "error"))
    | some data =>
      if !statusOk status then
        .error (toStr ((((getProp data "error").or (getProp data "message")).or
          (getProp data "detail")).or (.str "Unknown server error"))
          ++ " (Status: " ++ toString status ++ ")")
      else
        .ok ({ id := now, name := newConnection.name, type := newConnection.type,
               host := newConnection.host, status := "connected",
               databases := ((getProp data "databases").or (getProp data "available_tables")).or
                 (.arr []),
               rag_ready := (getProp data "rag_ready").or (.bool false),
               version := (getProp data "mysql_version").or .null,
               selectedDatabase := .undefined }, data)

/-- Lines 124-130: the error text set for a caught exception. -/
def connectErrorText (message : String) : String :=
  if includes message "Failed to fetch" || includes message "ECONNRESET" then
    "Backend server is not accessible. Please check if your Flask server and ngrok tunnel are running."
  else if message = "" then "Failed to connect to database" else message

/-- The handler `handleAddConnection` (lines 30-135).  `server` gives the
outcome of the call to `/api/connect` for a request body, `now` is the value
of `Date.now()`. -/
def handleAddConnection (now : Nat) (server : JsVal → FetchOutcome) (st : RegistryState) :
    RegistryOutcome :=
  if isValid st.newConnection then
    let requestBody := connectRequest st.newConnection
    match readConnect st.newConnection now (server requestBody) with
    | .error message =>
      { state := { st with isConnecting := false, error := connectErrorText message },
        requests := [requestBody], selected := [], alerts := [] }
    | .ok (connection, data) =>
      { state := { st with isConnecting := false, error := "",
                           connections := st.connections ++ [connection],
                           newConnection := blankForm, showAddForm := false },
        requests := [requestBody],
        selected :=
          if st.newConnection.type = .Supabase ∧ (getProp data "rag_ready").truthy = true
          then [connection] else [],
        alerts := [] }
  else { state := st, requests := [], selected := [], alerts := [] }

/-! ## Specification-side definitions

These follow the wording of the specification and are compared with the
handlers above in the theorems below. -/

/-- Follows the spec's words "first match wins": the first source of a list
that has a value. -/
def firstAvailable : List (Option JsVal) → Option JsVal
  | [] => none
  | some v :: _ => some v
  | none :: rest => firstAvailable rest

/-- Source (i) of the precedence rule: metadata's designated primary
collection, available when the bundle exists and the name is truthy
(not blank). -/
def primarySource (metadata : Option Metadata) : Option JsVal :=
  match metadata with
  | some m => if m.primary_collection.truthy then some m.primary_collection else none
  | none => none

/-- Source (ii) of the precedence rule: the first entry of metadata's
relevant-collections list, available when the list has a first entry. -/
def relevantSource (metadata : Option Metadata) : Option JsVal :=
  match metadata with
  | some m => match m.relevant_tables with
    | some tables => tables.head?
    | none => none
  | none => none

/-- Source (iii) of the precedence rule: the `collection` key embedded in
the query, else its `collection_name` key, available when the query is JSON
and the key carries a truthy value. -/
def embeddedSource (query : String) : Option JsVal :=
  match JSON.parse query with
  | some jsonQuery =>
    if ((getProp jsonQuery "collection").or (getProp jsonQuery "collection_name")).truthy
    then some ((getProp jsonQuery "collection").or (getProp jsonQuery "collection_name"))
    else none
  | none => none

/-- Source (iv) of the precedence rule: the name the user typed into the
prompt, available unless the prompt was cancelled or left empty. -/
def promptSource (promptReply : Option String) : Option JsVal :=
  match promptReply with
  | some userCollection => if userCollection = "" then none else some (.str userCollection)
  | none => none

/-- The `collection_name` of every request a run sent. -/
def sentCollections (out : ExecuteOutcome) : List JsVal :=
  out.requests.map (fun r => getProp r "collection_name")

/-- Whether a request body carries the property `k`. -/
def hasKey (r : JsVal) (k : String) : Bool := (lookupKey k (ownProps r)).isSome

/-- Follows the spec's words: the structured value with the `collection`
and `collection_name` keys removed. -/
def stripCollectionKeys (kvs : List (String × JsVal)) : List (String × JsVal) :=
  kvs.filter (fun p => p.1 ≠ "collection" ∧ p.1 ≠ "collection_name")

/-- Whether a run reported an error to the user: it set the error text or
showed an alert. -/
def reportsError (out : RegistryOutcome) : Bool :=
  decide (out.state.error ≠ "") || !out.alerts.isEmpty

/-- A field of a response body counts as absent when the key is missing or
holds `null`. -/
def absent (v : JsVal) : Prop := v = .undefined ∨ v = .null

/-- The request body of a document-store run before the collection name is
added (lines 62-77). -/
def mongoBody (query : String) (conn : Connection) : List (String × JsVal) :=
  setKey (setKey
    (if isAggregation (parseQuery query).parsedQuery then
      setKey (setKey [("database_type", .str "mongodb")] "query" (.str query))
        "is_aggregation" (.bool true)
    else setKey [("database_type", .str "mongodb")] "query" (parseQuery query).parsedQuery)
    "query_type" (.str "mongodb")) "database_name" conn.selectedDatabase

/-- A ready document-store connection with database `shop`. -/
def shopConnection : Connection :=
  { id := 1, name := "shop", type := .Mongodb, host := "mongodb://localhost:27017",
    status := "connected", databases := .arr [.str "shop"], rag_ready := .bool true,
    version := .null, selectedDatabase := .str "shop" }

/-- A component state before any execution. -/
def idleState : QueryResultsState :=
  { showPreview := false, isExecuting := false, executionResults := none, executionError := none }


/-- A ready relational-server connection with database `shop`. -/
def mysqlConnection : Connection :=
  { id := 2, name := "warehouse", type := .Mysql, host := "localhost",
    status := "connected", databases := .arr [.str "shop"], rag_ready := .bool true,
    version := .str "8.0", selectedDatabase := .str "shop" }

/-- Metadata naming `orders` as the primary collection. -/
def ordersMetadata : Metadata :=
  { primary_collection := .str "orders", relevant_tables := none }

/-- A server that answers every request with status 200 and the given body. -/
def replyWith (text : String) : JsVal → FetchOutcome := fun _ => .response 200 text

/-- The request body of a run against a relational connection before the
database name is added (lines 100-102). -/
def sqlBody (query : String) (conn : Connection) : List (String × JsVal) :=
  setKey (setKey [("database_type", .str conn.type.toLowerCase)] "query"
    (parseQuery query).parsedQuery) "query_type" (.str "sql")

/-- A successful execution response with decoded body `body`: the status is
in the 2xx range, the text is empty (decoded as the empty object) or JSON,
the body is not `null` and does not carry `status: "failure"`. -/
def successBody (resp : FetchOutcome) (body : JsVal) : Prop :=
  ∃ status text, resp = .response status text ∧ statusOk status = true ∧
    (if text = "" then some (JsVal.obj []) else JSON.parse text) = some body ∧
    body ≠ .null ∧ getProp body "status" ≠ .str "failure"

/-- Follows the spec's words (section 6): some required field of the
backend kind is blank.  Document store: name, connection string; managed
relational: name, connection string, access key; relational server: name,
host, username, port, password. -/
def missingRequired (newConnection : NewConnection) : Bool :=
  match newConnection.type with
  | .Mongodb => decide (newConnection.name = "") || decide (newConnection.host = "")
  | .Supabase =>
    decide (newConnection.name = "") || decide (newConnection.host = "") ||
      decide (newConnection.anonKey = "")
  | .Mysql =>
    decide (newConnection.name = "") || decide (newConnection.host = "") ||
      decide (newConnection.username = "") || decide (newConnection.port = "") ||
      decide (newConnection.password = "")

/-- A registry with no connection and an open form for a document store
whose name was left blank. -/
def blankNameState : RegistryState :=
  { connections := [], showAddForm := true, isConnecting := false, error := "",
    selectedConnectionId := none, isPreparingRag := false,
    newConnection := { blankForm with host := "mongodb://localhost:27017" } }

/-- A registry with no connection and an open form for a relational server
whose password was left blank. -/
def blankPasswordState : RegistryState :=
  { connections := [], showAddForm := true, isConnecting := false, error := "",
    selectedConnectionId := none, isPreparingRag := false,
    newConnection :=
      { name := "db", type := .Mysql, host := "localhost", database := "", anonKey := "",
        username := "root", port := "3306", password := "" } }
/-! ## Connection registry: preparation (`DatabaseConnections.jsx`, lines 137-199) -/

/-- Lines 144-147: the body of the prepare request. -/
def prepareRequest (connection : Connection) (databaseName : JsVal) : JsVal :=
  .obj [("database_type", .str connection.type.toLowerCase), ("database_name", databaseName)]

/-- Lines 159-172: decode the prepare response; an error carries the message
of the exception thrown.  A body that is `null` raises a `TypeError` at the
first property read (`data.error`, or `data.rag_ready` at line 178). -/
def readPrepare : FetchOutcome → Except String JsVal
  | .failed message => .error message
  | .response status text =>
    match (if text = "" then some (JsVal.obj []) else JSON.parse text) with
    | none => .error "Server returned invalid response"
    | some .null => .error (typeErrorNull (if statusOk status then "rag_ready" else "error"))
    | some data =>
      if !statusOk status then
        .error (toStr (((getProp data "error").or (getProp data "message")).or
          (.str "Failed to prepare RAG")))
      else .ok data

/-- Lines 175-179: the connection object after a successful preparation. -/
def updatedConnection (connection : Connection) (databaseName : JsVal) (data : JsVal) :
    Connection :=
  { connection with
    selectedDatabase := databaseName,
    rag_ready := (getProp data "rag_ready").or (.bool true) }

/-- The handler `handlePrepareRag` (lines 137-199).  `server` gives the
outcome of the call to `/api/prepare_rag` for a request body. -/
def handlePrepareRag (connectionId : Nat) (databaseName : JsVal)
    (server : JsVal → FetchOutcome) (st : RegistryState) : RegistryOutcome :=
  match st.connections.find? (fun conn => decide (conn.id = connectionId)) with
  | none => { state := st, requests := [], selected := [], alerts := [] }
  | some connection =>
    let requestBody := prepareRequest connection databaseName
    match readPrepare (server requestBody) with
    | .error message =>
      { state := { st with isPreparingRag := false },
        requests := [requestBody], selected := [],
        alerts := ["Failed to prepare RAG: " ++ message] }
    | .ok data =>
      { state := { st with
          connections := st.connections.map
            (fun conn => if conn.id = connectionId
              then updatedConnection connection databaseName data else conn),
          selectedConnectionId := none, isPreparingRag := false },
        requests := [requestBody],
        selected := [updatedConnection connection databaseName data],
        alerts := ["RAG prepared successfully for database: " ++ toStr databaseName] }

/-- The parent's `activeConnection` after a registry handler ran:
`onConnectionSelect` is `setActiveConnection` (`App.jsx`, line 101), so the
last connection selected, if any, replaces the active one. -/
def activeAfter (activeConnection : Option Connection) (out : RegistryOutcome) :
    Option Connection :=
  match out.selected.getLast? with
  | some connection => some connection
  | none => activeConnection

/-- A response with status `status` whose body decodes to `data`: the text
is empty (decoded as the empty object) or JSON, and the body is not `null`. -/
def decodedBody (resp : FetchOutcome) (status : Nat) (data : JsVal) : Prop :=
  ∃ text, resp = .response status text ∧
    (if text = "" then some (JsVal.obj []) else JSON.parse text) = some data ∧ data ≠ .null

/-- A readiness flag as the backend types it: missing, `null` or a boolean. -/
def flagLike (v : JsVal) : Prop := v = .undefined ∨ v = .null ∨ ∃ b, v = .bool b

/-- Follows the spec's words: the message drawn from the first of the
`error`, `message` and `detail` fields that is truthy, else the given
default. -/
def firstMessage (data : JsVal) (fallback : String) : String :=
  toStr ((((getProp data "error").or (getProp data "message")).or (getProp data "detail")).or
    (.str fallback))

/-- A connected, unprepared document-store connection with two databases. -/
def docsConnection : Connection :=
  { id := 7, name := "docs", type := .Mongodb, host := "mongodb://localhost:27017",
    status := "connected", databases := .arr [.str "shop", .str "crm"],
    rag_ready := .bool false, version := .null, selectedDatabase := .undefined }

/-- A registry holding the connection `docsConnection` only. -/
def oneMongoState : RegistryState :=
  { connections := [docsConnection],
    showAddForm := false, isConnecting := false, error := "",
    selectedConnectionId := some 7, isPreparingRag := false, newConnection := blankForm }

/-- A registry with no connection and a complete form for a managed
relational service. -/
def supabaseFormState : RegistryState :=
  { connections := [], showAddForm := true, isConnecting := false, error := "",
    selectedConnectionId := none, isPreparingRag := false,
    newConnection :=
      { name := "cloud", type := .Supabase, host := "https://x.supabase.co", database := "",
        anonKey := "key", username := "", port := "", password := "" } }

/-- A registry with no connection and a complete form for a relational
server with the given port text. -/
def mysqlFormState (port : String) : RegistryState :=
  { connections := [], showAddForm := true, isConnecting := false, error := "",
    selectedConnectionId := none, isPreparingRag := false,
    newConnection :=
      { name := "db", type := .Mysql, host := "localhost", database := "", anonKey := "",
        username := "root", port := port, password := "secret" } }

/-- A server that answers every request with the given status and body. -/
def answerWith (status : Nat) (text : String) : JsVal → FetchOutcome :=
  fun _ => .response status text

/-! ## `JSON.stringify` with two-space indentation -/

namespace JSON

/-- Four lower-case hexadecimal digits of a code unit. -/
def hex4Digits (n : Nat) : List Char :=
  [Nat.digitChar (n / 4096 % 16), Nat.digitChar (n / 256 % 16), Nat.digitChar (n / 16 % 16),
    Nat.digitChar (n % 16)]

/-- The escape of one character inside a JSON string (`QuoteJSONString`). -/
def quoteChar (c : Char) : List Char :=
  if c = '\x22' then ['\x5c', '\x22']
  else if c = '\x5c' then ['\x5c', '\x5c']
  else if c.toNat = 8 then ['\x5c', 'b']
  else if c.toNat = 12 then ['\x5c', 'f']
  else if c = '\n' then ['\x5c', 'n']
  else if c = '\r' then ['\x5c', 'r']
  else if c = '\t' then ['\x5c', 't']
  else if c.toNat < 32 then '\x5c' :: 'u' :: hex4Digits c.toNat
  else [c]

/-- A string as a JSON string literal. -/
def quote (s : String) : List Char :=
  '\x22' :: (s.data.flatMap quoteChar ++ ['\x22'])

/-- Joins member or element texts with `,`, a line break and the indent. -/
def joinLines (indent : List Char) : List (List Char) → List Char
  | [] => []
  | [x] => x
  | x :: y :: rest => x ++ (',' :: '\n' :: indent) ++ joinLines indent (y :: rest)

mutual
/-- Text of a value at the given indent; `undefined`, which only an array
element can be here, prints as `null`. -/
def stringifyValue (indent : List Char) : JsVal → List Char
  | .undefined => ['n', 'u', 'l', 'l']
  | .null => ['n', 'u', 'l', 'l']
  | .bool b => if b then ['t', 'r', 'u', 'e'] else ['f', 'a', 'l', 's', 'e']
  | .num m e => (numToString m e).data
  | .str s => quote s
  | .arr xs =>
    match stringifyElements (indent ++ [' ', ' ']) xs with
    | [] => ['[', ']']
    | parts =>
      ('[' :: '\n' :: (indent ++ [' ', ' '])) ++ joinLines (indent ++ [' ', ' ']) parts ++
        ('\n' :: indent) ++ [']']
  | .obj kvs =>
    match stringifyMembers (indent ++ [' ', ' ']) kvs with
    | [] => ['\x7b', '\x7d']
    | parts =>
      ('\x7b' :: '\n' :: (indent ++ [' ', ' '])) ++ joinLines (indent ++ [' ', ' ']) parts ++
        ('\n' :: indent) ++ ['\x7d']
/-- Texts of the elements of an array. -/
def stringifyElements (indent : List Char) : List JsVal → List (List Char)
  | [] => []
  | x :: rest => stringifyValue indent x :: stringifyElements indent rest
/-- Texts of the members of an object; a member whose value is `undefined`
is left out. -/
def stringifyMembers (indent : List Char) : List (String × JsVal) → List (List Char)
  | [] => []
  | (_, .undefined) :: rest => stringifyMembers indent rest
  | (k, v) :: rest =>
    (quote k ++ (':' :: ' ' :: stringifyValue indent v)) :: stringifyMembers indent rest
end

/-- The call `JSON.stringify(value, null, 2)` for a value other than
`undefined`. -/
def stringify (value : JsVal) : String := String.mk (stringifyValue [] value)

end JSON

/-! ## Mode orchestrator (`QueryInput.jsx`) -/

/-- The method `String.prototype.trim`. -/
def trim (s : String) : String :=
  String.mk ((s.data.dropWhile isJsWhitespace).reverse.dropWhile isJsWhitespace).reverse

/-- Length of the shortest opening part of the text that holds the last
occurrence of `c`, if `c` occurs. -/
def lastEnd (c : Char) : List Char → Option Nat
  | [] => none
  | d :: rest =>
    match lastEnd c rest with
    | some n => some (n + 1)
    | none => if d = c then some 1 else none

/-- The first match of the pattern at line 142 (a `{` up to the last `}`, or
a `[` up to the last `]`, tried at each position from the left): the text
before the match, the match and the text after it. -/
def findJsonBlock : List Char → List Char → Option (List Char × List Char × List Char)
  | [], _ => none
  | c :: rest, before =>
    if c = '\x7b' then
      match lastEnd '\x7d' rest with
      | some n => some (before.reverse, c :: rest.take n, rest.drop n)
      | none => findJsonBlock rest (c :: before)
    else if c = '[' then
      match lastEnd ']' rest with
      | some n => some (before.reverse, c :: rest.take n, rest.drop n)
      | none => findJsonBlock rest (c :: before)
    else findJsonBlock rest (c :: before)

/-- The two modes of the input panel. -/
inductive Mode where
  | sql : Mode
  | chat : Mode
  deriving DecidableEq, Inhabited

/-- One message of a thread.  A property the source leaves out is
`undefined` here (`false` for `isLoading`). -/
structure Message where
  id : Nat
  type : String
  content : JsVal
  timestamp : String
  isLoading : Bool
  sqlQuery : JsVal
  jsonData : JsVal
  textContent : JsVal
  deriving DecidableEq

/-- The state of the `QueryInput` component. -/
structure QueryInputState where
  naturalLanguageInput : String
  mode : Mode
  sqlMessages : List Message
  chatMessages : List Message
  deriving DecidableEq

/-- The readings of the clock during one submission: `Date.now()` and
`new Date().toISOString()` for the user message, the loading message and the
reply. -/
structure SubmitClock where
  userNow : Nat
  userStamp : String
  loadingNow : Nat
  loadingStamp : String
  replyNow : Nat
  replyStamp : String
  deriving DecidableEq

/-- The arguments of one call of `onGenerateQuery`. -/
structure GenerateCall where
  naturalLanguageInput : String
  schema : String
  sqlQuery : JsVal
  metadata : JsVal
  deriving DecidableEq

/-- The thread selected by a mode (lines 28-29). -/
def threadOf (mode : Mode) (st : QueryInputState) : List Message :=
  match mode with
  | .sql => st.sqlMessages
  | .chat => st.chatMessages

/-- The setter selected by a mode (line 29). -/
def setThread (mode : Mode) (st : QueryInputState) (messages : List Message) : QueryInputState :=
  match mode with
  | .sql => { st with sqlMessages := messages }
  | .chat => { st with chatMessages := messages }

/-- A bot message with only the properties every bot message has. -/
def botMessage (id : Nat) (content : JsVal) (timestamp : String) : Message :=
  { id := id, type := "bot", content := content, timestamp := timestamp, isLoading := false,
    sqlQuery := .undefined, jsonData := .undefined, textContent := .undefined }

/-- Lines 129-151: the structured payload and the caption found in an answer;
an error is the `TypeError` raised by `answer.match` on an answer that is no
string. -/
def extractJson (answer : JsVal) : Except String (JsVal × JsVal) :=
  match JSON.parse (toStr answer) with
  | some parsed => if parsed.typeof = "object" then .ok (parsed, .null) else .ok (.null, answer)
  | none =>
    match answer with
    | .str s =>
      match findJsonBlock s.data [] with
      | some (before, block, after) =>
        match JSON.parse (String.mk block) with
        | some jsonData => .ok (jsonData, .str (trim (String.mk (before ++ after))))
        | none => .ok (.null, answer)
      | none => .ok (.null, answer)
    | _ => .error "answer.match is not a function"

/-- Lines 171-186: the generated query and the text displayed for a
structured-mode result. -/
def extractQuery (result : JsVal) : JsVal × JsVal :=
  if (getProp result "generated_query").truthy then
    (.str (JSON.stringify (getProp result "generated_query")),
      .str ("Generated Query:\n```json\n" ++ JSON.stringify (getProp result "generated_query")
        ++ "\n```"))
  else if (getProp result "sql_query").truthy then
    (getProp result "sql_query", getProp result "sql_query")
  else if (getProp result "message").truthy then
    (getProp result "message", getProp result "message")
  else (.null, .str "No query generated")

/-- Lines 115-227: the reply message and the calls of `onGenerateQuery` for
the outcome of the upstream call; an error is an exception caught at line
229. -/
def replyTo (clock : SubmitClock) (mode : Mode) (currentInput : String) :
    FetchOutcome → Except String (Message × List GenerateCall)
  | .failed message => .error message
  | .response status text =>
    match JSON.parse text with
    | none => .error "SyntaxError"
    | some .null =>
      .error (typeErrorNull (if statusOk status then
        (if mode = .chat then "answer" else "generated_query") else "error"))
    | some result =>
      if statusOk status then
        match mode with
        | .chat =>
          match extractJson (((getProp result "answer").or (getProp result "message")).or
              (.str "Response received")) with
          | .error message => .error message
          | .ok (jsonData, textContent) =>
            if jsonData.truthy then
              .ok ({ botMessage (clock.replyNow + 2)
                      (((getProp result "answer").or (getProp result "message")).or
                        (.str "Response received")) clock.replyStamp with
                     jsonData := jsonData, textContent := textContent }, [])
            else
              .ok ({ botMessage (clock.replyNow + 2)
                      (((getProp result "answer").or (getProp result "message")).or
                        (.str "Response received")) clock.replyStamp with
                     sqlQuery := .null }, [])
        | .sql =>
          .ok ({ botMessage (clock.replyNow + 2) (extractQuery result).2 clock.replyStamp with
                 sqlQuery := (extractQuery result).1 },
            if (extractQuery result).1.truthy then
              [{ naturalLanguageInput := currentInput, schema := "",
                 sqlQuery := (extractQuery result).1, metadata := getProp result "metadata" }]
            else [])
      else
        .ok ({ botMessage (clock.replyNow + 2)
                (.str ("Failed: " ++ toStr (((getProp result "error").or
                  (getProp result "message")).or (.str "Unknown error")))) clock.replyStamp with
               sqlQuery := .null }, [])

/-- Lines 86-103: the endpoint and the body of the upstream call. -/
def submitRequest (mode : Mode) (currentInput : String) (activeConnection : Connection) :
    String × JsVal :=
  match mode with
  | .chat =>
    ("/api/conversation",
      .obj [("question", .str currentInput),
            ("database_name", activeConnection.selectedDatabase.or (.str activeConnection.name)),
            ("database_type", .str activeConnection.type.toLowerCase)])
  | .sql =>
    ("/api/chat",
      .obj [("prompt", .str currentInput),
            ("database_name", activeConnection.selectedDatabase.or (.str activeConnection.name))])

/-- What a submission did to its thread, which calls it sent and which
queries it passed to `onGenerateQuery`. -/
structure ThreadResult where
  thread : List Message
  requests : List (String × JsVal)
  generated : List GenerateCall
  deriving DecidableEq

/-- Lines 45-50: the user message. -/
def userMessage (clock : SubmitClock) (currentInput : String) : Message :=
  { id := clock.userNow, type := "user", content := .str currentInput,
    timestamp := clock.userStamp, isLoading := false, sqlQuery := .undefined,
    jsonData := .undefined, textContent := .undefined }

/-- Lines 59-65: the loading message. -/
def loadingMessage (clock : SubmitClock) : Message :=
  { id := clock.loadingNow + 1, type := "bot", content := .str "Generating SQL query...",
    timestamp := clock.loadingStamp, isLoading := true, sqlQuery := .undefined,
    jsonData := .undefined, textContent := .undefined }

/-- Lines 74-79: the guidance message of the guard. -/
def guidanceMessage (clock : SubmitClock) : Message :=
  botMessage (clock.replyNow + 2)
    (.str "Please connect to a database and prepare RAG before asking questions.")
    clock.replyStamp

/-- Lines 235-240: the message shown for a caught exception. -/
def apologyMessage (clock : SubmitClock) : Message :=
  botMessage (clock.replyNow + 2)
    (.str "Sorry, I encountered an error while generating the SQL query. Please try again.")
    clock.replyStamp

/-- The replacement of the loading message (lines 72-81 and alike): the
loading messages are filtered out and the reply is appended. -/
def settle (pending : List Message) (reply : Message) : List Message :=
  pending.filter (fun msg => !msg.isLoading) ++ [reply]

/-- Lines 43-66 of `handleSubmit`, the part that runs at once: the user
message and the loading message are appended to the thread. -/
def beginSubmission (clock : SubmitClock) (currentInput : String)
    (messages : List Message) : List Message :=
  (messages ++ [userMessage clock currentInput]) ++ [loadingMessage clock]

/-- Lines 68-243 of `handleSubmit`: the guard, the upstream call and the
update that stores the reply.  The update is functional (`prev => ...`), so
it works on `pending`, the thread as it stands when the update runs: unless
the guard refuses, the handler awaits `fetch` first (line 107), and what
other submissions appended to the thread in the meantime is part of
`pending`. -/
def completeSubmission (clock : SubmitClock) (activeConnection : Option Connection)
    (server : String → JsVal → FetchOutcome) (mode : Mode) (currentInput : String)
    (pending : List Message) : ThreadResult :=
  let refused : ThreadResult :=
    { thread := settle pending (guidanceMessage clock), requests := [], generated := [] }
  match activeConnection with
  | none => refused
  | some conn =>
    if !conn.rag_ready.truthy then refused
    else
      match replyTo clock mode currentInput
          (server (submitRequest mode currentInput conn).1
            (submitRequest mode currentInput conn).2) with
      | .error _ =>
        { thread := settle pending (apologyMessage clock),
          requests := [submitRequest mode currentInput conn], generated := [] }
      | .ok (botResponse, generated) =>
        { thread := settle pending botResponse,
          requests := [submitRequest mode currentInput conn], generated := generated }

/-- Lines 44-243 of `handleSubmit` on the thread of the mode in force, for a
submission that is completed before anything else touches the thread: the
opening, then the completion on the thread the opening left. -/
def submitThread (clock : SubmitClock) (activeConnection : Option Connection)
    (server : String → JsVal → FetchOutcome) (mode : Mode) (currentInput : String)
    (messages : List Message) : ThreadResult :=
  completeSubmission clock activeConnection server mode currentInput
    (beginSubmission clock currentInput messages)

/-- Two submissions on one thread, the second opened while the call of the
first is pending: the thread once the reply to the first is stored. -/
def overlappedFirst (clockA clockB : SubmitClock) (activeConnection : Option Connection)
    (server : String → JsVal → FetchOutcome) (mode : Mode) (inputA inputB : String)
    (messages : List Message) : List Message :=
  (completeSubmission clockA activeConnection server mode inputA
    (beginSubmission clockB inputB (beginSubmission clockA inputA messages))).thread

/-- Two submissions on one thread, the second opened while the call of the
first is pending: the thread once both replies are stored, the first one
first. -/
def overlappedBoth (clockA clockB : SubmitClock) (activeConnection : Option Connection)
    (server : String → JsVal → FetchOutcome) (mode : Mode) (inputA inputB : String)
    (messages : List Message) : List Message :=
  (completeSubmission clockB activeConnection server mode inputB
    (overlappedFirst clockA clockB activeConnection server mode inputA inputB messages)).thread

/-- What one run of `handleSubmit` did: the component state it leaves, the
upstream calls it sent (endpoint and body) and the calls of
`onGenerateQuery`. -/
structure SubmitOutcome where
  state : QueryInputState
  requests : List (String × JsVal)
  generated : List GenerateCall
  deriving DecidableEq

/-- The handler `handleSubmit` (lines 41-245), run to completion before
another submission opens.  `server` gives the outcome of the upstream call
for an endpoint and a request body. -/
def handleSubmit (clock : SubmitClock) (activeConnection : Option Connection)
    (server : String → JsVal → FetchOutcome) (st : QueryInputState) : SubmitOutcome :=
  if trim st.naturalLanguageInput = "" then { state := st, requests := [], generated := [] }
  else
    { state := setThread st.mode { st with naturalLanguageInput := "" }
        (submitThread clock activeConnection server st.mode st.naturalLanguageInput
          (threadOf st.mode st)).thread,
      requests := (submitThread clock activeConnection server st.mode st.naturalLanguageInput
          (threadOf st.mode st)).requests,
      generated := (submitThread clock activeConnection server st.mode st.naturalLanguageInput
          (threadOf st.mode st)).generated }

/-- The handler `handleModeChange` (lines 32-39): the new state and the mode
passed to `onModeChange`. -/
def handleModeChange (newMode : Mode) (st : QueryInputState) : QueryInputState × Mode :=
  ({ st with mode := newMode }, newMode)

/-- An event of the input panel: a click on a mode button, or text typed
into the input followed by a submission. -/
inductive InputEvent where
  | modeChange (newMode : Mode) : InputEvent
  | submit (text : String) (clock : SubmitClock) (activeConnection : Option Connection)
      (server : String → JsVal → FetchOutcome) : InputEvent

/-- The state after one event. -/
def stepInput (st : QueryInputState) : InputEvent → QueryInputState
  | .modeChange newMode => (handleModeChange newMode st).1
  | .submit text clock activeConnection server =>
    (handleSubmit clock activeConnection server { st with naturalLanguageInput := text }).state

/-- The state after a sequence of events. -/
def runInput (st : QueryInputState) (events : List InputEvent) : QueryInputState :=
  events.foldl stepInput st

/-- The submissions of a sequence of events made while the given mode was
in force, starting in mode `current`. -/
def submissionsIn (mode : Mode) : Mode → List InputEvent → List InputEvent
  | _, [] => []
  | _, .modeChange newMode :: rest => submissionsIn mode newMode rest
  | current, .submit text clock activeConnection server :: rest =>
    if current = mode then
      .submit text clock activeConnection server :: submissionsIn mode current rest
    else submissionsIn mode current rest

/-- The effect of one submission made in mode `mode` on the thread of that
mode. -/
def applySubmission (mode : Mode) (messages : List Message) : InputEvent → List Message
  | .modeChange _ => messages
  | .submit text clock activeConnection server =>
    if trim text = "" then messages
    else (submitThread clock activeConnection server mode text messages).thread

/-- The two threads as the component creates them (lines 9-25). -/
def initialInput (stamp : String) : QueryInputState :=
  { naturalLanguageInput := "", mode := .sql,
    sqlMessages := [botMessage 1 (.str "Hello! I'm your SQL assistant. Describe what data you want to retrieve and I'll generate the perfect SQL query for you.") stamp],
    chatMessages := [botMessage 1 (.str "Hello! I'm your chat assistant. Ask me questions about your data and I'll provide detailed answers.") stamp] }

/-- The clock readings used in the examples. -/
def sampleClock : SubmitClock :=
  { userNow := 1000, userStamp := "t0", loadingNow := 1000, loadingStamp := "t0",
    replyNow := 1250, replyStamp := "t1" }

/-- The clock readings of a second submission, opened at 1100 and answered
at 1400. -/
def laterClock : SubmitClock :=
  { userNow := 1100, userStamp := "t0b", loadingNow := 1100, loadingStamp := "t0b",
    replyNow := 1400, replyStamp := "t2" }

/-- An upstream server that answers every call with the given status and
body. -/
def upstream (status : Nat) (text : String) : String → JsVal → FetchOutcome :=
  fun _ _ => .response status text

/-- The state of the examples: the initial threads, conversational mode,
and the question `how many users?` typed in. -/
def askingState : QueryInputState :=
  { initialInput "t" with naturalLanguageInput := "how many users?", mode := .chat }

/-- A session of the examples: a structured-mode submission, a switch to
conversational mode, a conversational submission, and a switch back, all with
no active connection. -/
def sampleSession : List InputEvent :=
  [.submit "list users" sampleClock none (upstream 200 ""),
   .modeChange .chat,
   .submit "how many users?" sampleClock none (upstream 200 ""),
   .modeChange .sql]

/-! ## Connection registry: toggle and removal (`DatabaseConnections.jsx`, lines 201-212) -/

/-- The handler `toggleConnection` (lines 201-208): no call is sent, no
connection is selected. -/
def toggleConnection (id : Nat) (st : RegistryState) : RegistryOutcome :=
  { state := { st with
      connections := st.connections.map (fun conn =>
        if conn.id = id then
          { conn with status := if conn.status = "connected" then "disconnected" else "connected" }
        else conn) },
    requests := [], selected := [], alerts := [] }

/-- The handler `removeConnection` (lines 210-212). -/
def removeConnection (id : Nat) (st : RegistryState) : RegistryOutcome :=
  { state := { st with connections := st.connections.filter (fun conn => decide (conn.id ≠ id)) },
    requests := [], selected := [], alerts := [] }

/-! ## Application state (`App.jsx`) -/

/-- An entry of the query history (lines 30-37 and 47-56); the fallback
entry has no `metadata` property (`undefined` here). -/
structure HistoryEntry where
  id : Nat
  naturalLanguage : String
  sqlQuery : JsVal
  timestamp : String
  schema : String
  metadata : JsVal
  deriving DecidableEq

/-- The state of `MainApp` (lines 13-18). -/
structure AppState where
  queries : List HistoryEntry
  currentQuery : JsVal
  currentMetadata : JsVal
  isLoading : Bool
  activeConnection : Option Connection
  currentMode : Mode
  deriving DecidableEq

/-- A default parameter `= null`: it replaces an argument that is
`undefined`. -/
def defaultNull (v : JsVal) : JsVal :=
  match v with
  | .undefined => .null
  | other => other

/-- The query text of the fallback entry (lines 50-53). -/
def fallbackSql : String :=
  "-- Generated SQL Query\nSELECT * FROM table_name \nWHERE condition = 'value'\nORDER BY created_at DESC;"

/-- The handler `handleGenerateQuery` (lines 24-65).  `now` and `stamp` are
the readings of `Date.now()` and `new Date().toISOString()`. -/
def handleGenerateQuery (now : Nat) (stamp : String) (naturalLanguageInput : String)
    (schema : String) (sqlQuery metadata : JsVal) (st : AppState) : AppState :=
  if (defaultNull sqlQuery).truthy then
    { st with
      queries :=
        { id := now, naturalLanguage := naturalLanguageInput, sqlQuery := defaultNull sqlQuery,
          timestamp := stamp, schema := schema, metadata := defaultNull metadata } :: st.queries,
      currentQuery := defaultNull sqlQuery,
      currentMetadata := defaultNull metadata,
      isLoading := false }
  else
    { st with
      queries :=
        { id := now, naturalLanguage := naturalLanguageInput, sqlQuery := .str fallbackSql,
          timestamp := stamp, schema := schema, metadata := .undefined } :: st.queries,
      currentQuery := .str fallbackSql,
      isLoading := false }

/-- The handler `handleSelectQuery` (lines 67-69). -/
def handleSelectQuery (query : HistoryEntry) (st : AppState) : AppState :=
  { st with currentQuery := query.sqlQuery }

/-- The calls of `onGenerateQuery` made by a submission, applied to the
application state. -/
def notifyGenerated (now : Nat) (stamp : String) (calls : List GenerateCall)
    (st : AppState) : AppState :=
  calls.foldl (fun app call =>
    handleGenerateQuery now stamp call.naturalLanguageInput call.schema call.sqlQuery
      call.metadata app) st

/-- The metadata bundle as the dispatcher reads it, for a bundle whose
`relevant_tables` is a list or falsy: a falsy bundle is no bundle. -/
def toMetadata (metadata : JsVal) : Option Metadata :=
  if metadata.truthy then
    some { primary_collection := getProp metadata "primary_collection",
           relevant_tables :=
             match getProp metadata "relevant_tables" with
             | .arr tables => some tables
             | _ => none }
  else none

/-- An application state with an empty history. -/
def freshApp : AppState :=
  { queries := [], currentQuery := .str "", currentMetadata := .null, isLoading := false,
    activeConnection := none, currentMode := .sql }

/-- A history entry generated for the collection `users`. -/
def usersEntry : HistoryEntry :=
  { id := 10, naturalLanguage := "find Bob",
    sqlQuery := .str "\x7b\"name\":\"Bob\"\x7d", timestamp := "t0", schema := "",
    metadata := .obj [("primary_collection", .str "users")] }

/-- An application state after two generations: first the entry `usersEntry`,
then a query generated for the collection `orders`. -/
def twoQueriesApp : AppState :=
  handleGenerateQuery 20 "t1" "list open orders" "" (.str "\x7b\"status\":\"open\"\x7d")
    (.obj [("primary_collection", .str "orders")])
    (handleGenerateQuery 10 "t0" "find Bob" "" (.str "\x7b\"name\":\"Bob\"\x7d")
      (.obj [("primary_collection", .str "users")]) freshApp)

/-- The conversational state of the examples with a question typed in. -/
def chatAsking (text : String) : QueryInputState :=
  { initialInput "t" with naturalLanguageInput := text, mode := .chat }

/-- The structured-mode state of the examples with a prompt typed in. -/
def sqlAsking (text : String) : QueryInputState :=
  { initialInput "t" with naturalLanguageInput := text, mode := .sql }

/-- An upstream response with status `status` whose body decodes to `result`,
a JSON value other than `null` (`response.json()` succeeds). -/
def jsonBody (resp : FetchOutcome) (status : Nat) (result : JsVal) : Prop :=
  ∃ text, resp = .response status text ∧ JSON.parse text = some result ∧ result ≠ .null

/-- The answer drawn from a conversational result (line 125). -/
def answerOf (result : JsVal) : JsVal :=
  ((getProp result "answer").or (getProp result "message")).or (.str "Response received")


/-- A run of selections of history entries, one after the other. -/
def selectAll (entries : List HistoryEntry) (st : AppState) : AppState :=
  entries.foldl (fun app entry => handleSelectQuery entry app) st

/-- The status after a toggle (line 204). -/
def flipStatus (status : String) : String :=
  if status = "connected" then "disconnected" else "connected"

/-- A registry with the connections `docsConnection` and `shopConnection`. -/
def twoConnectionsState : RegistryState :=
  { connections := [docsConnection, shopConnection],
    showAddForm := false, isConnecting := false, error := "",
    selectedConnectionId := none, isPreparingRag := false, newConnection := blankForm }
/-! ## Property lists -/

theorem lookupKey_map_set (k : String) (v : JsVal) (kvs : List (String × JsVal))
    (h : (lookupKey k kvs).isSome = true) :
    lookupKey k (kvs.map (fun p => if p.1 = k then (k, v) else p)) = some v := by
  induction kvs with
  | nil => simp [lookupKey] at h
  | cons p rest ih =>
    obtain ⟨k', v'⟩ := p
    by_cases hk : k' = k
    · rw [List.map_cons, if_pos hk]
      simp [lookupKey]
    · rw [List.map_cons, if_neg hk]
      simp only [lookupKey, hk, if_false] at h
      simp [lookupKey, hk, ih h]

theorem lookupKey_append_self (k : String) (v : JsVal) (kvs : List (String × JsVal))
    (h : lookupKey k kvs = none) : lookupKey k (kvs ++ [(k, v)]) = some v := by
  induction kvs with
  | nil => simp [lookupKey]
  | cons p rest ih =>
    obtain ⟨k', v'⟩ := p
    by_cases hk : k' = k
    · simp [lookupKey, hk] at h
    · simp only [lookupKey, hk, if_false] at h
      simp [lookupKey, hk, ih h]

theorem lookupKey_insertIndexKey_self (i : Nat) (k : String) (v : JsVal)
    (kvs : List (String × JsVal)) (h : lookupKey k kvs = none) :
    lookupKey k (insertIndexKey i k v kvs) = some v := by
  induction kvs with
  | nil => simp [insertIndexKey, lookupKey]
  | cons p rest ih =>
    obtain ⟨k', v'⟩ := p
    by_cases hk : k' = k
    · simp [lookupKey, hk] at h
    · simp only [lookupKey, hk, if_false] at h
      simp only [insertIndexKey]
      split
      · split
        · simp [lookupKey, hk, ih h]
        · simp [lookupKey]
      · simp [lookupKey]

/-- Reading back the key just assigned gives the assigned value. -/
theorem lookupKey_setKey_self (kvs : List (String × JsVal)) (k : String) (v : JsVal) :
    lookupKey k (setKey kvs k v) = some v := by
  unfold setKey
  by_cases h : (lookupKey k kvs).isSome = true
  · simp [h, lookupKey_map_set k v kvs h]
  · have hn : lookupKey k kvs = none := by
      cases hl : lookupKey k kvs with
      | none => rfl
      | some x => simp [hl] at h
    rw [if_neg h]
    split
    · exact lookupKey_insertIndexKey_self _ k v kvs hn
    · exact lookupKey_append_self k v kvs hn

theorem lookupKey_map_other (k k' : String) (v : JsVal) (kvs : List (String × JsVal))
    (hne : k ≠ k') :
    lookupKey k (kvs.map (fun p => if p.1 = k' then (k', v) else p)) = lookupKey k kvs := by
  induction kvs with
  | nil => rfl
  | cons p rest ih =>
    obtain ⟨k2, v2⟩ := p
    by_cases hk : k2 = k'
    · have h1 : ¬ k' = k := fun h => hne h.symm
      have h2 : ¬ k2 = k := fun h => hne (h.symm.trans hk)
      rw [List.map_cons, if_pos hk]
      simp [lookupKey, h1, h2, ih]
    · rw [List.map_cons, if_neg hk]
      simp [lookupKey, ih]

theorem lookupKey_append_other (k k' : String) (v : JsVal) (kvs : List (String × JsVal))
    (hne : k ≠ k') : lookupKey k (kvs ++ [(k', v)]) = lookupKey k kvs := by
  induction kvs with
  | nil =>
    have : ¬ k' = k := fun h => hne h.symm
    simp [lookupKey, this]
  | cons p rest ih =>
    obtain ⟨k2, v2⟩ := p
    simp [lookupKey, ih]

theorem lookupKey_insertIndexKey_other (i : Nat) (k k' : String) (v : JsVal)
    (kvs : List (String × JsVal)) (hne : k ≠ k') :
    lookupKey k (insertIndexKey i k' v kvs) = lookupKey k kvs := by
  have hne' : ¬ k' = k := fun h => hne h.symm
  induction kvs with
  | nil => simp [insertIndexKey, lookupKey, hne']
  | cons p rest ih =>
    obtain ⟨k2, v2⟩ := p
    simp only [insertIndexKey]
    split
    · split
      · simp [lookupKey, ih]
      · simp [lookupKey, hne']
    · simp [lookupKey, hne']

/-- Assigning one key leaves every other key as it was. -/
theorem lookupKey_setKey_other (kvs : List (String × JsVal)) (k k' : String) (v : JsVal)
    (hne : k ≠ k') : lookupKey k (setKey kvs k' v) = lookupKey k kvs := by
  unfold setKey
  split
  · exact lookupKey_map_other k k' v kvs hne
  · split
    · exact lookupKey_insertIndexKey_other _ k k' v kvs hne
    · exact lookupKey_append_other k k' v kvs hne

theorem getProp_setKey_self (kvs : List (String × JsVal)) (k : String) (v : JsVal) :
    getProp (.obj (setKey kvs k v)) k = v := by
  simp [getProp, lookupKey_setKey_self]

theorem getProp_setKey_other (kvs : List (String × JsVal)) (k k' : String) (v : JsVal)
    (hne : k ≠ k') : getProp (.obj (setKey kvs k' v)) k = getProp (.obj kvs) k := by
  simp [getProp, lookupKey_setKey_other kvs k k' v hne]

/-- Filtering keeps the value of every key the filter keeps. -/
theorem lookupKey_filter_kept (f : String → Bool) (k : String) (kvs : List (String × JsVal))
    (hk : f k = true) : lookupKey k (kvs.filter (fun p => f p.1)) = lookupKey k kvs := by
  induction kvs with
  | nil => rfl
  | cons p rest ih =>
    obtain ⟨k2, v2⟩ := p
    by_cases h2 : k2 = k
    · subst h2
      simp [List.filter, hk, lookupKey]
    · by_cases hf : f k2 = true
      · simp [List.filter, hf, lookupKey, h2, ih]
      · simp [List.filter, hf, lookupKey, h2, ih]

/-- Filtering removes every key the filter rejects. -/
theorem lookupKey_filter_dropped (f : String → Bool) (k : String) (kvs : List (String × JsVal))
    (hk : f k = false) : lookupKey k (kvs.filter (fun p => f p.1)) = none := by
  induction kvs with
  | nil => rfl
  | cons p rest ih =>
    obtain ⟨k2, v2⟩ := p
    by_cases hf : f k2 = true
    · have h2 : ¬ k2 = k := by
        intro h
        rw [h, hk] at hf
        exact Bool.noConfusion hf
      simp [List.filter, hf, lookupKey, h2, ih]
    · simp [List.filter, hf, ih]

/-! ## The dispatcher: shape of a run -/

theorem truthy_null : JsVal.null.truthy = false := rfl

theorem truthy_undefined : JsVal.undefined.truthy = false := rfl

/-- The candidate collection computed by the parsing block is source (iii). -/
theorem parseQuery_collectionName (query : String) :
    (if (parseQuery query).collectionName.truthy then some (parseQuery query).collectionName
     else none) = embeddedSource query := by
  unfold parseQuery embeddedSource
  cases hp : JSON.parse query with
  | none => simp [JsVal.truthy]
  | some j =>
    cases j <;> simp only [] <;> split <;> simp_all [JsVal.truthy, getProp, JsVal.or]

/-- A run on a ready connection sends the request it built, once, and sends
nothing when building the request failed. -/
theorem handleExecute_requests (query : String) (conn : Connection) (metadata : Option Metadata)
    (promptReply : Option String) (server : JsVal → FetchOutcome) (st : QueryResultsState)
    (hReady : conn.rag_ready.truthy = true) :
    (handleExecute query (some conn) metadata promptReply server st).requests =
      match (buildRequest query conn metadata promptReply).result with
      | .ok requestBody => [requestBody]
      | .error _ => [] := by
  unfold handleExecute
  simp only [hReady, Bool.not_true, Bool.false_eq_true, if_false]
  cases hb : (buildRequest query conn metadata promptReply).result with
  | error message => rfl
  | ok requestBody =>
    simp only []
    cases hr : readResponse (server requestBody) <;> rfl

theorem buildRequest_mongo (query : String) (conn : Connection) (metadata : Option Metadata)
    (promptReply : Option String) (hType : conn.type = .Mongodb) :
    buildRequest query conn metadata promptReply =
      resolveCollection metadata (parseQuery query).collectionName promptReply
        (mongoBody query conn) := by
  unfold buildRequest mongoBody
  simp [hType, DbType.toLowerCase]

/-- The collection resolver follows the precedence rule. -/
theorem resolveCollection_result (metadata : Option Metadata) (collectionName : JsVal)
    (promptReply : Option String) (requestBody : List (String × JsVal)) :
    (resolveCollection metadata collectionName promptReply requestBody).result =
      match firstAvailable [primarySource metadata, relevantSource metadata,
          (if collectionName.truthy then some collectionName else none),
          promptSource promptReply] with
      | some name => .ok (.obj (setKey requestBody "collection_name" name))
      | none => .error "Collection name is required for MongoDB queries" := by
  unfold resolveCollection primarySource relevantSource promptSource
  cases metadata with
  | none =>
    by_cases hc : collectionName.truthy = true
    · simp [firstAvailable, truthy_null, hc]
    · cases promptReply with
      | none => simp [firstAvailable, truthy_null, hc]
      | some u => by_cases hu : u = "" <;> simp [firstAvailable, truthy_null, hc, hu]
  | some m =>
    obtain ⟨primary, tables⟩ := m
    by_cases hp : primary.truthy = true
    · simp [firstAvailable, hp]
    · cases tables with
      | none =>
        by_cases hc : collectionName.truthy = true
        · simp [firstAvailable, hp, hc]
        · cases promptReply with
          | none => simp [firstAvailable, hp, hc]
          | some u => by_cases hu : u = "" <;> simp [firstAvailable, hp, hc, hu]
      | some tables =>
        cases tables with
        | nil =>
          by_cases hc : collectionName.truthy = true
          · simp [firstAvailable, hp, hc]
          · cases promptReply with
            | none => simp [firstAvailable, hp, hc]
            | some u => by_cases hu : u = "" <;> simp [firstAvailable, hp, hc, hu]
        | cons t ts => simp [firstAvailable, hp]

/-- C1: against a document-store connection, for every query and metadata
bundle, the `collection_name` of the execution request is the first available
of metadata's primary collection, the first entry of metadata's relevant
tables, the collection key embedded in the query, and the name typed into the
prompt; when none is available no request is sent. -/
theorem collection_precedence (query : String) (conn : Connection)
    (metadata : Option Metadata) (promptReply : Option String)
    (server : JsVal → FetchOutcome) (st : QueryResultsState)
    (hType : conn.type = .Mongodb) (hReady : conn.rag_ready.truthy = true) :
    sentCollections (handleExecute query (some conn) metadata promptReply server st) =
      (firstAvailable [primarySource metadata, relevantSource metadata,
        embeddedSource query, promptSource promptReply]).toList := by
  unfold sentCollections
  rw [handleExecute_requests query conn metadata promptReply server st hReady,
    buildRequest_mongo query conn metadata promptReply hType, resolveCollection_result,
    parseQuery_collectionName]
  cases firstAvailable [primarySource metadata, relevantSource metadata,
      embeddedSource query, promptSource promptReply] with
  | none => rfl
  | some name => simp [getProp_setKey_self]

/-- C1, the spec's example: with metadata `primary_collection: "orders"` and
the embedded key `collection: "users"` the request goes to `orders`. -/
theorem collection_precedence_witness :
    shopConnection.type = .Mongodb ∧ shopConnection.rag_ready.truthy = true ∧
    embeddedSource "\x7b\"collection\":\"users\",\"name\":\"Bob\"\x7d" = some (.str "users") ∧
    sentCollections (handleExecute "\x7b\"collection\":\"users\",\"name\":\"Bob\"\x7d"
      (some shopConnection) (some { primary_collection := .str "orders", relevant_tables := none })
      none (fun _ => .response 200 "") idleState) = [.str "orders"] :=
  ⟨rfl, rfl, by decide,
    (collection_precedence "\x7b\"collection\":\"users\",\"name\":\"Bob\"\x7d" shopConnection
      (some { primary_collection := .str "orders", relevant_tables := none }) none
      (fun _ => .response 200 "") idleState rfl rfl).trans (by decide)⟩

theorem any_keys (kvs : List (String × JsVal)) (f : String → Bool) :
    (kvs.map Prod.fst).any f = kvs.any (fun p => f p.1) := by
  induction kvs with
  | nil => rfl
  | cons p rest ih => rw [List.map_cons, List.any_cons, List.any_cons, ih]

theorem isAggregation_obj (kvs : List (String × JsVal)) :
    isAggregation (.obj kvs) = kvs.any (fun p => startsWithDollar p.1) := by
  simp [isAggregation, JsVal.truthy, JsVal.typeof, objectKeys, ownProps, any_keys]

theorem any_dollar_strip (kvs : List (String × JsVal)) :
    (stripCollectionKeys kvs).any (fun p => startsWithDollar p.1) =
      kvs.any (fun p => startsWithDollar p.1) := by
  unfold stripCollectionKeys
  induction kvs with
  | nil => rfl
  | cons p rest ih =>
    obtain ⟨k, v⟩ := p
    by_cases hk : k ≠ "collection" ∧ k ≠ "collection_name"
    · rw [List.filter_cons_of_pos (by simpa using hk), List.any_cons, List.any_cons, ih]
    · have hd : startsWithDollar k = false := by
        by_cases h1 : k = "collection"
        · subst h1
          decide
        · have h2 : k = "collection_name" := by
            by_contra h2
            exact hk ⟨h1, h2⟩
          subst h2
          decide
      rw [List.filter_cons_of_neg (by simpa using hk), List.any_cons, ih, hd, Bool.false_or]

/-- The parsing block on a query that is a JSON object. -/
theorem parseQuery_obj (query : String) (kvs : List (String × JsVal))
    (h : JSON.parse query = some (.obj kvs)) :
    parseQuery query =
      if ((getProp (.obj kvs) "collection").or (getProp (.obj kvs) "collection_name")).truthy
      then { parsedQuery := .obj (stripCollectionKeys kvs), queryType := "mongodb",
             collectionName :=
               (getProp (.obj kvs) "collection").or (getProp (.obj kvs) "collection_name") }
      else { parsedQuery := .obj kvs, queryType := "mongodb", collectionName := .null } := by
  unfold parseQuery
  simp only [h]
  rfl

theorem embeddedSource_obj (query : String) (kvs : List (String × JsVal))
    (h : JSON.parse query = some (.obj kvs)) :
    embeddedSource query =
      if ((getProp (.obj kvs) "collection").or (getProp (.obj kvs) "collection_name")).truthy
      then some ((getProp (.obj kvs) "collection").or (getProp (.obj kvs) "collection_name"))
      else none := by
  unfold embeddedSource
  simp only [h]

/-- The aggregation test sees the same keys before and after stripping. -/
theorem isAggregation_parseQuery_obj (query : String) (kvs : List (String × JsVal))
    (h : JSON.parse query = some (.obj kvs)) :
    isAggregation (parseQuery query).parsedQuery = kvs.any (fun p => startsWithDollar p.1) := by
  rw [parseQuery_obj query kvs h]
  split
  · simp only [isAggregation_obj, any_dollar_strip]
  · simp only [isAggregation_obj]

theorem mongo_request_query (query : String) (conn : Connection) (name : JsVal) :
    getProp (.obj (setKey (mongoBody query conn) "collection_name" name)) "query" =
      if isAggregation (parseQuery query).parsedQuery then .str query
      else (parseQuery query).parsedQuery := by
  unfold mongoBody
  rw [getProp_setKey_other _ _ _ _ (by decide), getProp_setKey_other _ _ _ _ (by decide),
    getProp_setKey_other _ _ _ _ (by decide)]
  split
  · rw [getProp_setKey_other _ _ _ _ (by decide), getProp_setKey_self]
  · rw [getProp_setKey_self]

theorem mongo_request_flag (query : String) (conn : Connection) (name : JsVal) :
    lookupKey "is_aggregation" (setKey (mongoBody query conn) "collection_name" name) =
      if isAggregation (parseQuery query).parsedQuery then some (.bool true) else none := by
  unfold mongoBody
  rw [lookupKey_setKey_other _ _ _ _ (by decide), lookupKey_setKey_other _ _ _ _ (by decide),
    lookupKey_setKey_other _ _ _ _ (by decide)]
  split
  · rw [lookupKey_setKey_self]
  · rw [lookupKey_setKey_other _ _ _ _ (by decide)]
    rfl

/-- The requests of a run against a ready document-store connection. -/
theorem mongo_requests (query : String) (conn : Connection) (metadata : Option Metadata)
    (promptReply : Option String) (server : JsVal → FetchOutcome) (st : QueryResultsState)
    (hType : conn.type = .Mongodb) (hReady : conn.rag_ready.truthy = true) :
    (handleExecute query (some conn) metadata promptReply server st).requests =
      (firstAvailable [primarySource metadata, relevantSource metadata,
        embeddedSource query, promptSource promptReply]).toList.map
        (fun name => .obj (setKey (mongoBody query conn) "collection_name" name)) := by
  rw [handleExecute_requests query conn metadata promptReply server st hReady,
    buildRequest_mongo query conn metadata promptReply hType, resolveCollection_result,
    parseQuery_collectionName]
  cases firstAvailable [primarySource metadata, relevantSource metadata,
      embeddedSource query, promptSource promptReply] with
  | none => rfl
  | some name => rfl

/-- C2 as stated fails: the query `{"collection":"","name":"Bob"}` is a
structured value without a `$` key, yet the request sent for it carries the
value as parsed, with its `collection` key, and not the value with the
collection keys stripped. -/
theorem aggregation_detection_counterexample :
    JSON.parse "\x7b\"collection\":\"\",\"name\":\"Bob\"\x7d" =
      some (.obj [("collection", .str ""), ("name", .str "Bob")]) ∧
    (handleExecute "\x7b\"collection\":\"\",\"name\":\"Bob\"\x7d" (some shopConnection)
        (some ordersMetadata) none (replyWith "") idleState).requests =
      [.obj [("database_type", .str "mongodb"),
             ("query", .obj [("collection", .str ""), ("name", .str "Bob")]),
             ("query_type", .str "mongodb"), ("database_name", .str "shop"),
             ("collection_name", .str "orders")]] ∧
    JsVal.obj [("collection", .str ""), ("name", .str "Bob")] ≠
      .obj (stripCollectionKeys [("collection", .str ""), ("name", .str "Bob")]) := by
  decide

/-- C2, amended: against a document-store connection, for every query that
parses to a JSON object, every request sent has `is_aggregation = true` and
the original query text as `query` if some top-level key begins with `$`;
otherwise it has no `is_aggregation` and its `query` is the parsed object,
with the collection keys stripped exactly when one of them was extracted
(carries a truthy value). -/
theorem aggregation_detection (query : String) (kvs : List (String × JsVal))
    (conn : Connection) (metadata : Option Metadata) (promptReply : Option String)
    (server : JsVal → FetchOutcome) (st : QueryResultsState)
    (hType : conn.type = .Mongodb) (hReady : conn.rag_ready.truthy = true)
    (hParse : JSON.parse query = some (.obj kvs)) :
    ∀ r ∈ (handleExecute query (some conn) metadata promptReply server st).requests,
      (kvs.any (fun p => startsWithDollar p.1) = true →
        getProp r "is_aggregation" = .bool true ∧ getProp r "query" = .str query) ∧
      (kvs.any (fun p => startsWithDollar p.1) = false →
        hasKey r "is_aggregation" = false ∧
        getProp r "query" =
          if (embeddedSource query).isSome then .obj (stripCollectionKeys kvs) else .obj kvs) := by
  intro r hr
  rw [mongo_requests query conn metadata promptReply server st hType hReady] at hr
  obtain ⟨name, -, rfl⟩ := List.mem_map.mp hr
  have hAgg := isAggregation_parseQuery_obj query kvs hParse
  constructor
  · intro hd
    constructor
    · simp [getProp, mongo_request_flag, hAgg, hd]
    · rw [mongo_request_query, hAgg, hd]
      rfl
  · intro hd
    constructor
    · simp [hasKey, ownProps, mongo_request_flag, hAgg, hd]
    · rw [mongo_request_query, hAgg, hd, parseQuery_obj query kvs hParse,
        embeddedSource_obj query kvs hParse]
      by_cases hc : ((getProp (.obj kvs) "collection").or
          (getProp (.obj kvs) "collection_name")).truthy = true
      · simp [hc]
      · simp [hc]

/-- C2, the spec's example: the `$group` query is marked as an aggregation
and forwarded as the original text. -/
theorem aggregation_detection_witness :
    shopConnection.type = .Mongodb ∧ shopConnection.rag_ready.truthy = true ∧
    ∃ r, (handleExecute
        "\x7b\"$group\": \x7b\"_id\": \"$city\", \"total\": \x7b\"$sum\": 1\x7d\x7d\x7d"
        (some shopConnection) (some ordersMetadata) none (replyWith "") idleState).requests = [r] ∧
      getProp r "is_aggregation" = .bool true ∧
      getProp r "query" =
        .str "\x7b\"$group\": \x7b\"_id\": \"$city\", \"total\": \x7b\"$sum\": 1\x7d\x7d\x7d" :=
  ⟨rfl, rfl, _, by decide,
    ((aggregation_detection
      "\x7b\"$group\": \x7b\"_id\": \"$city\", \"total\": \x7b\"$sum\": 1\x7d\x7d\x7d"
      [("$group", .obj [("_id", .str "$city"), ("total", .obj [("$sum", .num 1 0)])])]
      shopConnection (some ordersMetadata) none (replyWith "") idleState rfl rfl (by decide)
      (.obj [("database_type", .str "mongodb"),
        ("query", .str "\x7b\"$group\": \x7b\"_id\": \"$city\", \"total\": \x7b\"$sum\": 1\x7d\x7d\x7d"),
        ("is_aggregation", .bool true), ("query_type", .str "mongodb"),
        ("database_name", .str "shop"), ("collection_name", .str "orders")])
      (by decide)).1 (by decide))⟩

/-- The parsing block on a query that is JSON other than `null`. -/
theorem parseQuery_json (query : String) (v : JsVal) (h : JSON.parse query = some v)
    (hv : v ≠ .null) :
    parseQuery query =
      if ((getProp v "collection").or (getProp v "collection_name")).truthy
      then { parsedQuery := .obj (stripCollectionKeys (ownProps v)), queryType := "mongodb",
             collectionName := (getProp v "collection").or (getProp v "collection_name") }
      else { parsedQuery := v, queryType := "mongodb", collectionName := .null } := by
  unfold parseQuery
  simp only [h]
  cases v <;> first | exact absurd rfl hv | rfl

/-- The parsing block on a query that is not JSON. -/
theorem parseQuery_text (query : String) (h : JSON.parse query = none) :
    parseQuery query = { parsedQuery := .str query, queryType := "sql", collectionName := .null } := by
  unfold parseQuery
  simp only [h]

/-- C3 as stated fails in both directions: the string `null` is valid JSON
but is classified `sql`, and the string `5`, a bare number and no structured
value, is classified `mongodb`. -/
theorem dialect_detection_counterexample :
    JSON.parse "null" = some .null ∧ (parseQuery "null").queryType = "sql" ∧
    JSON.parse "5" = some (.num 5 0) ∧ (parseQuery "5").queryType = "mongodb" := by
  decide

/-- C3, amended: the detected dialect is `mongodb` whenever `JSON.parse`
accepts the query with a value other than `null` (an object, an array, or a
scalar), and `sql` whenever `JSON.parse` rejects it, in which case the query
is kept as text. -/
theorem dialect_detection (query : String) :
    (∀ v, JSON.parse query = some v → v ≠ .null → (parseQuery query).queryType = "mongodb") ∧
    (JSON.parse query = none →
      (parseQuery query).queryType = "sql" ∧ (parseQuery query).parsedQuery = .str query) := by
  constructor
  · intro v h hv
    rw [parseQuery_json query v h hv]
    split <;> rfl
  · intro h
    rw [parseQuery_text query h]
    exact ⟨rfl, rfl⟩

/-- C3, the spec's examples: `SELECT * FROM t;` is classified `sql`, and
`{"collection":"users","name":"Bob"}` is classified `mongodb` with candidate
collection `users`. -/
theorem dialect_detection_witness :
    (JSON.parse "SELECT * FROM t;" = none ∧
      (parseQuery "SELECT * FROM t;").queryType = "sql") ∧
    (JSON.parse "\x7b\"collection\":\"users\",\"name\":\"Bob\"\x7d" =
        some (.obj [("collection", .str "users"), ("name", .str "Bob")]) ∧
      (parseQuery "\x7b\"collection\":\"users\",\"name\":\"Bob\"\x7d").queryType = "mongodb" ∧
      (parseQuery "\x7b\"collection\":\"users\",\"name\":\"Bob\"\x7d").collectionName =
        .str "users") :=
  ⟨⟨by decide, ((dialect_detection "SELECT * FROM t;").2 (by decide)).1⟩,
    by decide,
    (dialect_detection "\x7b\"collection\":\"users\",\"name\":\"Bob\"\x7d").1
      (.obj [("collection", .str "users"), ("name", .str "Bob")]) (by decide) (by decide),
    by decide⟩

theorem buildRequest_sql (query : String) (conn : Connection) (metadata : Option Metadata)
    (promptReply : Option String) (hType : conn.type ≠ .Mongodb) :
    (buildRequest query conn metadata promptReply).result =
      .ok (.obj (if conn.selectedDatabase.truthy then setKey (sqlBody query conn) "database_name"
        conn.selectedDatabase else sqlBody query conn)) := by
  have hLower : ¬ conn.type.toLowerCase = "mongodb" := by
    cases hT : conn.type with
    | Mongodb => exact absurd hT hType
    | Supabase => decide
    | Mysql => decide
  unfold buildRequest sqlBody
  simp only [hLower, if_false]
  split <;> rfl

theorem lookupKey_sqlBody_absent (query : String) (conn : Connection) (k : String)
    (h1 : k ≠ "database_type") (h2 : k ≠ "query") (h3 : k ≠ "query_type") :
    lookupKey k (sqlBody query conn) = none := by
  unfold sqlBody
  rw [lookupKey_setKey_other _ _ _ _ h3, lookupKey_setKey_other _ _ _ _ h2]
  simp [lookupKey, Ne.symm h1]

/-- C4 as stated fails: against the relational-server connection the query
`{"collection":"users","name":"Bob"}` is sent as the parsed object
`{"name":"Bob"}`, not as the original query string. -/
theorem sql_request_counterexample :
    (handleExecute "\x7b\"collection\":\"users\",\"name\":\"Bob\"\x7d" (some mysqlConnection)
        none none (replyWith "") idleState).requests =
      [.obj [("database_type", .str "mysql"), ("query", .obj [("name", .str "Bob")]),
             ("query_type", .str "sql"), ("database_name", .str "shop")]] ∧
    JsVal.obj [("name", .str "Bob")] ≠
      .str "\x7b\"collection\":\"users\",\"name\":\"Bob\"\x7d" := by
  decide

/-- C4, amended: against a managed-relational or relational-server
connection exactly one request is sent; its `query` is the original query
string whenever that string is not JSON, and the parsed value (collection keys
stripped when one was extracted) whenever it is JSON other than `null`; its
`query_type` is `sql`; it carries `database_name`, equal to the connection's
`selectedDatabase`, exactly when that is truthy; it carries no
`collection_name` and no `is_aggregation`. -/
theorem sql_request (query : String) (conn : Connection) (metadata : Option Metadata)
    (promptReply : Option String) (server : JsVal → FetchOutcome) (st : QueryResultsState)
    (hType : conn.type ≠ .Mongodb) (hReady : conn.rag_ready.truthy = true) :
    ∃ r, (handleExecute query (some conn) metadata promptReply server st).requests = [r] ∧
      (JSON.parse query = none → getProp r "query" = .str query) ∧
      (∀ v, JSON.parse query = some v → v ≠ .null →
        getProp r "query" =
          if (embeddedSource query).isSome then .obj (stripCollectionKeys (ownProps v)) else v) ∧
      getProp r "query_type" = .str "sql" ∧
      (conn.selectedDatabase.truthy = true → getProp r "database_name" = conn.selectedDatabase) ∧
      (conn.selectedDatabase.truthy = false → hasKey r "database_name" = false) ∧
      hasKey r "collection_name" = false ∧ hasKey r "is_aggregation" = false := by
  refine ⟨.obj (if conn.selectedDatabase.truthy then setKey (sqlBody query conn) "database_name"
    conn.selectedDatabase else sqlBody query conn), ?_, ?_⟩
  · rw [handleExecute_requests query conn metadata promptReply server st hReady,
      buildRequest_sql query conn metadata promptReply hType]
  · have hq : ∀ b : List (String × JsVal),
        b = (if conn.selectedDatabase.truthy then setKey (sqlBody query conn) "database_name"
          conn.selectedDatabase else sqlBody query conn) →
        getProp (.obj b) "query" = (parseQuery query).parsedQuery ∧
        getProp (.obj b) "query_type" = .str "sql" := by
      intro b hb
      subst hb
      split
      · rw [getProp_setKey_other _ _ _ _ (by decide), getProp_setKey_other _ _ _ _ (by decide)]
        unfold sqlBody
        rw [getProp_setKey_other _ _ _ _ (by decide), getProp_setKey_self, getProp_setKey_self]
        exact ⟨rfl, rfl⟩
      · unfold sqlBody
        rw [getProp_setKey_other _ _ _ _ (by decide), getProp_setKey_self, getProp_setKey_self]
        exact ⟨rfl, rfl⟩
    obtain ⟨hQuery, hKind⟩ := hq _ rfl
    refine ⟨?_, ?_, hKind, ?_, ?_, ?_, ?_⟩
    · intro h
      rw [hQuery, parseQuery_text query h]
    · intro v h hv
      rw [hQuery, parseQuery_json query v h hv]
      unfold embeddedSource
      simp only [h]
      split <;> rfl
    · intro hs
      rw [if_pos hs, getProp_setKey_self]
    · intro hs
      have hs' : ¬ conn.selectedDatabase.truthy = true := by simp [hs]
      rw [if_neg hs']
      simp [hasKey, ownProps, lookupKey_sqlBody_absent]
    · split
      · simp [hasKey, ownProps, lookupKey_setKey_other, lookupKey_sqlBody_absent]
      · simp [hasKey, ownProps, lookupKey_sqlBody_absent]
    · split
      · simp [hasKey, ownProps, lookupKey_setKey_other, lookupKey_sqlBody_absent]
      · simp [hasKey, ownProps, lookupKey_sqlBody_absent]

/-- C4 at a concrete run: the SQL text `SELECT * FROM t;` against the
relational-server connection is sent unchanged, with `query_type = sql` and
the selected database. -/
theorem sql_request_witness :
    mysqlConnection.type ≠ .Mongodb ∧ mysqlConnection.rag_ready.truthy = true ∧
    ∃ r, (handleExecute "SELECT * FROM t;" (some mysqlConnection) none none (replyWith "")
        idleState).requests = [r] ∧
      getProp r "query" = .str "SELECT * FROM t;" ∧ getProp r "query_type" = .str "sql" ∧
      getProp r "database_name" = .str "shop" := by
  obtain ⟨r, h1, h2, -, h4, h5, -⟩ :=
    sql_request "SELECT * FROM t;" mysqlConnection none none (replyWith "") idleState
      (by decide) (by decide)
  exact ⟨by decide, by decide, r, h1, h2 (by decide), h4, h5 (by decide)⟩

/-- C5 as stated fails: in `{"collection":"","name":"Bob"}` the `collection`
key is present, yet no candidate collection is extracted and the payload sent
onward in a non-aggregation document-store request still holds the key. -/
theorem collection_extraction_counterexample :
    JSON.parse "\x7b\"collection\":\"\",\"name\":\"Bob\"\x7d" =
      some (.obj [("collection", .str ""), ("name", .str "Bob")]) ∧
    (parseQuery "\x7b\"collection\":\"\",\"name\":\"Bob\"\x7d").collectionName = .null ∧
    isAggregation (parseQuery "\x7b\"collection\":\"\",\"name\":\"Bob\"\x7d").parsedQuery = false ∧
    (handleExecute "\x7b\"collection\":\"\",\"name\":\"Bob\"\x7d" (some shopConnection)
        (some ordersMetadata) none (replyWith "") idleState).requests.map
      (fun r => (getProp r "query", hasKey (getProp r "query") "collection")) =
      [(.obj [("collection", .str ""), ("name", .str "Bob")], true)] := by
  decide

/-- C5, amended: for every query that parses to a JSON object in which the
`collection` key, or else the `collection_name` key, carries a truthy value,
that value is the candidate collection, and the stripped payload holds neither
key, keeps the value of every other key, keeps the order of the keys, and is
the `query` of every non-aggregation document-store request. -/
theorem collection_extraction (query : String) (kvs : List (String × JsVal))
    (hParse : JSON.parse query = some (.obj kvs))
    (hKey : ((getProp (.obj kvs) "collection").or
      (getProp (.obj kvs) "collection_name")).truthy = true) :
    (parseQuery query).collectionName =
      (getProp (.obj kvs) "collection").or (getProp (.obj kvs) "collection_name") ∧
    ∃ payload, (parseQuery query).parsedQuery = .obj payload ∧
      lookupKey "collection" payload = none ∧ lookupKey "collection_name" payload = none ∧
      (∀ k, k ≠ "collection" → k ≠ "collection_name" →
        lookupKey k payload = lookupKey k kvs) ∧
      payload.Sublist kvs ∧
      (∀ (conn : Connection) (metadata : Option Metadata) (promptReply : Option String)
        (server : JsVal → FetchOutcome) (st : QueryResultsState),
        conn.type = .Mongodb → conn.rag_ready.truthy = true →
        kvs.any (fun p => startsWithDollar p.1) = false →
        ∀ r ∈ (handleExecute query (some conn) metadata promptReply server st).requests,
          getProp r "query" = .obj payload) := by
  have hp := parseQuery_obj query kvs hParse
  rw [if_pos hKey] at hp
  refine ⟨by rw [hp], stripCollectionKeys kvs, by rw [hp], ?_, ?_, ?_, ?_, ?_⟩
  · exact lookupKey_filter_dropped
      (fun k => decide (k ≠ "collection" ∧ k ≠ "collection_name")) "collection" kvs (by decide)
  · exact lookupKey_filter_dropped
      (fun k => decide (k ≠ "collection" ∧ k ≠ "collection_name")) "collection_name" kvs
      (by decide)
  · intro k h1 h2
    exact lookupKey_filter_kept
      (fun k => decide (k ≠ "collection" ∧ k ≠ "collection_name")) k kvs (by simp [h1, h2])
  · exact List.filter_sublist kvs
  · intro conn metadata promptReply server st hType hReady hd r hr
    rw [mongo_requests query conn metadata promptReply server st hType hReady] at hr
    obtain ⟨name, -, rfl⟩ := List.mem_map.mp hr
    rw [mongo_request_query, isAggregation_parseQuery_obj query kvs hParse, hd, hp]
    rfl

/-- C5 at the spec's example: from `{"collection":"users","name":"Bob"}` the
candidate collection is `users` and the payload sent onward is
`{"name":"Bob"}`. -/
theorem collection_extraction_witness :
    JSON.parse "\x7b\"collection\":\"users\",\"name\":\"Bob\"\x7d" =
      some (.obj [("collection", .str "users"), ("name", .str "Bob")]) ∧
    (parseQuery "\x7b\"collection\":\"users\",\"name\":\"Bob\"\x7d").collectionName =
      .str "users" ∧
    (parseQuery "\x7b\"collection\":\"users\",\"name\":\"Bob\"\x7d").parsedQuery =
      .obj [("name", .str "Bob")] :=
  ⟨by decide,
    (collection_extraction "\x7b\"collection\":\"users\",\"name\":\"Bob\"\x7d"
      [("collection", .str "users"), ("name", .str "Bob")] (by decide) (by decide)).1.trans
      (by decide),
    by decide⟩

/-- A run whose request cannot be built stores the error and sends nothing. -/
theorem handleExecute_build_error (query : String) (conn : Connection)
    (metadata : Option Metadata) (promptReply : Option String)
    (server : JsVal → FetchOutcome) (st : QueryResultsState) (message : String)
    (hReady : conn.rag_ready.truthy = true)
    (hBuild : (buildRequest query conn metadata promptReply).result = .error message) :
    (handleExecute query (some conn) metadata promptReply server st).state =
      { st with isExecuting := false, executionError := some (describeError message),
                executionResults := none } ∧
    (handleExecute query (some conn) metadata promptReply server st).requests = [] := by
  unfold handleExecute
  simp only [hReady, Bool.not_true, Bool.false_eq_true, if_false, hBuild]
  simp

/-- C6: against a document-store connection, when metadata supplies no
primary collection and no relevant table, the query embeds no collection key
and the user supplies no name, the run ends with the error
`Collection name is required for MongoDB queries`, sends no execution request
and stores no execution results. -/
theorem missing_collection (query : String) (conn : Connection)
    (metadata : Option Metadata) (promptReply : Option String)
    (server : JsVal → FetchOutcome) (st : QueryResultsState)
    (hType : conn.type = .Mongodb) (hReady : conn.rag_ready.truthy = true)
    (hPrimary : primarySource metadata = none) (hRelevant : relevantSource metadata = none)
    (hEmbedded : embeddedSource query = none) (hPrompt : promptSource promptReply = none) :
    (handleExecute query (some conn) metadata promptReply server st).state.executionError =
      some "Collection name is required for MongoDB queries" ∧
    (handleExecute query (some conn) metadata promptReply server st).requests = [] ∧
    (handleExecute query (some conn) metadata promptReply server st).state.executionResults =
      none := by
  have hBuild : (buildRequest query conn metadata promptReply).result =
      .error "Collection name is required for MongoDB queries" := by
    rw [buildRequest_mongo query conn metadata promptReply hType, resolveCollection_result,
      parseQuery_collectionName, hPrimary, hRelevant, hEmbedded, hPrompt]
    rfl
  obtain ⟨hState, hReq⟩ :=
    handleExecute_build_error query conn metadata promptReply server st _ hReady hBuild
  refine ⟨?_, hReq, ?_⟩
  · rw [hState]
    show some (describeError "Collection name is required for MongoDB queries") = _
    decide
  · rw [hState]

/-- C6 at a concrete run: the query `{"name":"Bob"}` with no metadata and a
cancelled prompt. -/
theorem missing_collection_witness :
    shopConnection.type = .Mongodb ∧ shopConnection.rag_ready.truthy = true ∧
    primarySource none = none ∧ relevantSource none = none ∧
    embeddedSource "\x7b\"name\":\"Bob\"\x7d" = none ∧ promptSource none = none ∧
    (handleExecute "\x7b\"name\":\"Bob\"\x7d" (some shopConnection) none none (replyWith "")
      idleState).state.executionError = some "Collection name is required for MongoDB queries" ∧
    (handleExecute "\x7b\"name\":\"Bob\"\x7d" (some shopConnection) none none (replyWith "")
      idleState).requests = [] :=
  ⟨rfl, rfl, rfl, rfl, by decide, rfl,
    (missing_collection "\x7b\"name\":\"Bob\"\x7d" shopConnection none none (replyWith "")
      idleState rfl rfl rfl rfl (by decide) rfl).1,
    (missing_collection "\x7b\"name\":\"Bob\"\x7d" shopConnection none none (replyWith "")
      idleState rfl rfl rfl rfl (by decide) rfl).2.1⟩

/-- C7: when the active connection is absent or not retrieval-ready,
`handleExecute` sends no request and leaves the component state, stored
results and stored error included, as it was; it only shows the guard
message. -/
theorem execute_guard (query : String) (activeConnection : Option Connection)
    (metadata : Option Metadata) (promptReply : Option String)
    (server : JsVal → FetchOutcome) (st : QueryResultsState)
    (h : activeConnection = none ∨
      ∃ conn, activeConnection = some conn ∧ conn.rag_ready.truthy = false) :
    (handleExecute query activeConnection metadata promptReply server st).requests = [] ∧
    (handleExecute query activeConnection metadata promptReply server st).state = st ∧
    (handleExecute query activeConnection metadata promptReply server st).alerts =
      ["Please connect to a database first!"] ∧
    (handleExecute query activeConnection metadata promptReply server st).prompts = [] := by
  rcases h with h | ⟨conn, h, hr⟩
  · subst h
    exact ⟨rfl, rfl, rfl, rfl⟩
  · subst h
    unfold handleExecute
    simp only [hr, Bool.not_false, if_true]
    simp

/-- C7 at a concrete run: a connected but unprepared connection and a state
holding earlier results. -/
theorem execute_guard_witness :
    (handleExecute "SELECT 1" (some { mysqlConnection with rag_ready := .bool false }) none none
      (replyWith "") { idleState with executionResults := some (.obj []) }).requests = [] ∧
    (handleExecute "SELECT 1" (some { mysqlConnection with rag_ready := .bool false }) none none
      (replyWith "") { idleState with executionResults := some (.obj []) }).state =
      { idleState with executionResults := some (.obj []) } :=
  ⟨(execute_guard "SELECT 1" (some { mysqlConnection with rag_ready := .bool false }) none none
      (replyWith "") { idleState with executionResults := some (.obj []) }
      (Or.inr ⟨_, rfl, rfl⟩)).1,
    (execute_guard "SELECT 1" (some { mysqlConnection with rag_ready := .bool false }) none none
      (replyWith "") { idleState with executionResults := some (.obj []) }
      (Or.inr ⟨_, rfl, rfl⟩)).2.1⟩

/-- Decoding a successful response gives the normalised body. -/
theorem readResponse_success (resp : FetchOutcome) (body : JsVal) (h : successBody resp body) :
    readResponse resp = .ok (normalize body) := by
  obtain ⟨status, text, rfl, hOk, hBody, hNull, hStatus⟩ := h
  unfold readResponse
  simp only [hBody]
  cases body <;> first | exact absurd rfl hNull | simp [hOk, hStatus]

/-- A run whose request is built and answered successfully stores the
normalised body and shows the preview. -/
theorem handleExecute_success (query : String) (conn : Connection)
    (metadata : Option Metadata) (promptReply : Option String)
    (server : JsVal → FetchOutcome) (st : QueryResultsState) (requestBody body : JsVal)
    (hReady : conn.rag_ready.truthy = true)
    (hBuild : (buildRequest query conn metadata promptReply).result = .ok requestBody)
    (hResp : successBody (server requestBody) body) :
    (handleExecute query (some conn) metadata promptReply server st).state =
      { showPreview := true, isExecuting := false, executionResults := some (normalize body),
        executionError := none } := by
  unfold handleExecute
  simp only [hReady, Bool.not_true, Bool.false_eq_true, if_false, hBuild,
    readResponse_success _ body hResp]

theorem normalize_data (body : JsVal) :
    getProp (normalize body) "data" =
      ((getProp body "data").or (getProp body "result")).or (.arr []) := by
  unfold normalize
  rw [getProp_setKey_other _ _ _ _ (by decide), getProp_setKey_self]

theorem normalize_count (body : JsVal) :
    getProp (normalize body) "count" =
      (getProp body "count").or (getProp (getProp (normalize body) "data") "length") := by
  rw [normalize_data]
  unfold normalize
  rw [getProp_setKey_self]

/-- C8 as stated fails: in the body `{"data":0,"result":[{"a":1}]}` the
`data` field is present, yet the rows stored are those of `result`. -/
theorem result_rows_counterexample :
    JSON.parse "\x7b\"data\":0,\"result\":[\x7b\"a\":1\x7d]\x7d" =
      some (.obj [("data", .num 0 0), ("result", .arr [.obj [("a", .num 1 0)]])]) ∧
    lookupKey "data" [("data", JsVal.num 0 0), ("result", .arr [.obj [("a", .num 1 0)]])] =
      some (.num 0 0) ∧
    ((handleExecute "SELECT 1" (some mysqlConnection) none none
      (replyWith "\x7b\"data\":0,\"result\":[\x7b\"a\":1\x7d]\x7d")
      idleState).state.executionResults.map (fun res => getProp res "data")) =
      some (.arr [.obj [("a", .num 1 0)]]) := by
  decide

/-- C8, amended: for every successful execution response body, the rows
stored are the body's `data` field if it is truthy (so not missing, `null`,
`0`, `false` or the empty text; an array, the empty one included, is truthy),
else its `result` field if that is truthy, else the empty sequence; the value
stored is the very value received, in the same order, with the same keys and
with nested values as they came. -/
theorem result_rows (query : String) (conn : Connection)
    (metadata : Option Metadata) (promptReply : Option String)
    (server : JsVal → FetchOutcome) (st : QueryResultsState) (requestBody body : JsVal)
    (hReady : conn.rag_ready.truthy = true)
    (hBuild : (buildRequest query conn metadata promptReply).result = .ok requestBody)
    (hResp : successBody (server requestBody) body) :
    ∃ res, (handleExecute query (some conn) metadata promptReply server st).state.executionResults =
        some res ∧
      ((getProp body "data").truthy = true → getProp res "data" = getProp body "data") ∧
      ((getProp body "data").truthy = false → (getProp body "result").truthy = true →
        getProp res "data" = getProp body "result") ∧
      ((getProp body "data").truthy = false → (getProp body "result").truthy = false →
        getProp res "data" = .arr []) ∧
      (∀ rows, getProp body "data" = .arr rows → getProp res "data" = .arr rows) ∧
      (∀ rows, absent (getProp body "data") → getProp body "result" = .arr rows →
        getProp res "data" = .arr rows) ∧
      (absent (getProp body "data") → absent (getProp body "result") →
        getProp res "data" = .arr []) := by
  refine ⟨normalize body, ?_, ?_, ?_, ?_, ?_, ?_, ?_⟩
  · rw [handleExecute_success query conn metadata promptReply server st requestBody body hReady
      hBuild hResp]
  · intro h
    rw [normalize_data]
    simp only [JsVal.or, h, if_true]
  · intro hd hr
    rw [normalize_data]
    simp only [JsVal.or, hd, hr, Bool.false_eq_true, if_false, if_true]
  · intro hd hr
    rw [normalize_data]
    simp only [JsVal.or, hd, hr, Bool.false_eq_true, if_false]
  · intro rows h
    rw [normalize_data, h]
    rfl
  · intro rows hd hr
    rw [normalize_data, hr]
    rcases hd with hd | hd <;> rw [hd] <;> rfl
  · intro hd hr
    rw [normalize_data]
    rcases hd with hd | hd <;> rcases hr with hr | hr <;> rw [hd, hr] <;> rfl

/-- C8, the spec's examples: the body `{"result":[{"a":1}],"status":"success"}`
yields the rows `[{"a":1}]` with count 1, and `{"data":[],"count":0}` yields
no rows with count 0. -/
theorem result_rows_witness :
    (∃ res, (handleExecute "SELECT 1" (some mysqlConnection) none none
        (replyWith "\x7b\"result\":[\x7b\"a\":1\x7d],\"status\":\"success\"\x7d")
        idleState).state.executionResults = some res ∧
      getProp res "data" = .arr [.obj [("a", .num 1 0)]] ∧ getProp res "count" = .num 1 0) ∧
    (∃ res, (handleExecute "SELECT 1" (some mysqlConnection) none none
        (replyWith "\x7b\"data\":[], \"count\":0\x7d") idleState).state.executionResults =
        some res ∧
      getProp res "data" = .arr [] ∧ getProp res "count" = .num 0 0) := by
  constructor
  · obtain ⟨res, h1, -, h3, -⟩ :=
      result_rows "SELECT 1" mysqlConnection none none
        (replyWith "\x7b\"result\":[\x7b\"a\":1\x7d],\"status\":\"success\"\x7d") idleState
        (.obj [("database_type", .str "mysql"), ("query", .str "SELECT 1"),
          ("query_type", .str "sql"), ("database_name", .str "shop")])
        (.obj [("result", .arr [.obj [("a", .num 1 0)]]), ("status", .str "success")])
        (by decide) (by rfl)
        ⟨200, _, rfl, by decide, by decide, by decide, by decide⟩
    have h2 : (handleExecute "SELECT 1" (some mysqlConnection) none none
        (replyWith "\x7b\"result\":[\x7b\"a\":1\x7d],\"status\":\"success\"\x7d")
        idleState).state.executionResults =
        some (.obj [("result", .arr [.obj [("a", .num 1 0)]]), ("status", .str "success"),
          ("data", .arr [.obj [("a", .num 1 0)]]), ("count", .num 1 0)]) := by decide
    refine ⟨res, h1, (h3 (by decide) (by decide)).trans (by decide), ?_⟩
    rw [h2] at h1
    cases h1
    decide
  · exact ⟨.obj [("data", .arr []), ("count", .num 0 0)], by decide, by decide, by decide⟩

/-- C9 as stated fails: for the body `{"data":[{"a":1}],"count":0}` the
explicit count is 0 but the normalised count is 1, the number of rows. -/
theorem result_count_counterexample :
    JSON.parse "\x7b\"data\":[\x7b\"a\":1\x7d],\"count\":0\x7d" =
      some (.obj [("data", .arr [.obj [("a", .num 1 0)]]), ("count", .num 0 0)]) ∧
    (handleExecute "SELECT 1" (some mysqlConnection) none none
      (replyWith "\x7b\"data\":[\x7b\"a\":1\x7d],\"count\":0\x7d") idleState).state.executionResults =
      some (.obj [("data", .arr [.obj [("a", .num 1 0)]]), ("count", .num 1 0)]) := by
  decide

/-- C9, amended: for every successful execution response body, the
normalised count is the body's `count` field whenever that field is truthy
(present and not 0), and is the number of rows stored whenever the field is
missing or falsy (0 included). -/
theorem result_count (query : String) (conn : Connection)
    (metadata : Option Metadata) (promptReply : Option String)
    (server : JsVal → FetchOutcome) (st : QueryResultsState) (requestBody body : JsVal)
    (hReady : conn.rag_ready.truthy = true)
    (hBuild : (buildRequest query conn metadata promptReply).result = .ok requestBody)
    (hResp : successBody (server requestBody) body) :
    ∃ res, (handleExecute query (some conn) metadata promptReply server st).state.executionResults =
        some res ∧
      ((getProp body "count").truthy = true → getProp res "count" = getProp body "count") ∧
      ((getProp body "count").truthy = false → ∀ rows, getProp res "data" = .arr rows →
        getProp res "count" = JsVal.ofNat rows.length) := by
  refine ⟨normalize body, ?_, ?_, ?_⟩
  · rw [handleExecute_success query conn metadata promptReply server st requestBody body hReady
      hBuild hResp]
  · intro h
    rw [normalize_count, JsVal.or, if_pos h]
  · intro h rows hRows
    have h' : ¬ (getProp body "count").truthy = true := by simp [h]
    rw [normalize_count, JsVal.or, if_neg h', hRows]
    simp [getProp]

/-- C9 at concrete runs: the body `{"data":[{"a":1}],"count":7}` keeps its
count 7. -/
theorem result_count_witness :
    ∃ res, (handleExecute "SELECT 1" (some mysqlConnection) none none
        (replyWith "\x7b\"data\":[\x7b\"a\":1\x7d],\"count\":7\x7d")
        idleState).state.executionResults = some res ∧
      getProp res "count" = .num 7 0 := by
  obtain ⟨res, h1, h2, -⟩ :=
    result_count "SELECT 1" mysqlConnection none none
      (replyWith "\x7b\"data\":[\x7b\"a\":1\x7d],\"count\":7\x7d") idleState
      (.obj [("database_type", .str "mysql"), ("query", .str "SELECT 1"),
        ("query_type", .str "sql"), ("database_name", .str "shop")])
      (.obj [("data", .arr [.obj [("a", .num 1 0)]]), ("count", .num 7 0)])
      (by decide) (by rfl)
      ⟨200, _, rfl, by decide, by decide, by decide, by decide⟩
  exact ⟨res, h1, (h2 (by decide)).trans (by decide)⟩

theorem isValid_eq (newConnection : NewConnection) :
    isValid newConnection = !missingRequired newConnection := by
  unfold isValid missingRequired
  cases newConnection.type <;> simp [Bool.not_or]

/-- C10 as stated fails: with the name left blank the handler reports no
error at all, neither in the error text nor by an alert. -/
theorem add_connection_validation_counterexample :
    missingRequired blankNameState.newConnection = true ∧
    reportsError (handleAddConnection 0 (replyWith "") blankNameState) = false := by
  decide

/-- C10, amended: for every backend kind, if any kind-specific required
field is blank, `handleAddConnection` is a silent no-op: it sends no connect
request, selects no connection, shows no alert, and leaves the whole
component state (connection set and error text included) unchanged. -/
theorem add_connection_validation (now : Nat) (server : JsVal → FetchOutcome)
    (st : RegistryState) (h : missingRequired st.newConnection = true) :
    handleAddConnection now server st =
      { state := st, requests := [], selected := [], alerts := [] } := by
  unfold handleAddConnection
  rw [isValid_eq, h]
  rfl

/-- C10 at a concrete form: a relational-server form with the password left
blank sends nothing and changes nothing. -/
theorem add_connection_validation_witness :
    missingRequired blankPasswordState.newConnection = true ∧
    handleAddConnection 0 (replyWith "") blankPasswordState =
      { state := blankPasswordState, requests := [], selected := [], alerts := [] } :=
  ⟨by decide, add_connection_validation 0 (replyWith "") blankPasswordState (by decide)⟩

/-! ## The registry: shape of a run -/

theorem readConnect_ok (newConnection : NewConnection) (now : Nat) (resp : FetchOutcome)
    (status : Nat) (data : JsVal) (h : decodedBody resp status data)
    (hOk : statusOk status = true) :
    readConnect newConnection now resp =
      .ok ({ id := now, name := newConnection.name, type := newConnection.type,
             host := newConnection.host, status := "connected",
             databases := ((getProp data "databases").or (getProp data "available_tables")).or
               (.arr []),
             rag_ready := (getProp data "rag_ready").or (.bool false),
             version := (getProp data "mysql_version").or .null,
             selectedDatabase := .undefined }, data) := by
  obtain ⟨text, rfl, hBody, hNull⟩ := h
  unfold readConnect
  simp only [hBody]
  cases data <;> first | exact absurd rfl hNull | simp [hOk]

theorem readConnect_failure (newConnection : NewConnection) (now : Nat) (resp : FetchOutcome)
    (status : Nat) (data : JsVal) (h : decodedBody resp status data)
    (hOk : statusOk status = false) :
    readConnect newConnection now resp =
      .error (firstMessage data "Unknown server error" ++ " (Status: " ++ toString status
        ++ ")") := by
  obtain ⟨text, rfl, hBody, hNull⟩ := h
  unfold readConnect firstMessage
  simp only [hBody]
  cases data <;> first | exact absurd rfl hNull | simp [hOk]

theorem readPrepare_ok (resp : FetchOutcome) (status : Nat) (data : JsVal)
    (h : decodedBody resp status data) (hOk : statusOk status = true) :
    readPrepare resp = .ok data := by
  obtain ⟨text, rfl, hBody, hNull⟩ := h
  unfold readPrepare
  simp only [hBody]
  cases data <;> first | exact absurd rfl hNull | simp [hOk]

theorem readPrepare_failure (resp : FetchOutcome) (status : Nat) (data : JsVal)
    (h : decodedBody resp status data) (hOk : statusOk status = false) :
    readPrepare resp =
      .error (toStr (((getProp data "error").or (getProp data "message")).or
        (.str "Failed to prepare RAG"))) := by
  obtain ⟨text, rfl, hBody, hNull⟩ := h
  unfold readPrepare
  simp only [hBody]
  cases data <;> first | exact absurd rfl hNull | simp [hOk]

/-- A successful connect appends the new connection and clears the form. -/
theorem handleAddConnection_ok (now : Nat) (server : JsVal → FetchOutcome) (st : RegistryState)
    (status : Nat) (data : JsVal) (hValid : isValid st.newConnection = true)
    (hResp : decodedBody (server (connectRequest st.newConnection)) status data)
    (hOk : statusOk status = true) :
    ∃ connection : Connection,
      readConnect st.newConnection now (server (connectRequest st.newConnection)) =
        .ok (connection, data) ∧
      connection.status = "connected" ∧
      connection.rag_ready = (getProp data "rag_ready").or (.bool false) ∧
      connection.databases =
        ((getProp data "databases").or (getProp data "available_tables")).or (.arr []) ∧
      (handleAddConnection now server st).state.connections = st.connections ++ [connection] := by
  refine ⟨_, readConnect_ok st.newConnection now _ status data hResp hOk, rfl, rfl, rfl, ?_⟩
  unfold handleAddConnection
  simp only [hValid, if_true, readConnect_ok st.newConnection now _ status data hResp hOk]

/-- A successful preparation replaces the prepared connection and selects it. -/
theorem handlePrepareRag_ok (connectionId : Nat) (databaseName : JsVal)
    (server : JsVal → FetchOutcome) (st : RegistryState) (connection : Connection)
    (status : Nat) (data : JsVal)
    (hFind : st.connections.find? (fun conn => decide (conn.id = connectionId)) = some connection)
    (hResp : decodedBody (server (prepareRequest connection databaseName)) status data)
    (hOk : statusOk status = true) :
    handlePrepareRag connectionId databaseName server st =
      { state := { st with
          connections := st.connections.map
            (fun conn => if conn.id = connectionId
              then updatedConnection connection databaseName data else conn),
          selectedConnectionId := none, isPreparingRag := false },
        requests := [prepareRequest connection databaseName],
        selected := [updatedConnection connection databaseName data],
        alerts := ["RAG prepared successfully for database: " ++ toStr databaseName] } := by
  unfold handlePrepareRag
  simp only [hFind, readPrepare_ok _ status data hResp hOk]

/-- C11 as stated fails: a connect response that reports `rag_ready: true`
creates a connection whose `rag_ready` is already true, and promotes it to the
active connection, although no preparation has run. -/
theorem connect_readiness_counterexample :
    (handleAddConnection 5
      (answerWith 200 "\x7b\"databases\":[\"app\"],\"rag_ready\":true\x7d")
      supabaseFormState).state.connections.map (fun c => (c.status, c.rag_ready)) =
      [("connected", .bool true)] ∧
    (activeAfter none (handleAddConnection 5
      (answerWith 200 "\x7b\"databases\":[\"app\"],\"rag_ready\":true\x7d")
      supabaseFormState)).map (fun c => c.rag_ready) = some (.bool true) := by
  decide

/-- C11, amended: for every backend kind and every success response of the
connect endpoint, the connection created is appended with status `connected`
and with `rag_ready` equal to the response's `rag_ready` field when that is
truthy and `false` otherwise; so a connection is created not retrieval-ready
exactly when the connect response does not report readiness. -/
theorem connect_readiness (now : Nat) (server : JsVal → FetchOutcome) (st : RegistryState)
    (status : Nat) (data : JsVal) (hValid : isValid st.newConnection = true)
    (hResp : decodedBody (server (connectRequest st.newConnection)) status data)
    (hOk : statusOk status = true) :
    ∃ connection : Connection,
      (handleAddConnection now server st).state.connections = st.connections ++ [connection] ∧
      connection.status = "connected" ∧
      ((getProp data "rag_ready").truthy = false → connection.rag_ready = .bool false) ∧
      ((getProp data "rag_ready").truthy = true →
        connection.rag_ready = getProp data "rag_ready") := by
  obtain ⟨connection, -, hStatus, hReady, -, hList⟩ :=
    handleAddConnection_ok now server st status data hValid hResp hOk
  refine ⟨connection, hList, hStatus, ?_, ?_⟩
  · intro h
    rw [hReady, JsVal.or, if_neg (by simp [h])]
  · intro h
    rw [hReady, JsVal.or, if_pos h]

/-- C11 at a concrete run: a connect response without a readiness flag
creates a connected connection that is not retrieval-ready. -/
theorem connect_readiness_witness :
    isValid supabaseFormState.newConnection = true ∧
    ∃ connection : Connection,
      (handleAddConnection 5 (answerWith 200 "\x7b\"databases\":[\"app\"]\x7d")
        supabaseFormState).state.connections = [connection] ∧
      connection.status = "connected" ∧ connection.rag_ready = .bool false := by
  obtain ⟨connection, h1, h2, h3, -⟩ :=
    connect_readiness 5 (answerWith 200 "\x7b\"databases\":[\"app\"]\x7d") supabaseFormState 200
      (.obj [("databases", .arr [.str "app"])]) (by decide)
      ⟨_, rfl, by decide, by decide⟩ (by decide)
  exact ⟨by decide, connection, h1, h2, h3 (by decide)⟩

/-- C12 as stated fails: a successful preparation of a document-store
connection promotes it to the active connection. -/
theorem prepare_promotion_counterexample :
    (activeAfter none (handlePrepareRag 7 (.str "shop")
      (answerWith 200 "\x7b\"rag_ready\":true\x7d") oneMongoState)).map
      (fun c => (c.id, c.type, c.selectedDatabase)) = some (7, .Mongodb, .str "shop") ∧
    DbType.Mongodb ≠ DbType.Supabase := by
  decide

/-- C12, amended: on a successful `handlePrepareRag(connectionId,
databaseName)` the prepared connection, with its new `selectedDatabase` and
`rag_ready`, is promoted to the active connection whatever its backend kind. -/
theorem prepare_promotion (connectionId : Nat) (databaseName : JsVal)
    (server : JsVal → FetchOutcome) (st : RegistryState) (connection : Connection)
    (status : Nat) (data : JsVal) (activeConnection : Option Connection)
    (hFind : st.connections.find? (fun conn => decide (conn.id = connectionId)) = some connection)
    (hResp : decodedBody (server (prepareRequest connection databaseName)) status data)
    (hOk : statusOk status = true) :
    activeAfter activeConnection (handlePrepareRag connectionId databaseName server st) =
      some (updatedConnection connection databaseName data) := by
  rw [handlePrepareRag_ok connectionId databaseName server st connection status data hFind hResp
    hOk]
  rfl

/-- C12 at a concrete run: preparing the document-store connection of a
registry, answered by an empty 200 response, promotes it. -/
theorem prepare_promotion_witness :
    (activeAfter none (handlePrepareRag 7 (.str "crm")
      (answerWith 200 "") oneMongoState)).map (fun c => (c.id, c.selectedDatabase)) =
      some (7, .str "crm") := by
  rw [prepare_promotion 7 (.str "crm") (answerWith 200 "") oneMongoState
    docsConnection 200 (.obj []) none (by decide) ⟨_, rfl, by decide, by decide⟩ (by decide)]
  decide

theorem truthy_or_true (v : JsVal) : (v.or (.bool true)).truthy = true := by
  unfold JsVal.or
  split
  · assumption
  · rfl

theorem flagLike_or_true (v : JsVal) (h : flagLike v) : v.or (.bool true) = .bool true := by
  rcases h with h | h | ⟨b, h⟩
  · rw [h]
    rfl
  · rw [h]
    rfl
  · rw [h]
    cases b <;> rfl

/-- With pairwise distinct identifiers, the connection found by identifier is
the only one carrying it. -/
theorem find_unique (connections : List Connection) (connectionId : Nat)
    (connection c : Connection)
    (hIds : (connections.map (fun conn => conn.id)).Nodup)
    (hFind : connections.find? (fun conn => decide (conn.id = connectionId)) = some connection)
    (hMem : c ∈ connections) (hId : c.id = connectionId) : c = connection := by
  have h1 : connection ∈ connections := List.mem_of_find?_eq_some hFind
  have h2 : connection.id = connectionId := by
    have := List.find?_some hFind
    simpa using this
  exact List.inj_on_of_nodup_map hIds hMem h1 (hId.trans h2.symm)

/-- The connection found by identifier is the first one carrying it. -/
theorem find_first (connectionId : Nat) : ∀ (connections : List Connection)
    (connection : Connection),
    connections.find? (fun conn => decide (conn.id = connectionId)) = some connection →
    ∃ i, connections[i]? = some connection ∧
      ∀ (j : Nat) (c : Connection), j < i → connections[j]? = some c → c.id ≠ connectionId := by
  intro connections
  induction connections with
  | nil =>
    intro connection h
    simp at h
  | cons head rest ih =>
    intro connection h
    by_cases hHead : head.id = connectionId
    · rw [List.find?_cons_of_pos _ (by simpa using hHead)] at h
      cases h
      exact ⟨0, by simp, fun j c hj _ => absurd hj (Nat.not_lt_zero j)⟩
    · rw [List.find?_cons_of_neg _ (by simpa using hHead)] at h
      obtain ⟨i, hi, hBefore⟩ := ih connection h
      refine ⟨i + 1, by simpa using hi, ?_⟩
      intro j c hj hc
      cases j with
      | zero =>
        simp at hc
        rw [← hc]
        exact hHead
      | succ k =>
        exact hBefore k c (Nat.lt_of_succ_lt_succ hj) (by simpa using hc)

/-- C13 as stated fails: the response `{"rag_ready":"no"}` to a successful
preparation leaves the prepared connection with `rag_ready = "no"`, the
response's own value, and not with `true`. -/
theorem prepare_frame_counterexample :
    JSON.parse "\x7b\"rag_ready\":\"no\"\x7d" = some (.obj [("rag_ready", .str "no")]) ∧
    (handlePrepareRag 7 (.str "shop") (answerWith 200 "\x7b\"rag_ready\":\"no\"\x7d")
      oneMongoState).state.connections.map (fun c => (c.id, c.rag_ready)) =
      [(7, .str "no")] := by
  decide

/-- C13, amended: on a successful `handlePrepareRag(connectionId,
databaseName)` the connection with that identifier (the first one, should
several carry it) keeps its place and gets `selectedDatabase = databaseName`
and as `rag_ready` the response's `rag_ready` field when that is truthy, else
`true` (so `true` whenever the field is missing, `null` or a boolean, `false`
included), with every other attribute unchanged; every connection with
another identifier is unchanged; a further connection carrying the same
identifier is replaced by the same updated object, which cannot happen when
the identifiers are pairwise distinct; and when no connection has that
identifier nothing changes and no call is made. -/
theorem prepare_frame (connectionId : Nat) (databaseName : JsVal)
    (server : JsVal → FetchOutcome) (st : RegistryState) :
    (∀ (connection : Connection) (status : Nat) (data : JsVal),
      st.connections.find? (fun conn => decide (conn.id = connectionId)) = some connection →
      decodedBody (server (prepareRequest connection databaseName)) status data →
      statusOk status = true →
      (∃ i, st.connections[i]? = some connection ∧
        ∀ (j : Nat) (c : Connection), j < i → st.connections[j]? = some c →
          c.id ≠ connectionId) ∧
      connection.id = connectionId ∧
      (handlePrepareRag connectionId databaseName server st).state.connections.length =
        st.connections.length ∧
      ∀ (i : Nat) (c : Connection), st.connections[i]? = some c →
        (c.id ≠ connectionId →
          (handlePrepareRag connectionId databaseName server st).state.connections[i]? =
            some c) ∧
        (c.id = connectionId →
          ∃ u : Connection,
            (handlePrepareRag connectionId databaseName server st).state.connections[i]? =
              some u ∧
            ((getProp data "rag_ready").truthy = true →
              u.rag_ready = getProp data "rag_ready") ∧
            ((getProp data "rag_ready").truthy = false → u.rag_ready = .bool true) ∧
            u.rag_ready.truthy = true ∧
            (flagLike (getProp data "rag_ready") → u.rag_ready = .bool true) ∧
            u.selectedDatabase = databaseName ∧
            u.id = c.id ∧ u.name = connection.name ∧ u.type = connection.type ∧
            u.host = connection.host ∧ u.status = connection.status ∧
            u.databases = connection.databases ∧ u.version = connection.version ∧
            ((st.connections.map (fun conn => conn.id)).Nodup → c = connection))) ∧
    (st.connections.find? (fun conn => decide (conn.id = connectionId)) = none →
      handlePrepareRag connectionId databaseName server st =
        { state := st, requests := [], selected := [], alerts := [] }) := by
  constructor
  · intro connection status data hFind hResp hOk
    have hConnId : connection.id = connectionId := by
      have := List.find?_some hFind
      simpa using this
    rw [handlePrepareRag_ok connectionId databaseName server st connection status data hFind
      hResp hOk]
    refine ⟨find_first connectionId st.connections connection hFind, hConnId, by simp, ?_⟩
    intro i c hc
    have hMem : c ∈ st.connections := List.getElem?_mem hc
    constructor
    · intro hne
      simp [List.getElem?_map, hc, hne]
    · intro hId
      refine ⟨updatedConnection connection databaseName data,
        by simp [List.getElem?_map, hc, hId], ?_, ?_, truthy_or_true _, flagLike_or_true _,
        rfl, ?_, rfl, rfl, rfl, rfl, rfl, rfl, ?_⟩
      · intro h
        simp only [updatedConnection, JsVal.or, h, if_true]
      · intro h
        simp only [updatedConnection, JsVal.or, h, Bool.false_eq_true, if_false]
      · exact hConnId.trans hId.symm
      · intro hIds
        exact find_unique st.connections connectionId connection c hIds hFind hMem hId
  · intro hNone
    unfold handlePrepareRag
    simp only [hNone]

/-- C13 at a concrete run: the response says `rag_ready: false`, and the
prepared connection still becomes retrieval-ready with the chosen database,
all else unchanged; an unknown identifier changes nothing. -/
theorem prepare_frame_witness :
    (∃ u : Connection,
      (handlePrepareRag 7 (.str "shop") (answerWith 200 "\x7b\"rag_ready\":false\x7d")
        oneMongoState).state.connections[0]? = some u ∧
      u.rag_ready = .bool true ∧ u.selectedDatabase = .str "shop" ∧
      u.name = "docs" ∧ u.type = .Mongodb ∧ u.status = "connected") ∧
    handlePrepareRag 8 (.str "shop") (answerWith 200 "") oneMongoState =
      { state := oneMongoState, requests := [], selected := [], alerts := [] } := by
  constructor
  · obtain ⟨u, h1, -, h3, -, -, h4, -, h6, h7, -, h9, -⟩ :=
      (((prepare_frame 7 (.str "shop") (answerWith 200 "\x7b\"rag_ready\":false\x7d")
        oneMongoState).1 docsConnection 200 (.obj [("rag_ready", .bool false)]) (by decide)
        ⟨_, rfl, by decide, by decide⟩ (by decide)).2.2.2 0 docsConnection
        (by decide)).2 (by decide)
    exact ⟨u, h1, h3 (by decide), h4, h6, h7, h9⟩
  · exact (prepare_frame 8 (.str "shop") (answerWith 200 "") oneMongoState).2 (by decide)

/-- C15 as stated fails: when the response carries an empty `databases`
list and a populated `available_tables` list, the new connection gets the
empty list, not the populated one. -/
theorem connect_databases_counterexample :
    (handleAddConnection 5
      (answerWith 200 "\x7b\"databases\":[],\"available_tables\":[\"t1\"]\x7d")
      supabaseFormState).state.connections.map (fun c => c.databases) = [.arr []] := by
  decide

/-- C15, amended: on a successful connect, the new connection's `databases`
is the response's `databases` field whenever that field is a list, the empty
list included; otherwise, when `databases` is missing or `null`, it is the
`available_tables` field whenever that is a list; and it is the empty list
when both are missing or `null`. -/
theorem connect_databases (now : Nat) (server : JsVal → FetchOutcome) (st : RegistryState)
    (status : Nat) (data : JsVal) (hValid : isValid st.newConnection = true)
    (hResp : decodedBody (server (connectRequest st.newConnection)) status data)
    (hOk : statusOk status = true) :
    ∃ connection : Connection,
      (handleAddConnection now server st).state.connections = st.connections ++ [connection] ∧
      (∀ names, getProp data "databases" = .arr names → connection.databases = .arr names) ∧
      (∀ names, absent (getProp data "databases") →
        getProp data "available_tables" = .arr names → connection.databases = .arr names) ∧
      (absent (getProp data "databases") → absent (getProp data "available_tables") →
        connection.databases = .arr []) := by
  obtain ⟨connection, -, -, -, hDb, hList⟩ :=
    handleAddConnection_ok now server st status data hValid hResp hOk
  refine ⟨connection, hList, ?_, ?_, ?_⟩
  · intro names h
    rw [hDb, h]
    rfl
  · intro names hd ha
    rw [hDb, ha]
    rcases hd with hd | hd <;> rw [hd] <;> rfl
  · intro hd ha
    rw [hDb]
    rcases hd with hd | hd <;> rcases ha with ha | ha <;> rw [hd, ha] <;> rfl

/-- C15 at a concrete run: a response with only `available_tables` gives the
connection those names. -/
theorem connect_databases_witness :
    ∃ connection : Connection,
      (handleAddConnection 5 (answerWith 200 "\x7b\"available_tables\":[\"t1\",\"t2\"]\x7d")
        supabaseFormState).state.connections = [connection] ∧
      connection.databases = .arr [.str "t1", .str "t2"] := by
  obtain ⟨connection, h1, -, h3, -⟩ :=
    connect_databases 5 (answerWith 200 "\x7b\"available_tables\":[\"t1\",\"t2\"]\x7d")
      supabaseFormState 200 (.obj [("available_tables", .arr [.str "t1", .str "t2"])])
      (by decide) ⟨_, rfl, by decide, by decide⟩ (by decide)
  exact ⟨connection, h1, h3 _ (Or.inl (by decide)) (by decide)⟩

theorem append_paren_ne_empty (x : String) : x ++ ")" ≠ "" := by
  intro h
  have hLen : (x ++ ")").length = x.length + 1 := by
    rw [String.length_append]
    rfl
  rw [h] at hLen
  have hZero : "".length = 0 := rfl
  omega

/-- A connect answered by a non-success response sets the error text and
changes nothing else but the progress flag. -/
theorem handleAddConnection_failure (now : Nat) (server : JsVal → FetchOutcome)
    (st : RegistryState) (status : Nat) (data : JsVal)
    (hValid : isValid st.newConnection = true)
    (hResp : decodedBody (server (connectRequest st.newConnection)) status data)
    (hOk : statusOk status = false) :
    handleAddConnection now server st =
      { state := { st with
          isConnecting := false,
          error := connectErrorText (firstMessage data "Unknown server error" ++ " (Status: "
            ++ toString status ++ ")") },
        requests := [connectRequest st.newConnection], selected := [], alerts := [] } := by
  unfold handleAddConnection
  simp only [hValid, if_true, readConnect_failure st.newConnection now _ status data hResp hOk]

/-- C16 as stated fails twice: an `error` field that mentions `ECONNRESET` is
replaced by the fixed unreachable-backend text, and an `error` field that is
present but blank is passed over in favour of the `message` field. -/
theorem connect_error_counterexample :
    (handleAddConnection 5 (answerWith 500 "\x7b\"error\":\"ECONNRESET by peer\"\x7d")
      supabaseFormState).state.error =
      "Backend server is not accessible. Please check if your Flask server and ngrok tunnel are running." ∧
    (handleAddConnection 5 (answerWith 500 "\x7b\"error\":\"\",\"message\":\"boom\"\x7d")
      supabaseFormState).state.error = "boom (Status: 500)" := by
  decide

/-- C16, amended: on a non-success connect response with a decodable body,
the error reported is the first truthy of the body's `error`, `message`,
`detail` fields, else `Unknown server error`, followed by ` (Status: <code>)`,
unless that text contains `Failed to fetch` or `ECONNRESET`, in which case the
fixed unreachable-backend text is reported; the connection set and the active
connection are unchanged. -/
theorem connect_error (now : Nat) (server : JsVal → FetchOutcome) (st : RegistryState)
    (status : Nat) (data : JsVal) (activeConnection : Option Connection)
    (hValid : isValid st.newConnection = true)
    (hResp : decodedBody (server (connectRequest st.newConnection)) status data)
    (hOk : statusOk status = false) :
    ((includes (firstMessage data "Unknown server error" ++ " (Status: " ++ toString status
          ++ ")") "Failed to fetch" ||
        includes (firstMessage data "Unknown server error" ++ " (Status: " ++ toString status
          ++ ")") "ECONNRESET") = false →
      (handleAddConnection now server st).state.error =
        firstMessage data "Unknown server error" ++ " (Status: " ++ toString status ++ ")") ∧
    ((includes (firstMessage data "Unknown server error" ++ " (Status: " ++ toString status
          ++ ")") "Failed to fetch" ||
        includes (firstMessage data "Unknown server error" ++ " (Status: " ++ toString status
          ++ ")") "ECONNRESET") = true →
      (handleAddConnection now server st).state.error =
        "Backend server is not accessible. Please check if your Flask server and ngrok tunnel are running.") ∧
    (handleAddConnection now server st).state.connections = st.connections ∧
    activeAfter activeConnection (handleAddConnection now server st) = activeConnection := by
  rw [handleAddConnection_failure now server st status data hValid hResp hOk]
  refine ⟨?_, ?_, rfl, rfl⟩
  · intro h
    show connectErrorText _ = _
    unfold connectErrorText
    rw [h]
    simp [append_paren_ne_empty]
  · intro h
    show connectErrorText _ = _
    unfold connectErrorText
    rw [h]
    rfl

/-- C16 at a concrete run: status 502 and a body with only a `detail`
field. -/
theorem connect_error_witness :
    (handleAddConnection 5 (answerWith 502 "\x7b\"detail\":\"bad gateway\"\x7d")
      supabaseFormState).state.error = "bad gateway (Status: 502)" ∧
    (handleAddConnection 5 (answerWith 502 "\x7b\"detail\":\"bad gateway\"\x7d")
      supabaseFormState).state.connections = [] :=
  ⟨((connect_error 5 (answerWith 502 "\x7b\"detail\":\"bad gateway\"\x7d") supabaseFormState
      502 (.obj [("detail", .str "bad gateway")]) none (by decide)
      ⟨_, rfl, by decide, by decide⟩ (by decide)).1 (by decide)).trans (by decide),
    (connect_error 5 (answerWith 502 "\x7b\"detail\":\"bad gateway\"\x7d") supabaseFormState
      502 (.obj [("detail", .str "bad gateway")]) none (by decide)
      ⟨_, rfl, by decide, by decide⟩ (by decide)).2.2.1⟩

/-- C17 as stated fails: for a non-success prepare response whose body holds
only a `detail` field, the message shown is the default, without the detail
and without the status code (the connect rule would give
`boom (Status: 500)`). -/
theorem prepare_error_counterexample :
    (handlePrepareRag 7 (.str "shop") (answerWith 500 "\x7b\"detail\":\"boom\"\x7d")
      oneMongoState).alerts = ["Failed to prepare RAG: Failed to prepare RAG"] ∧
    firstMessage (.obj [("detail", .str "boom")]) "Failed to prepare RAG" ++ " (Status: "
      ++ toString 500 ++ ")" = "boom (Status: 500)" := by
  decide

/-- C17, amended: on a non-success prepare response with a decodable body,
`handlePrepareRag` alerts `Failed to prepare RAG: ` followed by the first
truthy of the body's `error` and `message` fields, else `Failed to prepare
RAG`; the `detail` field and the status code are not used; the registry is
left unchanged and no connection is selected. -/
theorem prepare_error (connectionId : Nat) (databaseName : JsVal)
    (server : JsVal → FetchOutcome) (st : RegistryState) (connection : Connection)
    (status : Nat) (data : JsVal)
    (hFind : st.connections.find? (fun conn => decide (conn.id = connectionId)) = some connection)
    (hResp : decodedBody (server (prepareRequest connection databaseName)) status data)
    (hOk : statusOk status = false) :
    (handlePrepareRag connectionId databaseName server st).alerts =
      ["Failed to prepare RAG: " ++ toStr (((getProp data "error").or
        (getProp data "message")).or (.str "Failed to prepare RAG"))] ∧
    (handlePrepareRag connectionId databaseName server st).state.connections =
      st.connections ∧
    (handlePrepareRag connectionId databaseName server st).state =
      { st with isPreparingRag := false } ∧
    (handlePrepareRag connectionId databaseName server st).selected = [] := by
  unfold handlePrepareRag
  simp only [hFind, readPrepare_failure _ status data hResp hOk]
  simp

/-- C17 at a concrete run: status 500 with an `error` field. -/
theorem prepare_error_witness :
    (handlePrepareRag 7 (.str "shop") (answerWith 500 "\x7b\"error\":\"no schema\"\x7d")
      oneMongoState).alerts = ["Failed to prepare RAG: no schema"] ∧
    (handlePrepareRag 7 (.str "shop") (answerWith 500 "\x7b\"error\":\"no schema\"\x7d")
      oneMongoState).state.connections = oneMongoState.connections :=
  ⟨(prepare_error 7 (.str "shop") (answerWith 500 "\x7b\"error\":\"no schema\"\x7d")
      oneMongoState docsConnection 500 (.obj [("error", .str "no schema")]) (by decide)
      ⟨_, rfl, by decide, by decide⟩ (by decide)).1.trans (by decide),
    (prepare_error 7 (.str "shop") (answerWith 500 "\x7b\"error\":\"no schema\"\x7d")
      oneMongoState docsConnection 500 (.obj [("error", .str "no schema")]) (by decide)
      ⟨_, rfl, by decide, by decide⟩ (by decide)).2.1⟩

theorem readResponse_decoded (resp : FetchOutcome) (status : Nat) (data : JsVal)
    (h : decodedBody resp status data) :
    readResponse resp =
      if !statusOk status || decide (getProp data "status" = .str "failure") then
        .error (toStr (((getProp data "error").or (getProp data "message")).or
          (.str "Query execution failed")))
      else .ok (normalize data) := by
  obtain ⟨text, rfl, hBody, hNull⟩ := h
  unfold readResponse
  cases data <;> first | exact absurd rfl hNull | simp [hBody]

/-- C18 as stated fails: for a non-success execution response whose body
holds only a `detail` field the error stored is the default text, not the
detail. -/
theorem execute_error_counterexample :
    (handleExecute "SELECT 1" (some mysqlConnection) none none
      (answerWith 500 "\x7b\"detail\":\"boom\"\x7d") idleState).state.executionError =
      some "Query execution failed" := by
  decide

/-- C18, amended: `handleExecute` classifies a response with a decodable
body as a failure exactly when the transport status is non-success or the body
has `status = 'failure'`; no results are stored then, and the error stored is
the text of the first truthy of the body's `error` and `message` fields, else
`Query execution failed` (the `detail` field is not used): that text itself
when it contains neither `unknown top level operator` nor `$count`, and the
aggregation diagnosis followed by that text when it contains one of the two;
otherwise the normalised body is stored and no error. -/
theorem execute_error (query : String) (conn : Connection) (metadata : Option Metadata)
    (promptReply : Option String) (server : JsVal → FetchOutcome) (st : QueryResultsState)
    (requestBody : JsVal) (status : Nat) (data : JsVal)
    (hReady : conn.rag_ready.truthy = true)
    (hBuild : (buildRequest query conn metadata promptReply).result = .ok requestBody)
    (hResp : decodedBody (server requestBody) status data) :
    ((statusOk status = false ∨ getProp data "status" = .str "failure") →
      ∃ message : String,
        message = toStr (((getProp data "error").or (getProp data "message")).or
          (.str "Query execution failed")) ∧
        (includes message "unknown top level operator" = false →
          includes message "$count" = false →
          (handleExecute query (some conn) metadata promptReply server st).state.executionError =
            some message) ∧
        ((includes message "unknown top level operator" = true ∨
            includes message "$count" = true) →
          (handleExecute query (some conn) metadata promptReply server st).state.executionError =
            some ("MongoDB Aggregation Error: The query contains aggregation operators (like $count, $group, etc.) which require special handling. \n        \nThe backend needs to use the aggregation pipeline instead of find(). Please ensure the backend /execute endpoint supports aggregation queries.\n\nOriginal error: " ++ message)) ∧
        (handleExecute query (some conn) metadata promptReply server st).state.executionResults =
          none) ∧
    (¬ (statusOk status = false ∨ getProp data "status" = .str "failure") →
      (handleExecute query (some conn) metadata promptReply server st).state.executionError =
        none ∧
      (handleExecute query (some conn) metadata promptReply server st).state.executionResults =
        some (normalize data)) := by
  have hRead := readResponse_decoded (server requestBody) status data hResp
  constructor
  · intro h
    have hc : (!statusOk status || decide (getProp data "status" = .str "failure")) = true := by
      rcases h with h | h
      · simp [h]
      · simp [h]
    rw [hc, if_pos rfl] at hRead
    have hError : (handleExecute query (some conn) metadata promptReply server
        st).state.executionError =
        some (describeError (toStr (((getProp data "error").or (getProp data "message")).or
          (.str "Query execution failed")))) := by
      unfold handleExecute
      simp only [hReady, Bool.not_true, Bool.false_eq_true, if_false, hBuild, hRead]
    have hResults : (handleExecute query (some conn) metadata promptReply server
        st).state.executionResults = none := by
      unfold handleExecute
      simp only [hReady, Bool.not_true, Bool.false_eq_true, if_false, hBuild, hRead]
    refine ⟨_, rfl, ?_, ?_, hResults⟩
    · intro h1 h2
      rw [hError]
      unfold describeError
      rw [h1, h2]
      rfl
    · intro h12
      rw [hError]
      unfold describeError
      rcases h12 with h1 | h2
      · rw [h1]
        rfl
      · rw [h2, Bool.or_true]
        rfl
  · intro h
    have hc : (!statusOk status || decide (getProp data "status" = .str "failure")) = false := by
      have h1 : statusOk status = true := by
        cases hs : statusOk status
        · exact absurd (Or.inl hs) h
        · rfl
      have h2 : ¬ getProp data "status" = .str "failure" := fun h2 => h (Or.inr h2)
      simp [h1, h2]
    rw [hc, if_neg (by simp)] at hRead
    unfold handleExecute
    simp only [hReady, Bool.not_true, Bool.false_eq_true, if_false, hBuild, hRead]
    simp

/-- C18 at concrete runs: a 200 response whose body says `status: failure`
stores the body's `message` as the error and no results; a 500 response whose
`error` holds `unknown top level operator: $group` stores the aggregation
diagnosis followed by that text. -/
theorem execute_error_witness :
    (handleExecute "SELECT 1" (some mysqlConnection) none none
      (answerWith 200 "\x7b\"status\":\"failure\",\"message\":\"no such table\"\x7d")
      idleState).state.executionError = some "no such table" ∧
    (handleExecute "SELECT 1" (some mysqlConnection) none none
      (answerWith 200 "\x7b\"status\":\"failure\",\"message\":\"no such table\"\x7d")
      idleState).state.executionResults = none ∧
    (handleExecute "SELECT 1" (some mysqlConnection) none none
      (answerWith 500 "\x7b\"error\":\"unknown top level operator: $group\"\x7d")
      idleState).state.executionError =
      some ("MongoDB Aggregation Error: The query contains aggregation operators (like $count, $group, etc.) which require special handling. \n        \nThe backend needs to use the aggregation pipeline instead of find(). Please ensure the backend /execute endpoint supports aggregation queries.\n\nOriginal error: " ++ "unknown top level operator: $group") := by
  obtain ⟨m1, hm1, hPlain, -, hNone⟩ :=
    (execute_error "SELECT 1" mysqlConnection none none
      (answerWith 200 "\x7b\"status\":\"failure\",\"message\":\"no such table\"\x7d") idleState
      (.obj [("database_type", .str "mysql"), ("query", .str "SELECT 1"),
        ("query_type", .str "sql"), ("database_name", .str "shop")]) 200
      (.obj [("status", .str "failure"), ("message", .str "no such table")])
      (by decide) (by rfl) ⟨_, rfl, by decide, by decide⟩).1 (Or.inr (by decide))
  obtain ⟨m2, hm2, -, hNotice, -⟩ :=
    (execute_error "SELECT 1" mysqlConnection none none
      (answerWith 500 "\x7b\"error\":\"unknown top level operator: $group\"\x7d") idleState
      (.obj [("database_type", .str "mysql"), ("query", .str "SELECT 1"),
        ("query_type", .str "sql"), ("database_name", .str "shop")]) 500
      (.obj [("error", .str "unknown top level operator: $group")])
      (by decide) (by rfl) ⟨_, rfl, by decide, by decide⟩).1 (Or.inl (by decide))
  have h1 : m1 = "no such table" := hm1.trans (by decide)
  have h2 : m2 = "unknown top level operator: $group" := hm2.trans (by decide)
  subst h1
  subst h2
  exact ⟨hPlain (by decide) (by decide), hNone, hNotice (Or.inl (by decide))⟩

/-! ## `parseInt` on port texts -/

theorem isDigit_bounds (c : Char) (h : c.isDigit = true) : 48 ≤ c.toNat ∧ c.toNat ≤ 57 := by
  simp only [Char.isDigit, Bool.and_eq_true, decide_eq_true_eq] at h
  exact ⟨h.1, h.2⟩

theorem digitValue_digit (c : Char) (h : c.isDigit = true) :
    digitValue c = some (c.toNat - 48) := by
  obtain ⟨h1, h2⟩ := isDigit_bounds c h
  have h3 : '0' ≤ c ∧ c ≤ '9' := ⟨h1, h2⟩
  unfold digitValue
  rw [if_pos h3]

theorem isJsWhitespace_digit (c : Char) (h : c.isDigit = true) : isJsWhitespace c = false := by
  obtain ⟨h1, h2⟩ := isDigit_bounds c h
  unfold isJsWhitespace
  simp only [List.contains, List.elem, Bool.or_eq_false_iff, Bool.and_eq_false_iff]
  refine ⟨?_, Or.inl (by simp; omega)⟩
  have hne : ∀ k : Nat, (k < 48 ∨ 57 < k) → (c.toNat == k) = false := by
    intro k hk
    simp
    omega
  simp [hne]

theorem takeRadixDigits_digits (ds : List Char) (h : ∀ c ∈ ds, c.isDigit = true) :
    takeRadixDigits 10 ds = ds.map (fun c => c.toNat - 48) := by
  induction ds with
  | nil => rfl
  | cons c cs ih =>
    have hc := h c (List.mem_cons_self c cs)
    obtain ⟨h1, h2⟩ := isDigit_bounds c hc
    have hlt : c.toNat - 48 < 10 := by omega
    simp only [takeRadixDigits, digitValue_digit c hc, hlt, if_true, List.map_cons]
    rw [ih (fun d hd => h d (List.mem_cons_of_mem c hd))]

theorem foldl_digit_values (ds : List Char) (n : Nat) :
    (ds.map (fun c => c.toNat - 48)).foldl (fun n d => 10 * n + d) n =
      ds.foldl (fun n c => 10 * n + (c.toNat - 48)) n := by
  induction ds generalizing n with
  | nil => rfl
  | cons c cs ih => simp only [List.map_cons, List.foldl_cons, ih]

/-- On a non-empty run of decimal digits `parseIntDigits` reads its value. -/
theorem parseIntDigits_digits (ds : List Char) (hne : ds ≠ [])
    (h : ∀ c ∈ ds, c.isDigit = true) : parseIntDigits ds = some (digitsToNat ds) := by
  have hTake := takeRadixDigits_digits ds h
  have hVal : (ds.map (fun c => c.toNat - 48)).foldl (fun n d => 10 * n + d) 0 =
      digitsToNat ds := foldl_digit_values ds 0
  cases ds with
  | nil => exact absurd rfl hne
  | cons c cs =>
    unfold parseIntDigits
    split
    · rename_i rest heq
      have hx : 'x' ∈ c :: cs := by
        rw [heq]
        simp
      exact absurd (h 'x' hx) (by decide)
    · rename_i rest heq
      have hx : 'X' ∈ c :: cs := by
        rw [heq]
        simp
      exact absurd (h 'X' hx) (by decide)
    · rw [hTake]
      simp only [List.map_cons]
      rw [← hVal]
      rfl

/-- After a first character that is neither white space nor a sign,
`parseInt` reads digits from that character on. -/
theorem parseInt_head (c : Char) (cs : List Char) (hws : isJsWhitespace c = false)
    (hMinus : c ≠ '-') (hPlus : c ≠ '+') :
    parseInt (String.mk (c :: cs)) = (parseIntDigits (c :: cs)).map Int.ofNat := by
  unfold parseInt
  simp only [List.dropWhile, hws]
  split
  · rename_i rest heq
    exact absurd (List.cons.inj heq).1 hMinus
  · rename_i rest heq
    exact absurd (List.cons.inj heq).1 hPlus
  · rfl

theorem parseInt_digits (ds : List Char) (hne : ds ≠ [])
    (h : ∀ c ∈ ds, c.isDigit = true) :
    parseInt (String.mk ds) = some (Int.ofNat (digitsToNat ds)) := by
  cases ds with
  | nil => exact absurd rfl hne
  | cons c cs =>
    have hc := h c (List.mem_cons_self c cs)
    have hMinus : c ≠ '-' := by
      intro e
      rw [e] at hc
      exact absurd hc (by decide)
    have hPlus : c ≠ '+' := by
      intro e
      rw [e] at hc
      exact absurd hc (by decide)
    rw [parseInt_head c cs (isJsWhitespace_digit c hc) hMinus hPlus,
      parseIntDigits_digits (c :: cs) hne h]
    rfl

theorem takeRadixDigits_nondigit (c : Char) (cs : List Char) (h : c.isDigit = false) :
    takeRadixDigits 10 (c :: cs) = [] := by
  have hnd : ¬ (48 ≤ c.toNat ∧ c.toNat ≤ 57) := by
    intro hb
    have : c.isDigit = true := by
      simp only [Char.isDigit, Bool.and_eq_true, decide_eq_true_eq]
      exact ⟨hb.1, hb.2⟩
    rw [h] at this
    exact Bool.noConfusion this
  unfold takeRadixDigits digitValue
  by_cases h1 : '0' ≤ c ∧ c ≤ '9'
  · exact absurd (show 48 ≤ c.toNat ∧ c.toNat ≤ 57 from ⟨h1.1, h1.2⟩) hnd
  · rw [if_neg h1]
    by_cases h2 : 'a' ≤ c ∧ c ≤ 'z'
    · rw [if_pos h2]
      have : 97 ≤ c.toNat := h2.1
      have hge : ¬ c.toNat - 87 < 10 := by omega
      simp only [hge, if_false]
    · rw [if_neg h2]
      by_cases h3 : 'A' ≤ c ∧ c ≤ 'Z'
      · rw [if_pos h3]
        have : 65 ≤ c.toNat := h3.1
        have hge : ¬ c.toNat - 55 < 10 := by omega
        simp only [hge, if_false]
      · rw [if_neg h3]

/-- A text whose first character is neither white space, a sign nor a
decimal digit reads as `NaN`. -/
theorem parseInt_nondigit (c : Char) (cs : List Char) (hDigit : c.isDigit = false)
    (hws : isJsWhitespace c = false) (hMinus : c ≠ '-') (hPlus : c ≠ '+') :
    parseInt (String.mk (c :: cs)) = none := by
  rw [parseInt_head c cs hws hMinus hPlus]
  have hTake := takeRadixDigits_nondigit c cs hDigit
  have hZero : c ≠ '0' := by
    intro e
    rw [e] at hDigit
    exact absurd hDigit (by decide)
  unfold parseIntDigits
  split
  · rename_i rest heq
    exact absurd (List.cons.inj heq).1 hZero
  · rename_i rest heq
    exact absurd (List.cons.inj heq).1 hZero
  · rw [hTake]
    rfl

theorem takeRadixDigits_leading (ds : List Char) (c : Char) (cs : List Char)
    (h : ∀ d ∈ ds, d.isDigit = true) (hc : c.isDigit = false) :
    takeRadixDigits 10 (ds ++ c :: cs) = ds.map (fun d => d.toNat - 48) := by
  induction ds with
  | nil => exact takeRadixDigits_nondigit c cs hc
  | cons d rest ih =>
    have hd := h d (List.mem_cons_self d rest)
    obtain ⟨h1, h2⟩ := isDigit_bounds d hd
    have hlt : d.toNat - 48 < 10 := by omega
    have hRest := ih (fun e he => h e (List.mem_cons_of_mem d he))
    simp only [List.cons_append, takeRadixDigits, digitValue_digit d hd, hlt, if_true,
      List.map_cons]
    exact congrArg _ hRest

/-- A text that opens with decimal digits followed by a character that is
neither a digit nor `x` or `X` reads as the value of those digits. -/
theorem parseInt_leading (ds : List Char) (c : Char) (cs : List Char) (hne : ds ≠ [])
    (h : ∀ d ∈ ds, d.isDigit = true) (hc : c.isDigit = false) (hx : c ≠ 'x') (hX : c ≠ 'X') :
    parseInt (String.mk (ds ++ c :: cs)) = some (Int.ofNat (digitsToNat ds)) := by
  have hTake := takeRadixDigits_leading ds c cs h hc
  have hVal : (ds.map (fun c => c.toNat - 48)).foldl (fun n d => 10 * n + d) 0 =
      digitsToNat ds := foldl_digit_values ds 0
  cases ds with
  | nil => exact absurd rfl hne
  | cons d rest =>
    have hd := h d (List.mem_cons_self d rest)
    have hMinus : d ≠ '-' := by
      intro e
      rw [e] at hd
      exact absurd hd (by decide)
    have hPlus : d ≠ '+' := by
      intro e
      rw [e] at hd
      exact absurd hd (by decide)
    rw [List.cons_append, parseInt_head d _ (isJsWhitespace_digit d hd) hMinus hPlus]
    have hDigits : parseIntDigits (d :: (rest ++ c :: cs)) = some (digitsToNat (d :: rest)) := by
      unfold parseIntDigits
      split
      · rename_i tail heq
        have h2 := (List.cons.inj heq).2
        cases rest with
        | nil => exact absurd (List.cons.inj h2).1 hx
        | cons e rest2 =>
          have he := h e (by simp)
          rw [(List.cons.inj h2).1] at he
          exact absurd he (by decide)
      · rename_i tail heq
        have h2 := (List.cons.inj heq).2
        cases rest with
        | nil => exact absurd (List.cons.inj h2).1 hX
        | cons e rest2 =>
          have he := h e (by simp)
          rw [(List.cons.inj h2).1] at he
          exact absurd he (by decide)
      · rw [← List.cons_append, hTake]
        simp only [List.map_cons]
        rw [← hVal]
        rfl
    rw [hDigits]
    rfl

theorem connectRequest_port (newConnection : NewConnection)
    (hType : newConnection.type = .Mysql) :
    getProp (connectRequest newConnection) "port" = .num (portNumber newConnection.port) 0 := by
  unfold connectRequest
  simp only [hType]
  rw [getProp_setKey_other _ _ _ _ (by decide), getProp_setKey_self]

/-- C14 as stated fails: the port text `12abc` is not numeric, yet the port
sent is 12 and not 3306; and the port text `0` is numeric with value 0, yet
the port sent is 3306. -/
theorem connect_port_counterexample :
    (handleAddConnection 5 (answerWith 200 "") (mysqlFormState "12abc")).requests.map
      (fun r => getProp r "port") = [.num 12 0] ∧
    (handleAddConnection 5 (answerWith 200 "") (mysqlFormState "0")).requests.map
      (fun r => getProp r "port") = [.num 3306 0] := by
  decide

/-- C14, amended: for a relational-server connect request, the port sent is
what `parseInt` reads from the port text, with 3306 in place of 0 and of no
number: for a text of decimal digits only it is the numeric value of the text
when that is not 0, and 3306 when it is 0; for a text that opens with decimal
digits followed by another character (not `x` or `X`) it is the value of those
leading digits, under the same rule; for a text that does not begin with
white space, a sign or a digit, and for the blank text, it is 3306. -/
theorem connect_port (newConnection : NewConnection) (hType : newConnection.type = .Mysql) :
    (∀ ds : List Char, newConnection.port = String.mk ds → ds ≠ [] →
      (∀ c ∈ ds, c.isDigit = true) →
      getProp (connectRequest newConnection) "port" =
        .num (if digitsToNat ds = 0 then 3306 else Int.ofNat (digitsToNat ds)) 0) ∧
    (∀ (ds : List Char) (c : Char) (cs : List Char),
      newConnection.port = String.mk (ds ++ c :: cs) → ds ≠ [] →
      (∀ d ∈ ds, d.isDigit = true) → c.isDigit = false → c ≠ 'x' → c ≠ 'X' →
      getProp (connectRequest newConnection) "port" =
        .num (if digitsToNat ds = 0 then 3306 else Int.ofNat (digitsToNat ds)) 0) ∧
    (∀ (c : Char) (cs : List Char), newConnection.port = String.mk (c :: cs) →
      c.isDigit = false → isJsWhitespace c = false → c ≠ '-' → c ≠ '+' →
      getProp (connectRequest newConnection) "port" = .num 3306 0) ∧
    (newConnection.port = "" → getProp (connectRequest newConnection) "port" = .num 3306 0) := by
  rw [connectRequest_port newConnection hType]
  have hFallback : ∀ n : Nat,
      (match (some (Int.ofNat n) : Option Int) with
        | some k => if k = 0 then (3306 : Int) else k
        | none => 3306) = if n = 0 then 3306 else Int.ofNat n := by
    intro n
    by_cases hz : n = 0
    · simp [hz]
    · have : ¬ Int.ofNat n = 0 := fun e => hz (Int.ofNat_eq_zero.mp e)
      simp [hz, this]
  refine ⟨?_, ?_, ?_, ?_⟩
  · intro ds hPort hne hDigits
    unfold portNumber
    rw [hPort, parseInt_digits ds hne hDigits, hFallback]
  · intro ds c cs hPort hne hDigits hc hx hX
    unfold portNumber
    rw [hPort, parseInt_leading ds c cs hne hDigits hc hx hX, hFallback]
  · intro c cs hPort hDigit hws hMinus hPlus
    unfold portNumber
    rw [hPort, parseInt_nondigit c cs hDigit hws hMinus hPlus]
  · intro hPort
    rw [hPort]
    rfl

/-- C14 at concrete port texts: `3307` is sent as 3307, `12abc` as 12 and
`abc` as 3306. -/
theorem connect_port_witness :
    getProp (connectRequest (mysqlFormState "3307").newConnection) "port" = .num 3307 0 ∧
    getProp (connectRequest (mysqlFormState "12abc").newConnection) "port" = .num 12 0 ∧
    getProp (connectRequest (mysqlFormState "abc").newConnection) "port" = .num 3306 0 :=
  ⟨((connect_port (mysqlFormState "3307").newConnection rfl).1 ['3', '3', '0', '7'] rfl
      (by decide) (by decide)).trans (by decide),
    ((connect_port (mysqlFormState "12abc").newConnection rfl).2.1 ['1', '2'] 'a' ['b', 'c'] rfl
      (by decide) (by decide) (by decide) (by decide) (by decide)).trans (by decide),
    (connect_port (mysqlFormState "abc").newConnection rfl).2.2.1 'a' ['b', 'c'] rfl
      (by decide) (by decide) (by decide) (by decide)⟩

/-! ## The input panel: threads -/

theorem threadOf_setThread (mode : Mode) (st : QueryInputState) (messages : List Message) :
    threadOf mode (setThread mode st messages) = messages := by
  cases mode <;> rfl

theorem threadOf_setThread_other (mode other : Mode) (st : QueryInputState)
    (messages : List Message) (h : other ≠ mode) :
    threadOf other (setThread mode st messages) = threadOf other st := by
  cases mode <;> cases other <;> first | rfl | exact absurd rfl h

theorem handleSubmit_mode (clock : SubmitClock) (activeConnection : Option Connection)
    (server : String → JsVal → FetchOutcome) (st : QueryInputState) :
    (handleSubmit clock activeConnection server st).state.mode = st.mode := by
  unfold handleSubmit
  split
  · rfl
  · cases st.mode <;> rfl

theorem handleSubmit_thread (clock : SubmitClock) (activeConnection : Option Connection)
    (server : String → JsVal → FetchOutcome) (st : QueryInputState) :
    threadOf st.mode (handleSubmit clock activeConnection server st).state =
      if trim st.naturalLanguageInput = "" then threadOf st.mode st
      else (submitThread clock activeConnection server st.mode st.naturalLanguageInput
        (threadOf st.mode st)).thread := by
  unfold handleSubmit
  split
  · rfl
  · exact threadOf_setThread st.mode _ _

theorem handleSubmit_thread_other (clock : SubmitClock) (activeConnection : Option Connection)
    (server : String → JsVal → FetchOutcome) (st : QueryInputState) (other : Mode)
    (h : other ≠ st.mode) :
    threadOf other (handleSubmit clock activeConnection server st).state = threadOf other st := by
  unfold handleSubmit
  split
  · rfl
  · rw [threadOf_setThread_other st.mode other _ _ h]
    cases other <;> rfl

/-- Settling a thread without loading message, extended by the user message
and the loading message, gives the thread, the user message and the reply. -/
theorem settle_pending (clock : SubmitClock) (currentInput : String) (messages : List Message)
    (reply : Message) (hClean : ∀ m ∈ messages, m.isLoading = false) :
    settle ((messages ++ [userMessage clock currentInput]) ++ [loadingMessage clock]) reply =
      messages ++ [userMessage clock currentInput, reply] := by
  have h1 : messages.filter (fun msg => !msg.isLoading) = messages := by
    apply List.filter_eq_self.mpr
    intro m hm
    simp [hClean m hm]
  simp [settle, List.filter_append, h1, userMessage, loadingMessage]

theorem submitThread_refused (clock : SubmitClock) (activeConnection : Option Connection)
    (server : String → JsVal → FetchOutcome) (mode : Mode) (currentInput : String)
    (messages : List Message)
    (hGuard : activeConnection = none ∨
      ∃ conn, activeConnection = some conn ∧ conn.rag_ready.truthy = false) :
    submitThread clock activeConnection server mode currentInput messages =
      { thread := settle ((messages ++ [userMessage clock currentInput]) ++
          [loadingMessage clock]) (guidanceMessage clock),
        requests := [], generated := [] } := by
  unfold submitThread completeSubmission beginSubmission
  rcases hGuard with h | ⟨conn, h, hr⟩
  · subst h
    rfl
  · subst h
    simp only [hr, Bool.not_false, if_true]

/-- C19: for every non-blank input and either mode, when no connection is
active or the active connection is not retrieval-ready, the active thread
(holding no loading message before) becomes the prior thread followed by the
user message and the fixed guidance message `Please connect to a database and
prepare RAG before asking questions.`; no upstream call is made and the
execution surface is not notified. -/
theorem submit_guard (clock : SubmitClock) (activeConnection : Option Connection)
    (server : String → JsVal → FetchOutcome) (st : QueryInputState)
    (hInput : trim st.naturalLanguageInput ≠ "")
    (hGuard : activeConnection = none ∨
      ∃ conn, activeConnection = some conn ∧ conn.rag_ready.truthy = false)
    (hClean : ∀ m ∈ threadOf st.mode st, m.isLoading = false) :
    threadOf st.mode (handleSubmit clock activeConnection server st).state =
      threadOf st.mode st ++
        [userMessage clock st.naturalLanguageInput, guidanceMessage clock] ∧
    (guidanceMessage clock).content =
      .str "Please connect to a database and prepare RAG before asking questions." ∧
    (handleSubmit clock activeConnection server st).requests = [] ∧
    (handleSubmit clock activeConnection server st).generated = [] := by
  have hThread := submitThread_refused clock activeConnection server st.mode
    st.naturalLanguageInput (threadOf st.mode st) hGuard
  refine ⟨?_, rfl, ?_, ?_⟩
  · rw [handleSubmit_thread, if_neg hInput, hThread]
    exact settle_pending clock _ _ _ hClean
  · unfold handleSubmit
    rw [if_neg hInput, hThread]
  · unfold handleSubmit
    rw [if_neg hInput, hThread]

/-- C19 at a concrete run: the question `how many users?` in conversational
mode with no active connection. -/
theorem submit_guard_witness :
    (handleSubmit sampleClock none (upstream 200 "") askingState).state.chatMessages.map
      (fun m => (m.type, m.content)) =
      [("bot", .str "Hello! I'm your chat assistant. Ask me questions about your data and I'll provide detailed answers."),
       ("user", .str "how many users?"),
       ("bot", .str "Please connect to a database and prepare RAG before asking questions.")] ∧
    (handleSubmit sampleClock none (upstream 200 "") askingState).requests = [] := by
  have h := submit_guard sampleClock none (upstream 200 "") askingState
    (by decide) (Or.inl rfl) (by decide)
  refine ⟨?_, h.2.2.1⟩
  have h1 : (handleSubmit sampleClock none (upstream 200 "") askingState).state.chatMessages =
      threadOf askingState.mode askingState ++
        [userMessage sampleClock askingState.naturalLanguageInput,
          guidanceMessage sampleClock] := h.1
  rw [h1]
  decide

theorem stepInput_submit_mode (st : QueryInputState) (text : String) (clock : SubmitClock)
    (activeConnection : Option Connection) (server : String → JsVal → FetchOutcome) :
    (stepInput st (.submit text clock activeConnection server)).mode = st.mode := by
  show (handleSubmit clock activeConnection server { st with naturalLanguageInput := text }
    ).state.mode = st.mode
  rw [handleSubmit_mode]

theorem stepInput_submit_thread (st : QueryInputState) (text : String) (clock : SubmitClock)
    (activeConnection : Option Connection) (server : String → JsVal → FetchOutcome) :
    threadOf st.mode (stepInput st (.submit text clock activeConnection server)) =
      applySubmission st.mode (threadOf st.mode st)
        (.submit text clock activeConnection server) := by
  have h := handleSubmit_thread clock activeConnection server
    { st with naturalLanguageInput := text }
  have hThread : threadOf st.mode { st with naturalLanguageInput := text } =
      threadOf st.mode st := by
    cases st.mode <;> rfl
  simp only [hThread] at h
  exact h

theorem stepInput_submit_other (st : QueryInputState) (text : String) (clock : SubmitClock)
    (activeConnection : Option Connection) (server : String → JsVal → FetchOutcome)
    (other : Mode) (h : other ≠ st.mode) :
    threadOf other (stepInput st (.submit text clock activeConnection server)) =
      threadOf other st := by
  have h1 := handleSubmit_thread_other clock activeConnection server
    { st with naturalLanguageInput := text } other h
  rw [show stepInput st (.submit text clock activeConnection server) =
    (handleSubmit clock activeConnection server { st with naturalLanguageInput := text }).state
    from rfl, h1]
  cases other <;> rfl

/-- After any sequence of events, the thread of a mode is the initial
thread of that mode extended by the submissions made while that mode was in
force, and by nothing else. -/
theorem runInput_thread (mode : Mode) (events : List InputEvent) (st : QueryInputState) :
    threadOf mode (runInput st events) =
      (submissionsIn mode st.mode events).foldl (applySubmission mode) (threadOf mode st) := by
  induction events generalizing st with
  | nil => rfl
  | cons event rest ih =>
    rw [show runInput st (event :: rest) = runInput (stepInput st event) rest from rfl, ih]
    cases event with
    | modeChange newMode =>
      have hThread : threadOf mode (stepInput st (.modeChange newMode)) = threadOf mode st := by
        cases mode <;> rfl
      rw [hThread]
      rfl
    | submit text clock activeConnection server =>
      rw [stepInput_submit_mode]
      by_cases hm : st.mode = mode
      · subst hm
        rw [stepInput_submit_thread]
        simp only [submissionsIn, if_true, List.foldl_cons]
      · have hOther : mode ≠ st.mode := fun h => hm h.symm
        rw [stepInput_submit_other st text clock activeConnection server mode hOther]
        simp only [submissionsIn, hm, if_false]

/-- C20: for every sequence of mode switches and submissions, each thread is
its initial thread extended by exactly the submissions made while its own
mode was in force; a submission made in conversational mode leaves the
structured-mode thread unchanged, a submission made in structured mode leaves
the conversational thread unchanged, and a mode switch changes neither
thread. -/
theorem mode_isolation (st : QueryInputState) :
    (∀ (mode : Mode) (events : List InputEvent),
      threadOf mode (runInput st events) =
        (submissionsIn mode st.mode events).foldl (applySubmission mode) (threadOf mode st)) ∧
    (∀ (clock : SubmitClock) (activeConnection : Option Connection)
        (server : String → JsVal → FetchOutcome), st.mode = .chat →
      (handleSubmit clock activeConnection server st).state.sqlMessages = st.sqlMessages) ∧
    (∀ (clock : SubmitClock) (activeConnection : Option Connection)
        (server : String → JsVal → FetchOutcome), st.mode = .sql →
      (handleSubmit clock activeConnection server st).state.chatMessages = st.chatMessages) ∧
    (∀ newMode : Mode,
      (handleModeChange newMode st).1.sqlMessages = st.sqlMessages ∧
      (handleModeChange newMode st).1.chatMessages = st.chatMessages) := by
  refine ⟨fun mode events => runInput_thread mode events st, ?_, ?_, fun _ => ⟨rfl, rfl⟩⟩
  · intro clock activeConnection server h
    exact handleSubmit_thread_other clock activeConnection server st .sql (by rw [h]; decide)
  · intro clock activeConnection server h
    exact handleSubmit_thread_other clock activeConnection server st .chat (by rw [h]; decide)

/-- C20 at a concrete session: after a structured-mode submission, a switch,
a conversational submission and a switch back, the structured-mode thread
holds the structured-mode question only and the conversational thread the
conversational question only. -/
theorem mode_isolation_witness :
    (threadOf .sql (runInput (initialInput "t") sampleSession)).map
      (fun m => (m.type, m.content)) =
      [("bot", .str "Hello! I'm your SQL assistant. Describe what data you want to retrieve and I'll generate the perfect SQL query for you."),
       ("user", .str "list users"),
       ("bot", .str "Please connect to a database and prepare RAG before asking questions.")] ∧
    (threadOf .chat (runInput (initialInput "t") sampleSession)).map
      (fun m => (m.type, m.content)) =
      [("bot", .str "Hello! I'm your chat assistant. Ask me questions about your data and I'll provide detailed answers."),
       ("user", .str "how many users?"),
       ("bot", .str "Please connect to a database and prepare RAG before asking questions.")] := by
  constructor
  · rw [(mode_isolation (initialInput "t")).1 .sql sampleSession]
    decide
  · rw [(mode_isolation (initialInput "t")).1 .chat sampleSession]
    decide

/-! ## `substring` -/

/-- On a text of the Basic Multilingual Plane, where code units and
characters coincide, `substring(0, n)` takes the first `n` characters. -/
theorem substringUnits_bmp : ∀ (n : Nat) (cs : List Char), (∀ c ∈ cs, c.toNat < 65536) →
    substringUnits n cs = cs.take n := by
  intro n
  induction n using Nat.strongRecOn with
  | _ n ih =>
    intro cs hAll
    cases cs with
    | nil =>
      cases n <;> simp [substringUnits]
    | cons c rest =>
      have hc : c.toNat < 65536 := hAll c (List.mem_cons_self c rest)
      have hRest : ∀ x ∈ rest, x.toNat < 65536 := fun x hx => hAll x (List.mem_cons_of_mem c hx)
      match n with
      | 0 => simp [substringUnits]
      | 1 => simp [substringUnits, hc]
      | k + 2 =>
        simp only [substringUnits, hc, if_true, List.take_succ_cons]
        rw [ih (k + 1) (by omega) rest hRest]

/-! ## Decimal writing of naturals -/

theorem digitChar_isDigit (n : Nat) : (Nat.digitChar (n % 10)).isDigit = true := by
  have h : n % 10 < 10 := Nat.mod_lt n (by decide)
  generalize n % 10 = d at h
  interval_cases d <;> decide

theorem toDigitsCore_digits (fuel : Nat) : ∀ (n : Nat) (acc : List Char), acc ≠ [] →
    (∀ c ∈ acc, c.isDigit = true) →
    Nat.toDigitsCore 10 fuel n acc ≠ [] ∧
      ∀ c ∈ Nat.toDigitsCore 10 fuel n acc, c.isDigit = true := by
  induction fuel with
  | zero =>
    intro n acc hne hall
    exact ⟨hne, hall⟩
  | succ fuel ih =>
    intro n acc hne hall
    have hall' : ∀ c ∈ Nat.digitChar (n % 10) :: acc, c.isDigit = true := by
      intro c hc
      rcases List.mem_cons.mp hc with h | h
      · rw [h]
        exact digitChar_isDigit n
      · exact hall c h
    unfold Nat.toDigitsCore
    by_cases hz : n / 10 = 0
    · simp only [hz, if_true]
      exact ⟨List.cons_ne_nil _ _, hall'⟩
    · simp only [hz, if_false]
      exact ih (n / 10) _ (List.cons_ne_nil _ _) hall'

/-- The decimal writing of a natural number is a non-empty run of digits. -/
theorem toString_digits (n : Nat) :
    (toString n).data ≠ [] ∧ ∀ c ∈ (toString n).data, c.isDigit = true := by
  have hData : (toString n).data = Nat.toDigits 10 n := rfl
  rw [hData]
  unfold Nat.toDigits
  have hall : ∀ c ∈ [Nat.digitChar (n % 10)], c.isDigit = true := by
    intro c hc
    rw [List.mem_singleton.mp hc]
    exact digitChar_isDigit n
  unfold Nat.toDigitsCore
  by_cases hz : n / 10 = 0
  · simp only [hz, if_true]
    exact ⟨List.cons_ne_nil _ _, hall⟩
  · simp only [hz, if_false]
    exact toDigitsCore_digits n (n / 10) _ (List.cons_ne_nil _ _) hall

theorem numToString_ne_empty (m e : Int) : (numToString m e).data ≠ [] := by
  unfold numToString
  cases e with
  | ofNat k =>
    simp only [String.data_append]
    intro h
    exact (toString_digits _).1 (List.append_eq_nil.mp h).2
  | negSucc k =>
    simp only
    split
    · simp only [String.data_append]
      intro h
      exact (toString_digits _).1 (List.append_eq_nil.mp h).2
    · simp only [String.data_append]
      intro h
      have h1 := (List.append_eq_nil.mp h).1
      have h2 := (List.append_eq_nil.mp h1).1
      exact (toString_digits _).1 (List.append_eq_nil.mp h2).2

/-- The text of `JSON.stringify` is never empty. -/
theorem stringify_ne_empty (value : JsVal) : JSON.stringify value ≠ "" := by
  intro h
  have hData : (JSON.stringify value).data = [] := by rw [h]
  unfold JSON.stringify at hData
  simp only at hData
  cases value with
  | undefined => simp [JSON.stringifyValue] at hData
  | null => simp [JSON.stringifyValue] at hData
  | bool b => cases b <;> simp [JSON.stringifyValue] at hData
  | num m e =>
    simp only [JSON.stringifyValue] at hData
    exact numToString_ne_empty m e hData
  | str s => simp [JSON.stringifyValue, JSON.quote] at hData
  | arr xs =>
    simp only [JSON.stringifyValue] at hData
    split at hData <;> simp at hData
  | obj kvs =>
    simp only [JSON.stringifyValue] at hData
    split at hData <;> simp at hData

theorem truthy_str (s : String) : (JsVal.str s).truthy = true ↔ s ≠ "" := by
  simp [JsVal.truthy]

/-! ## The input panel: replies -/

theorem settle_getLast (pending : List Message) (reply : Message) :
    (settle pending reply).getLast? = some reply := by
  unfold settle
  simp

/-- A submission that passes the guard and gets a reply settles the thread
with it. -/
theorem submitThread_ok (clock : SubmitClock) (conn : Connection)
    (server : String → JsVal → FetchOutcome) (mode : Mode) (currentInput : String)
    (messages : List Message) (botResponse : Message) (generated : List GenerateCall)
    (hReady : conn.rag_ready.truthy = true)
    (hReply : replyTo clock mode currentInput
      (server (submitRequest mode currentInput conn).1 (submitRequest mode currentInput conn).2) =
      .ok (botResponse, generated)) :
    submitThread clock (some conn) server mode currentInput messages =
      { thread := settle ((messages ++ [userMessage clock currentInput]) ++
          [loadingMessage clock]) botResponse,
        requests := [submitRequest mode currentInput conn], generated := generated } := by
  unfold submitThread completeSubmission beginSubmission
  simp only [hReady, Bool.not_true, Bool.false_eq_true, if_false, hReply]

/-- A submission whose upstream call or decoding fails settles the thread
with the apology. -/
theorem submitThread_error (clock : SubmitClock) (conn : Connection)
    (server : String → JsVal → FetchOutcome) (mode : Mode) (currentInput : String)
    (messages : List Message) (message : String)
    (hReady : conn.rag_ready.truthy = true)
    (hReply : replyTo clock mode currentInput
      (server (submitRequest mode currentInput conn).1 (submitRequest mode currentInput conn).2) =
      .error message) :
    submitThread clock (some conn) server mode currentInput messages =
      { thread := settle ((messages ++ [userMessage clock currentInput]) ++
          [loadingMessage clock]) (apologyMessage clock),
        requests := [submitRequest mode currentInput conn], generated := [] } := by
  unfold submitThread completeSubmission beginSubmission
  simp only [hReady, Bool.not_true, Bool.false_eq_true, if_false, hReply]

/-- The reply to a successful structured-mode response. -/
theorem replyTo_sql_ok (clock : SubmitClock) (currentInput : String) (resp : FetchOutcome)
    (status : Nat) (result : JsVal) (hResp : jsonBody resp status result)
    (hOk : statusOk status = true) :
    replyTo clock .sql currentInput resp =
      .ok ({ botMessage (clock.replyNow + 2) (extractQuery result).2 clock.replyStamp with
             sqlQuery := (extractQuery result).1 },
        if (extractQuery result).1.truthy then
          [{ naturalLanguageInput := currentInput, schema := "",
             sqlQuery := (extractQuery result).1, metadata := getProp result "metadata" }]
        else []) := by
  obtain ⟨text, rfl, hParse, hNull⟩ := hResp
  unfold replyTo
  simp only [hParse]
  cases result <;> first | exact absurd rfl hNull | simp [hOk]

/-- Every reply built from a response is a bot message without loading
flag. -/
theorem replyTo_shape (clock : SubmitClock) (mode : Mode) (currentInput : String)
    (resp : FetchOutcome) (botResponse : Message) (generated : List GenerateCall)
    (h : replyTo clock mode currentInput resp = .ok (botResponse, generated)) :
    botResponse.type = "bot" ∧ botResponse.isLoading = false ∧
      botResponse.id = clock.replyNow + 2 := by
  unfold replyTo at h
  split at h
  · exact Except.noConfusion h
  · split at h
    · exact Except.noConfusion h
    · exact Except.noConfusion h
    · split at h
      · split at h
        · split at h
          · exact Except.noConfusion h
          · split at h
            · cases h
              exact ⟨rfl, rfl, rfl⟩
            · cases h
              exact ⟨rfl, rfl, rfl⟩
        · cases h
          exact ⟨rfl, rfl, rfl⟩
      · cases h
        exact ⟨rfl, rfl, rfl⟩

/-- The thread after a submission, whatever its path: the settled thread
with some bot reply that carries no loading flag. -/
theorem submitThread_thread (clock : SubmitClock) (activeConnection : Option Connection)
    (server : String → JsVal → FetchOutcome) (mode : Mode) (currentInput : String)
    (messages : List Message) :
    ∃ reply : Message, reply.type = "bot" ∧ reply.isLoading = false ∧
      (submitThread clock activeConnection server mode currentInput messages).thread =
        settle ((messages ++ [userMessage clock currentInput]) ++ [loadingMessage clock])
          reply := by
  cases activeConnection with
  | none =>
    refine ⟨guidanceMessage clock, rfl, rfl, ?_⟩
    rw [submitThread_refused clock none server mode currentInput messages (Or.inl rfl)]
  | some conn =>
    by_cases hReady : conn.rag_ready.truthy = true
    · cases hReply : replyTo clock mode currentInput
          (server (submitRequest mode currentInput conn).1
            (submitRequest mode currentInput conn).2) with
      | error message =>
        refine ⟨apologyMessage clock, rfl, rfl, ?_⟩
        rw [submitThread_error clock conn server mode currentInput messages message hReady
          hReply]
      | ok pair =>
        obtain ⟨botResponse, generated⟩ := pair
        obtain ⟨h1, h2, -⟩ := replyTo_shape clock mode currentInput _ botResponse generated hReply
        refine ⟨botResponse, h1, h2, ?_⟩
        rw [submitThread_ok clock conn server mode currentInput messages botResponse generated
          hReady hReply]
    · have hr : conn.rag_ready.truthy = false := by
        cases h : conn.rag_ready.truthy
        · rfl
        · exact absurd h hReady
      refine ⟨guidanceMessage clock, rfl, rfl, ?_⟩
      rw [submitThread_refused clock (some conn) server mode currentInput messages
        (Or.inr ⟨conn, rfl, hr⟩)]

/-- A submission that is completed before another one opens on its thread,
whatever its path (guard refusal, success in either mode, non-success
response, transport or decoding failure): starting from a thread with no
loading message, the resulting thread is the prior thread followed by the
user message and exactly one assistant reply, in that order, and holds no
message with the loading flag. -/
theorem sequential_submission (clock : SubmitClock) (activeConnection : Option Connection)
    (server : String → JsVal → FetchOutcome) (st : QueryInputState)
    (hInput : trim st.naturalLanguageInput ≠ "")
    (hClean : ∀ m ∈ threadOf st.mode st, m.isLoading = false) :
    ∃ reply : Message, reply.type = "bot" ∧ reply.isLoading = false ∧
      threadOf st.mode (handleSubmit clock activeConnection server st).state =
        threadOf st.mode st ++ [userMessage clock st.naturalLanguageInput, reply] ∧
      ∀ m ∈ threadOf st.mode (handleSubmit clock activeConnection server st).state,
        m.isLoading = false := by
  obtain ⟨reply, hType, hLoading, hThread⟩ :=
    submitThread_thread clock activeConnection server st.mode st.naturalLanguageInput
      (threadOf st.mode st)
  have hAfter : threadOf st.mode (handleSubmit clock activeConnection server st).state =
      threadOf st.mode st ++ [userMessage clock st.naturalLanguageInput, reply] := by
    rw [handleSubmit_thread, if_neg hInput, hThread]
    exact settle_pending clock _ _ _ hClean
  refine ⟨reply, hType, hLoading, hAfter, ?_⟩
  intro m hm
  rw [hAfter] at hm
  rcases List.mem_append.mp hm with h | h
  · exact hClean m h
  · rcases List.mem_cons.mp h with h | h
    · rw [h]
      rfl
    · rw [List.mem_singleton.mp h]
      exact hLoading

/-- The update that stores a reply removes every loading message of the
thread it finds, those of other pending submissions included, and keeps the
other messages in their order. -/
theorem completeSubmission_thread (clock : SubmitClock) (activeConnection : Option Connection)
    (server : String → JsVal → FetchOutcome) (mode : Mode) (currentInput : String)
    (pending : List Message) :
    ∃ reply : Message, reply.type = "bot" ∧ reply.isLoading = false ∧
      (completeSubmission clock activeConnection server mode currentInput pending).thread =
        pending.filter (fun msg => !msg.isLoading) ++ [reply] := by
  unfold completeSubmission settle
  cases activeConnection with
  | none => exact ⟨guidanceMessage clock, rfl, rfl, rfl⟩
  | some conn =>
    by_cases hReady : conn.rag_ready.truthy = true
    · simp only [hReady, Bool.not_true, Bool.false_eq_true, if_false]
      cases hReply : replyTo clock mode currentInput
          (server (submitRequest mode currentInput conn).1
            (submitRequest mode currentInput conn).2) with
      | error message => exact ⟨apologyMessage clock, rfl, rfl, rfl⟩
      | ok pair =>
        obtain ⟨botResponse, generated⟩ := pair
        obtain ⟨h1, h2, -⟩ := replyTo_shape clock mode currentInput _ botResponse generated hReply
        exact ⟨botResponse, h1, h2, rfl⟩
    · have hr : conn.rag_ready.truthy = false := by
        cases h : conn.rag_ready.truthy
        · rfl
        · exact absurd h hReady
      simp only [hr, Bool.not_false, if_true]
      exact ⟨guidanceMessage clock, rfl, rfl, rfl⟩

/-- The form stays enabled while a call is pending: `isLoading`, the flag
that disables it, is false after every run of `handleGenerateQuery`, the only
handler that sets it. -/
theorem handleGenerateQuery_isLoading (now : Nat) (stamp : String)
    (naturalLanguageInput schema : String) (sqlQuery metadata : JsVal) (st : AppState) :
    (handleGenerateQuery now stamp naturalLanguageInput schema sqlQuery metadata st).isLoading =
      false := by
  unfold handleGenerateQuery
  split <;> rfl

/-- C22: two structured-mode submissions on the thread that holds the
greeting, `first` opened at 1000 and `second` opened at 1100 while the call
of the first is pending (the form is enabled: `isLoading` is false).  Run
alone, the first submission leaves the greeting, its user message and its
reply.  Overlapped, the update that stores the first reply also removes the
loading message of the second, and the thread is the greeting, both user
messages and the first reply: not the prior thread followed by the user
message and the reply.  The second reply then follows. -/
theorem loading_overlap :
    freshApp.isLoading = false ∧
      (initialInput "t").sqlMessages.all (fun msg => !msg.isLoading) = true ∧
      (submitThread sampleClock (some shopConnection)
        (upstream 200 "\x7b\"sql_query\":\"SELECT 1\"\x7d") .sql "first"
        (initialInput "t").sqlMessages).thread =
        (initialInput "t").sqlMessages ++ [userMessage sampleClock "first",
          { botMessage 1252 (.str "SELECT 1") "t1" with sqlQuery := .str "SELECT 1" }] ∧
      beginSubmission laterClock "second"
          (beginSubmission sampleClock "first" (initialInput "t").sqlMessages) =
        (initialInput "t").sqlMessages ++ [userMessage sampleClock "first",
          loadingMessage sampleClock, userMessage laterClock "second",
          loadingMessage laterClock] ∧
      overlappedFirst sampleClock laterClock (some shopConnection)
          (upstream 200 "\x7b\"sql_query\":\"SELECT 1\"\x7d") .sql "first" "second"
          (initialInput "t").sqlMessages =
        (initialInput "t").sqlMessages ++ [userMessage sampleClock "first",
          userMessage laterClock "second",
          { botMessage 1252 (.str "SELECT 1") "t1" with sqlQuery := .str "SELECT 1" }] ∧
      overlappedBoth sampleClock laterClock (some shopConnection)
          (upstream 200 "\x7b\"sql_query\":\"SELECT 1\"\x7d") .sql "first" "second"
          (initialInput "t").sqlMessages =
        (initialInput "t").sqlMessages ++ [userMessage sampleClock "first",
          userMessage laterClock "second",
          { botMessage 1252 (.str "SELECT 1") "t1" with sqlQuery := .str "SELECT 1" },
          { botMessage 1402 (.str "SELECT 1") "t2" with sqlQuery := .str "SELECT 1" }] := by
  decide

/-! ## The input panel: structured-mode extraction -/

/-- The generated query of a structured-mode result is truthy exactly when
one of the three fields is. -/
theorem extractQuery_truthy (result : JsVal) :
    (extractQuery result).1.truthy = true ↔
      ((getProp result "generated_query").truthy = true ∨
        (getProp result "sql_query").truthy = true ∨
        (getProp result "message").truthy = true) := by
  unfold extractQuery
  by_cases h1 : (getProp result "generated_query").truthy = true
  · simp only [h1, if_true, true_or, iff_true]
    exact (truthy_str _).mpr (stringify_ne_empty _)
  · by_cases h2 : (getProp result "sql_query").truthy = true
    · simp [h1, h2]
    · by_cases h3 : (getProp result "message").truthy = true
      · simp [h1, h2, h3]
      · simp [h1, h2, h3, truthy_null]

/-- The outcome of a structured-mode submission answered by a success
response with a decodable body. -/
theorem handleSubmit_sql_ok (clock : SubmitClock) (conn : Connection)
    (server : String → JsVal → FetchOutcome) (st : QueryInputState) (status : Nat)
    (result : JsVal) (hMode : st.mode = .sql) (hInput : trim st.naturalLanguageInput ≠ "")
    (hReady : conn.rag_ready.truthy = true)
    (hResp : jsonBody (server (submitRequest .sql st.naturalLanguageInput conn).1
      (submitRequest .sql st.naturalLanguageInput conn).2) status result)
    (hOk : statusOk status = true) :
    (threadOf .sql (handleSubmit clock (some conn) server st).state).getLast? =
        some { botMessage (clock.replyNow + 2) (extractQuery result).2 clock.replyStamp with
               sqlQuery := (extractQuery result).1 } ∧
      (handleSubmit clock (some conn) server st).generated =
        if (extractQuery result).1.truthy then
          [{ naturalLanguageInput := st.naturalLanguageInput, schema := "",
             sqlQuery := (extractQuery result).1, metadata := getProp result "metadata" }]
        else [] := by
  have hReply := replyTo_sql_ok clock st.naturalLanguageInput _ status result hResp hOk
  have hThread := submitThread_ok clock conn server .sql st.naturalLanguageInput
    (threadOf .sql st) _ _ hReady hReply
  constructor
  · have h := handleSubmit_thread clock (some conn) server st
    rw [hMode, if_neg hInput, hThread] at h
    rw [h]
    exact settle_getLast _ _
  · unfold handleSubmit
    rw [if_neg hInput, hMode, hThread]

/-- C21 (amended): in structured mode, for a success response whose body
decodes to a value other than `null`, the reply carries as generated query
(a) the two-space-indented serialisation of `generated_query` when that field
is truthy, displayed inside a `Generated Query:` code fence, (b) else the
`sql_query` field when truthy, (c) else the `message` field when truthy, each
displayed as it is, and (d) else no query (`null`) with the display text
`No query generated`.  The execution surface is notified, with the original
input, an empty schema, the resolved query and the `metadata` field of the
response, exactly when one of the three fields is truthy. -/
theorem query_extraction (clock : SubmitClock) (conn : Connection)
    (server : String → JsVal → FetchOutcome) (st : QueryInputState) (status : Nat)
    (result : JsVal) (hMode : st.mode = .sql) (hInput : trim st.naturalLanguageInput ≠ "")
    (hReady : conn.rag_ready.truthy = true)
    (hResp : jsonBody (server (submitRequest .sql st.naturalLanguageInput conn).1
      (submitRequest .sql st.naturalLanguageInput conn).2) status result)
    (hOk : statusOk status = true) :
    ∃ (reply : Message) (query display : JsVal),
      (threadOf .sql (handleSubmit clock (some conn) server st).state).getLast? = some reply ∧
      reply.sqlQuery = query ∧ reply.content = display ∧
      ((getProp result "generated_query").truthy = true →
        query = .str (JSON.stringify (getProp result "generated_query")) ∧
        display = .str ("Generated Query:\n```json\n" ++
          JSON.stringify (getProp result "generated_query") ++ "\n```")) ∧
      ((getProp result "generated_query").truthy = false →
        (getProp result "sql_query").truthy = true →
        query = getProp result "sql_query" ∧ display = getProp result "sql_query") ∧
      ((getProp result "generated_query").truthy = false →
        (getProp result "sql_query").truthy = false →
        (getProp result "message").truthy = true →
        query = getProp result "message" ∧ display = getProp result "message") ∧
      ((getProp result "generated_query").truthy = false →
        (getProp result "sql_query").truthy = false →
        (getProp result "message").truthy = false →
        query = .null ∧ display = .str "No query generated") ∧
      (((getProp result "generated_query").truthy = true ∨
          (getProp result "sql_query").truthy = true ∨
          (getProp result "message").truthy = true) →
        (handleSubmit clock (some conn) server st).generated =
          [{ naturalLanguageInput := st.naturalLanguageInput, schema := "",
             sqlQuery := query, metadata := getProp result "metadata" }]) ∧
      (¬ ((getProp result "generated_query").truthy = true ∨
          (getProp result "sql_query").truthy = true ∨
          (getProp result "message").truthy = true) →
        (handleSubmit clock (some conn) server st).generated = []) := by
  obtain ⟨hLast, hGen⟩ :=
    handleSubmit_sql_ok clock conn server st status result hMode hInput hReady hResp hOk
  refine ⟨_, (extractQuery result).1, (extractQuery result).2, hLast, rfl, rfl,
    ?_, ?_, ?_, ?_, ?_, ?_⟩
  · intro h1
    unfold extractQuery
    simp only [h1, if_true, and_self]
  · intro h1 h2
    unfold extractQuery
    simp [h1, h2]
  · intro h1 h2 h3
    unfold extractQuery
    simp [h1, h2, h3]
  · intro h1 h2 h3
    unfold extractQuery
    simp [h1, h2, h3]
  · intro h
    rw [hGen, if_pos ((extractQuery_truthy result).mpr h)]
  · intro h
    rw [hGen, if_neg (fun hq => h ((extractQuery_truthy result).mp hq))]

/-- C21 at a concrete run: the response `{"sql_query": "SELECT 1",
"metadata": {"primary_collection": "users"}}` to the prompt `list users`. -/
theorem query_extraction_witness :
    ∃ (reply : Message) (query : JsVal),
      (handleSubmit sampleClock (some shopConnection)
        (upstream 200 "\x7b\"sql_query\":\"SELECT 1\",\"metadata\":\x7b\"primary_collection\":\"users\"\x7d\x7d")
        (sqlAsking "list users")).state.sqlMessages.getLast? = some reply ∧
      reply.sqlQuery = query ∧ query = .str "SELECT 1" ∧
      (handleSubmit sampleClock (some shopConnection)
        (upstream 200 "\x7b\"sql_query\":\"SELECT 1\",\"metadata\":\x7b\"primary_collection\":\"users\"\x7d\x7d")
        (sqlAsking "list users")).generated =
        [{ naturalLanguageInput := "list users", schema := "", sqlQuery := query,
           metadata := .obj [("primary_collection", .str "users")] }] := by
  obtain ⟨reply, query, display, h1, h2, -, -, h4, -, -, h7, -⟩ :=
    query_extraction sampleClock shopConnection
      (upstream 200 "\x7b\"sql_query\":\"SELECT 1\",\"metadata\":\x7b\"primary_collection\":\"users\"\x7d\x7d")
      (sqlAsking "list users") 200
      (.obj [("sql_query", .str "SELECT 1"),
        ("metadata", .obj [("primary_collection", .str "users")])])
      rfl (by decide) (by decide) ⟨_, rfl, by decide, by decide⟩ (by decide)
  exact ⟨reply, query, h1, h2, (h4 (by decide) (by decide)).1,
    h7 (Or.inr (Or.inl (by decide)))⟩

/-- C21 as stated fails: the success response `{"sql_query": "", "message":
"I could not generate a query"}` holds the field `sql_query`, yet the
generated query is the message, and the execution surface is notified with
it. -/
theorem query_extraction_counterexample :
    JSON.parse "\x7b\"sql_query\":\"\",\"message\":\"I could not generate a query\"\x7d" =
        some (.obj [("sql_query", .str ""), ("message", .str "I could not generate a query")]) ∧
      lookupKey "sql_query"
        [("sql_query", JsVal.str ""), ("message", .str "I could not generate a query")] =
        some (.str "") ∧
      ((handleSubmit sampleClock (some shopConnection)
        (upstream 200 "\x7b\"sql_query\":\"\",\"message\":\"I could not generate a query\"\x7d")
        (sqlAsking "list users")).state.sqlMessages.getLast?.map (fun m => m.sqlQuery)) =
        some (.str "I could not generate a query") ∧
      (handleSubmit sampleClock (some shopConnection)
        (upstream 200 "\x7b\"sql_query\":\"\",\"message\":\"I could not generate a query\"\x7d")
        (sqlAsking "list users")).generated =
        [{ naturalLanguageInput := "list users", schema := "",
           sqlQuery := .str "I could not generate a query", metadata := .undefined }] := by
  decide

/-! ## The input panel: conversational mode -/

/-- The extraction of a payload from a string answer never throws. -/
theorem extractJson_str (s : String) : ∃ pair, extractJson (.str s) = .ok pair := by
  unfold extractJson
  split
  · split
    · exact ⟨_, rfl⟩
    · exact ⟨_, rfl⟩
  · simp only
    split
    · split
      · exact ⟨_, rfl⟩
      · exact ⟨_, rfl⟩
    · exact ⟨_, rfl⟩

/-- Every reply built in conversational mode comes without generated query
and without call of `onGenerateQuery`. -/
theorem replyTo_chat (clock : SubmitClock) (currentInput : String) (resp : FetchOutcome)
    (botResponse : Message) (generated : List GenerateCall)
    (h : replyTo clock .chat currentInput resp = .ok (botResponse, generated)) :
    generated = [] ∧ botResponse.sqlQuery.truthy = false := by
  unfold replyTo at h
  split at h
  · exact Except.noConfusion h
  · split at h
    · exact Except.noConfusion h
    · exact Except.noConfusion h
    · split at h
      · simp only at h
        split at h
        · exact Except.noConfusion h
        · split at h
          · cases h
            exact ⟨rfl, rfl⟩
          · cases h
            exact ⟨rfl, rfl⟩
      · cases h
        exact ⟨rfl, rfl⟩

/-- The reply to a successful conversational response whose answer is a
string shows that answer. -/
theorem replyTo_chat_ok (clock : SubmitClock) (currentInput : String) (resp : FetchOutcome)
    (status : Nat) (result : JsVal) (s : String) (hResp : jsonBody resp status result)
    (hOk : statusOk status = true) (hAnswer : answerOf result = .str s) :
    ∃ reply, replyTo clock .chat currentInput resp = .ok (reply, []) ∧
      reply.content = .str s := by
  obtain ⟨text, rfl, hParse, hNull⟩ := hResp
  obtain ⟨pair, hPair⟩ := extractJson_str s
  obtain ⟨jsonData, textContent⟩ := pair
  unfold answerOf at hAnswer
  unfold replyTo
  simp only [hParse]
  cases result <;> first
    | exact absurd rfl hNull
    | (simp only [hOk, if_true, hAnswer, hPair]
       split
       · exact ⟨_, rfl, rfl⟩
       · exact ⟨_, rfl, rfl⟩)

/-- The reply to a non-success response with a decodable body is the
`Failed:` notice, in either mode. -/
theorem replyTo_failed (clock : SubmitClock) (mode : Mode) (currentInput : String)
    (resp : FetchOutcome) (status : Nat) (result : JsVal) (hResp : jsonBody resp status result)
    (hOk : statusOk status = false) :
    ∃ reply, replyTo clock mode currentInput resp = .ok (reply, []) ∧
      reply.content = .str ("Failed: " ++ toStr (((getProp result "error").or
        (getProp result "message")).or (.str "Unknown error"))) := by
  obtain ⟨text, rfl, hParse, hNull⟩ := hResp
  unfold replyTo
  simp only [hParse]
  cases result <;> first
    | exact absurd rfl hNull
    | (simp only [hOk, Bool.false_eq_true, if_false]
       exact ⟨_, rfl, rfl⟩)

/-- A conversational submission, whatever its path, settles the thread with
a reply without generated query and calls `onGenerateQuery` never. -/
theorem submitThread_chat (clock : SubmitClock) (activeConnection : Option Connection)
    (server : String → JsVal → FetchOutcome) (currentInput : String)
    (messages : List Message) :
    (∃ reply : Message, reply.sqlQuery.truthy = false ∧
      (submitThread clock activeConnection server .chat currentInput messages).thread =
        settle ((messages ++ [userMessage clock currentInput]) ++ [loadingMessage clock])
          reply) ∧
      (submitThread clock activeConnection server .chat currentInput messages).generated =
        [] := by
  cases activeConnection with
  | none =>
    rw [submitThread_refused clock none server .chat currentInput messages (Or.inl rfl)]
    exact ⟨⟨guidanceMessage clock, rfl, rfl⟩, rfl⟩
  | some conn =>
    by_cases hReady : conn.rag_ready.truthy = true
    · cases hReply : replyTo clock .chat currentInput
          (server (submitRequest .chat currentInput conn).1
            (submitRequest .chat currentInput conn).2) with
      | error message =>
        rw [submitThread_error clock conn server .chat currentInput messages message hReady
          hReply]
        exact ⟨⟨apologyMessage clock, rfl, rfl⟩, rfl⟩
      | ok pair =>
        obtain ⟨botResponse, generated⟩ := pair
        obtain ⟨h1, h2⟩ := replyTo_chat clock currentInput _ botResponse generated hReply
        rw [submitThread_ok clock conn server .chat currentInput messages botResponse generated
          hReady hReply]
        exact ⟨⟨botResponse, h2, rfl⟩, h1⟩
    · have hr : conn.rag_ready.truthy = false := by
        cases h : conn.rag_ready.truthy
        · rfl
        · exact absurd h hReady
      rw [submitThread_refused clock (some conn) server .chat currentInput messages
        (Or.inr ⟨conn, rfl, hr⟩)]
      exact ⟨⟨guidanceMessage clock, rfl, rfl⟩, rfl⟩

/-- C27 (amended): a conversational submission never triggers execution:
whatever the connection, the transport outcome, the status and the body, the
reply carries no generated query, `onGenerateQuery` is not called, and so the
current query, the current metadata and the history of the application are
unchanged.  The displayed answer is the first truthy of `answer`, `message`
and `Response received` for a success response whose body decodes to a value
other than `null` and whose answer is a string; a non-success response whose
body decodes to a value other than `null` is shown as the `Failed:` notice
with the first truthy of `error`, `message` and `Unknown error`. -/
theorem chat_no_execution (clock : SubmitClock) (activeConnection : Option Connection)
    (server : String → JsVal → FetchOutcome) (st : QueryInputState)
    (hMode : st.mode = .chat) (hInput : trim st.naturalLanguageInput ≠ "") :
    (handleSubmit clock activeConnection server st).generated = [] ∧
      (∀ (now : Nat) (stamp : String) (app : AppState),
        notifyGenerated now stamp (handleSubmit clock activeConnection server st).generated app =
          app) ∧
      (∃ reply : Message,
        (threadOf .chat (handleSubmit clock activeConnection server st).state).getLast? =
          some reply ∧ reply.sqlQuery.truthy = false) ∧
      (∀ (conn : Connection) (status : Nat) (result : JsVal) (s : String),
        activeConnection = some conn → conn.rag_ready.truthy = true →
        jsonBody (server (submitRequest .chat st.naturalLanguageInput conn).1
          (submitRequest .chat st.naturalLanguageInput conn).2) status result →
        statusOk status = true → answerOf result = .str s →
        ∃ reply : Message,
          (threadOf .chat (handleSubmit clock activeConnection server st).state).getLast? =
            some reply ∧ reply.content = .str s) ∧
      (∀ (conn : Connection) (status : Nat) (result : JsVal),
        activeConnection = some conn → conn.rag_ready.truthy = true →
        jsonBody (server (submitRequest .chat st.naturalLanguageInput conn).1
          (submitRequest .chat st.naturalLanguageInput conn).2) status result →
        statusOk status = false →
        ∃ reply : Message,
          (threadOf .chat (handleSubmit clock activeConnection server st).state).getLast? =
            some reply ∧
          reply.content = .str ("Failed: " ++ toStr (((getProp result "error").or
            (getProp result "message")).or (.str "Unknown error")))) := by
  obtain ⟨⟨reply, hQuery, hThread⟩, hGen⟩ :=
    submitThread_chat clock activeConnection server st.naturalLanguageInput (threadOf .chat st)
  have hState := handleSubmit_thread clock activeConnection server st
  rw [hMode, if_neg hInput] at hState
  have hOut : (handleSubmit clock activeConnection server st).generated = [] := by
    unfold handleSubmit
    rw [if_neg hInput, hMode]
    exact hGen
  refine ⟨hOut, ?_, ⟨reply, ?_, hQuery⟩, ?_, ?_⟩
  · intro now stamp app
    rw [hOut]
    rfl
  · rw [hState, hThread]
    exact settle_getLast _ _
  · intro conn status result s hConn hReady hResp hOk hAnswer
    subst hConn
    obtain ⟨answer, hReply, hContent⟩ :=
      replyTo_chat_ok clock st.naturalLanguageInput _ status result s hResp hOk hAnswer
    refine ⟨answer, ?_, hContent⟩
    rw [hState, submitThread_ok clock conn server .chat st.naturalLanguageInput
      (threadOf .chat st) answer [] hReady hReply]
    exact settle_getLast _ _
  · intro conn status result hConn hReady hResp hOk
    subst hConn
    obtain ⟨notice, hReply, hContent⟩ :=
      replyTo_failed clock .chat st.naturalLanguageInput _ status result hResp hOk
    refine ⟨notice, ?_, hContent⟩
    rw [hState, submitThread_ok clock conn server .chat st.naturalLanguageInput
      (threadOf .chat st) notice [] hReady hReply]
    exact settle_getLast _ _

/-- C27 at a concrete run: the question `how many users?` answered by
`{"message": "42 users"}` shows the message and leaves the application with
its two history entries as it was. -/
theorem chat_no_execution_witness :
    notifyGenerated 30 "t3"
        (handleSubmit sampleClock (some shopConnection)
          (upstream 200 "\x7b\"message\":\"42 users\"\x7d")
          (chatAsking "how many users?")).generated twoQueriesApp = twoQueriesApp ∧
      ∃ reply : Message,
        (handleSubmit sampleClock (some shopConnection)
          (upstream 200 "\x7b\"message\":\"42 users\"\x7d")
          (chatAsking "how many users?")).state.chatMessages.getLast? = some reply ∧
        reply.content = .str "42 users" := by
  obtain ⟨-, hApp, -, hAnswer, -⟩ :=
    chat_no_execution sampleClock (some shopConnection)
      (upstream 200 "\x7b\"message\":\"42 users\"\x7d") (chatAsking "how many users?")
      rfl (by decide)
  exact ⟨hApp 30 "t3" twoQueriesApp,
    hAnswer shopConnection 200 (.obj [("message", .str "42 users")]) "42 users" rfl
      (by decide) ⟨_, rfl, by decide, by decide⟩ (by decide) (by decide)⟩

/-- C27 as stated fails: for the response `{"error": "x"}` with status 500
the first present of `answer`, `message` and `Response received` is
`Response received`, yet the displayed text is `Failed: x`. -/
theorem chat_no_execution_counterexample :
    JSON.parse "\x7b\"error\":\"x\"\x7d" = some (.obj [("error", .str "x")]) ∧
      answerOf (.obj [("error", .str "x")]) = .str "Response received" ∧
      ((handleSubmit sampleClock (some shopConnection) (upstream 500 "\x7b\"error\":\"x\"\x7d")
        (chatAsking "how many users?")).state.chatMessages.getLast?.map
          (fun m => m.content)) = some (.str "Failed: x") := by
  decide

/-- C26: the answer `{"a":1} and {"b":2}` holds the valid object `{"a":1}`
followed by text and a second object; the pattern takes the text from the
first `{` up to the last `}`, which is the whole answer and no JSON, so the
reply carries no payload at all, where the first object was to be the
payload.  An answer with one embedded object gives that object as payload and
the trimmed remainder as caption. -/
theorem payload_two_objects :
    JSON.parse "\x7b\"a\":1\x7d" = some (.obj [("a", .num 1 0)]) ∧
      findJsonBlock "\x7b\"a\":1\x7d and \x7b\"b\":2\x7d".data [] =
        some ([], "\x7b\"a\":1\x7d and \x7b\"b\":2\x7d".data, []) ∧
      (extractJson (.str "\x7b\"a\":1\x7d and \x7b\"b\":2\x7d")).toOption =
        some (.null, .str "\x7b\"a\":1\x7d and \x7b\"b\":2\x7d") ∧
      ((handleSubmit sampleClock (some shopConnection)
        (upstream 200 "\x7b\"answer\":\"\x7b\\\"a\\\":1\x7d and \x7b\\\"b\\\":2\x7d\"\x7d")
        (chatAsking "how many users?")).state.chatMessages.getLast?.map
          (fun m => (m.content, m.jsonData, m.textContent))) =
        some (.str "\x7b\"a\":1\x7d and \x7b\"b\":2\x7d", .undefined, .undefined) ∧
      (extractJson (.str "Found: \x7b\"a\":1\x7d ok")).toOption =
        some (.obj [("a", .num 1 0)], .str "Found:  ok") := by
  decide

/-! ## Query history (`App.jsx`) -/

theorem selectAll_queries (entries : List HistoryEntry) :
    ∀ st : AppState, (selectAll entries st).queries = st.queries := by
  induction entries with
  | nil =>
    intro st
    rfl
  | cons entry rest ih =>
    intro st
    exact ih (handleSelectQuery entry st)

/-- C23: history selection is idempotent and read-only: selecting an entry
sets the current query to the entry's query value, selecting the same entry
a second time gives the identical state (so the identical current query), and
the history list is unchanged by one selection and by any run of
selections. -/
theorem select_idempotent (st : AppState) (query : HistoryEntry) (entries : List HistoryEntry) :
    (handleSelectQuery query st).currentQuery = query.sqlQuery ∧
      (handleSelectQuery query (handleSelectQuery query st)).currentQuery = query.sqlQuery ∧
      handleSelectQuery query (handleSelectQuery query st) = handleSelectQuery query st ∧
      (handleSelectQuery query st).queries = st.queries ∧
      (selectAll entries st).queries = st.queries :=
  ⟨rfl, rfl, rfl, rfl, selectAll_queries entries st⟩

theorem defaultNull_truthy (v : JsVal) (h : (defaultNull v).truthy = true) :
    defaultNull v = v := by
  cases v <;> first | rfl | exact absurd h (by decide)

theorem notifyGenerated_queries (now : Nat) (stamp : String) (calls : List GenerateCall) :
    ∀ st : AppState, ∃ newer : List HistoryEntry,
      (notifyGenerated now stamp calls st).queries = newer ++ st.queries ∧
        newer.length = calls.length := by
  induction calls with
  | nil =>
    intro st
    exact ⟨[], rfl, rfl⟩
  | cons call rest ih =>
    intro st
    obtain ⟨newer, hQueries, hLength⟩ :=
      ih (handleGenerateQuery now stamp call.naturalLanguageInput call.schema call.sqlQuery
        call.metadata st)
    have hStep : ∃ e, (handleGenerateQuery now stamp call.naturalLanguageInput call.schema
        call.sqlQuery call.metadata st).queries = e :: st.queries := by
      unfold handleGenerateQuery
      split
      · exact ⟨_, rfl⟩
      · exact ⟨_, rfl⟩
    obtain ⟨e, hE⟩ := hStep
    refine ⟨newer ++ [e], ?_, ?_⟩
    · have hUnfold : notifyGenerated now stamp (call :: rest) st =
          notifyGenerated now stamp rest (handleGenerateQuery now stamp call.naturalLanguageInput
            call.schema call.sqlQuery call.metadata st) := rfl
      rw [hUnfold, hQueries, hE]
      simp
    · simp [hLength]

/-- C24: the history is append-only and newest-first: every call of
`handleGenerateQuery` turns the history `h` into `e :: h`, where the one new
entry `e` records the natural-language input and the resulting query (the
query passed in when there is one, else the fallback query), and afterwards
the current query is the query of the head entry; a run of calls puts as many
entries as calls in front of the earlier ones, which keep their order. -/
theorem history_append_only (now : Nat) (stamp : String) (naturalLanguageInput : String)
    (schema : String) (sqlQuery metadata : JsVal) (st : AppState) (calls : List GenerateCall) :
    (∃ e : HistoryEntry,
      (handleGenerateQuery now stamp naturalLanguageInput schema sqlQuery metadata st).queries =
        e :: st.queries ∧
      e.naturalLanguage = naturalLanguageInput ∧
      (sqlQuery.truthy = true → e.sqlQuery = sqlQuery) ∧
      (sqlQuery.truthy = false → e.sqlQuery = .str fallbackSql) ∧
      (handleGenerateQuery now stamp naturalLanguageInput schema sqlQuery metadata
        st).currentQuery = e.sqlQuery ∧
      (handleGenerateQuery now stamp naturalLanguageInput schema sqlQuery metadata
        st).queries.head? = some e) ∧
      ∃ newer : List HistoryEntry,
        (notifyGenerated now stamp calls st).queries = newer ++ st.queries ∧
          newer.length = calls.length := by
  refine ⟨?_, notifyGenerated_queries now stamp calls st⟩
  have hSame : (defaultNull sqlQuery).truthy = sqlQuery.truthy := by
    cases sqlQuery <;> rfl
  unfold handleGenerateQuery
  by_cases h : (defaultNull sqlQuery).truthy = true
  · simp only [h, if_true]
    refine ⟨_, rfl, rfl, ?_, ?_, rfl, rfl⟩
    · intro _
      exact defaultNull_truthy sqlQuery h
    · intro hf
      rw [hSame, hf] at h
      exact absurd h (by decide)
  · simp only [h, if_false]
    refine ⟨_, rfl, rfl, ?_, ?_, rfl, rfl⟩
    · intro ht
      rw [hSame, ht] at h
      exact absurd rfl h
    · intro _
      rfl

/-! ## Connection registry: toggle and removal -/

theorem flipStatus_twice (status : String)
    (h : status = "connected" ∨ status = "disconnected") :
    flipStatus (flipStatus status) = status := by
  rcases h with h | h <;> subst h <;> decide

theorem toggle_twice_connections (id : Nat) : ∀ (connections : List Connection),
    (∀ c ∈ connections, c.id = id → c.status = "connected" ∨ c.status = "disconnected") →
    (connections.map (fun conn =>
        if conn.id = id then
          { conn with status := if conn.status = "connected" then "disconnected" else "connected" }
        else conn)).map (fun conn =>
        if conn.id = id then
          { conn with status := if conn.status = "connected" then "disconnected" else "connected" }
        else conn) = connections := by
  intro connections
  induction connections with
  | nil =>
    intro _
    rfl
  | cons c rest ih =>
    intro hStatus
    rw [List.map_cons, List.map_cons,
      ih (fun x hx => hStatus x (List.mem_cons_of_mem c hx))]
    congr 1
    by_cases h : c.id = id
    · have h2 := flipStatus_twice c.status (hStatus c (List.mem_cons_self c rest) h)
      unfold flipStatus at h2
      obtain ⟨cid, name, type, host, status, databases, ready, version, selected⟩ := c
      simp only at h h2
      simp only [h, if_true, h2]
    · simp only [h, if_false]

/-- C25: `toggleConnection(id)` is a local status flip: it sends no call
and selects no connection; the registry keeps its length and order; every
connection with another id is unchanged; the connection with that id has its
status changed from `connected` to `disconnected` or from `disconnected` to
`connected` and all its other attributes unchanged; the rest of the component
state is unchanged; and, the status of the toggled connection being one of
the two, toggling the same id twice restores the original registry. -/
theorem toggle_local_flip (id : Nat) (st : RegistryState)
    (hStatus : ∀ c ∈ st.connections, c.id = id →
      c.status = "connected" ∨ c.status = "disconnected") :
    (toggleConnection id st).requests = [] ∧
      (toggleConnection id st).selected = [] ∧
      (toggleConnection id st).state.connections.length = st.connections.length ∧
      (∀ (i : Nat) (c : Connection), st.connections[i]? = some c →
        ∃ u : Connection, (toggleConnection id st).state.connections[i]? = some u ∧
          (c.id ≠ id → u = c) ∧
          (c.id = id →
            (c.status = "connected" → u.status = "disconnected") ∧
            (c.status = "disconnected" → u.status = "connected") ∧
            u = { c with status := u.status })) ∧
      (toggleConnection id st).state = { st with
        connections := (toggleConnection id st).state.connections } ∧
      (toggleConnection id (toggleConnection id st).state).state = st := by
  refine ⟨rfl, rfl, ?_, ?_, rfl, ?_⟩
  · unfold toggleConnection
    simp
  · intro i c hc
    unfold toggleConnection
    simp only [List.getElem?_map, hc, Option.map]
    by_cases h : c.id = id
    · refine ⟨_, rfl, fun hne => absurd h hne, fun _ => ?_⟩
      simp only [h, if_true]
      refine ⟨fun hs => ?_, fun hs => ?_, trivial⟩
      · simp [hs]
      · simp [hs]
    · refine ⟨_, rfl, fun _ => ?_, fun he => absurd he h⟩
      simp only [h, if_false]
  · unfold toggleConnection
    simp only
    rw [toggle_twice_connections id st.connections hStatus]

/-- C25 at a concrete registry: toggling the connection 7 of a registry of
two twice gives the registry back. -/
theorem toggle_local_flip_witness :
    (toggleConnection 7 twoConnectionsState).state.connections =
        [{ docsConnection with status := "disconnected" }, shopConnection] ∧
      (toggleConnection 7 (toggleConnection 7 twoConnectionsState).state).state =
        twoConnectionsState :=
  ⟨by decide,
    (toggle_local_flip 7 twoConnectionsState (by decide)).2.2.2.2.2⟩

/-! ## The active connection and the registry -/

theorem activeAfter_none_selected (active : Option Connection) (out : RegistryOutcome)
    (h : out.selected = []) : activeAfter active out = active := by
  unfold activeAfter
  rw [h]
  rfl

theorem activeAfter_one_selected (active : Option Connection) (out : RegistryOutcome)
    (connection : Connection) (h : out.selected = [connection]) :
    activeAfter active out = some connection := by
  unfold activeAfter
  rw [h]
  rfl

/-- Connecting keeps the active connection inside the registry. -/
theorem handleAddConnection_active (now : Nat) (server : JsVal → FetchOutcome)
    (st : RegistryState) (active : Option Connection)
    (hMember : ∀ a, active = some a → a ∈ st.connections) (a : Connection)
    (h : activeAfter active (handleAddConnection now server st) = some a) :
    a ∈ (handleAddConnection now server st).state.connections := by
  unfold handleAddConnection at h ⊢
  by_cases hValid : isValid st.newConnection = true
  · simp only [hValid, if_true] at h ⊢
    cases hRead : readConnect st.newConnection now (server (connectRequest st.newConnection)) with
    | error message =>
      simp only [hRead] at h ⊢
      rw [activeAfter_none_selected active _ rfl] at h
      exact hMember a h
    | ok pair =>
      obtain ⟨connection, data⟩ := pair
      simp only [hRead] at h ⊢
      by_cases hSel : st.newConnection.type = .Supabase ∧ (getProp data "rag_ready").truthy = true
      · rw [activeAfter_one_selected active _ connection (if_pos hSel)] at h
        cases h
        exact List.mem_append_right _ (List.mem_singleton_self _)
      · rw [activeAfter_none_selected active _ (if_neg hSel)] at h
        exact List.mem_append_left _ (hMember a h)
  · simp only [hValid, if_false] at h ⊢
    rw [activeAfter_none_selected active _ rfl] at h
    exact hMember a h

/-- Preparing keeps the active connection inside the registry. -/
theorem handlePrepareRag_active (connectionId : Nat) (databaseName : JsVal)
    (server : JsVal → FetchOutcome) (st : RegistryState) (active : Option Connection)
    (hMember : ∀ a, active = some a → a ∈ st.connections) (a : Connection)
    (h : activeAfter active (handlePrepareRag connectionId databaseName server st) = some a) :
    a ∈ (handlePrepareRag connectionId databaseName server st).state.connections := by
  unfold handlePrepareRag at h ⊢
  cases hFind : st.connections.find? (fun conn => decide (conn.id = connectionId)) with
  | none =>
    simp only [hFind] at h ⊢
    rw [activeAfter_none_selected active _ rfl] at h
    exact hMember a h
  | some connection =>
    simp only [hFind] at h ⊢
    cases hRead : readPrepare (server (prepareRequest connection databaseName)) with
    | error message =>
      simp only [hRead] at h ⊢
      rw [activeAfter_none_selected active _ rfl] at h
      exact hMember a h
    | ok data =>
      simp only [hRead] at h ⊢
      rw [activeAfter_one_selected active _ _ rfl] at h
      cases h
      have hIn : connection ∈ st.connections := List.mem_of_find?_eq_some hFind
      have hId : connection.id = connectionId := by
        have := List.find?_some hFind
        exact of_decide_eq_true this
      refine List.mem_map.mpr ⟨connection, hIn, ?_⟩
      simp only [hId, if_true]

/-- C30 (amended): connecting and preparing keep the invariant that the
active connection, when there is one, is equal to some connection of the
registry: after either operation the active connection is a member of the
connection set with identical attributes, provided it was one before.
`toggleConnection` and `removeConnection` leave the active connection as it
was while they change the set, so they keep the invariant only when the id
they are given is not the active connection's. -/
theorem active_membership (st : RegistryState) (active : Option Connection)
    (hMember : ∀ a, active = some a → a ∈ st.connections) :
    (∀ (now : Nat) (server : JsVal → FetchOutcome) (a : Connection),
      activeAfter active (handleAddConnection now server st) = some a →
        a ∈ (handleAddConnection now server st).state.connections) ∧
      (∀ (connectionId : Nat) (databaseName : JsVal) (server : JsVal → FetchOutcome)
        (a : Connection),
        activeAfter active (handlePrepareRag connectionId databaseName server st) = some a →
          a ∈ (handlePrepareRag connectionId databaseName server st).state.connections) ∧
      (∀ id : Nat, activeAfter active (toggleConnection id st) = active ∧
        activeAfter active (removeConnection id st) = active) ∧
      (∀ (id : Nat) (a : Connection), active = some a → a.id ≠ id →
        a ∈ (toggleConnection id st).state.connections ∧
          a ∈ (removeConnection id st).state.connections) := by
  refine ⟨fun now server a h => handleAddConnection_active now server st active hMember a h,
    fun connectionId databaseName server a h =>
      handlePrepareRag_active connectionId databaseName server st active hMember a h,
    fun id => ⟨rfl, rfl⟩, ?_⟩
  intro id a hActive hId
  have hIn := hMember a hActive
  constructor
  · unfold toggleConnection
    refine List.mem_map.mpr ⟨a, hIn, ?_⟩
    simp only [hId, if_false]
  · unfold removeConnection
    exact List.mem_filter.mpr ⟨hIn, decide_eq_true hId⟩

/-- C30 at a concrete registry: with `docsConnection` active, preparing it
for the database `crm` makes the updated connection both the active one and a
member of the set, and toggling the other connection keeps `docsConnection` a
member. -/
theorem active_membership_witness :
    (∀ a : Connection,
      activeAfter (some docsConnection)
        (handlePrepareRag 7 (.str "crm") (answerWith 200 "\x7b\x7d") twoConnectionsState) =
          some a →
      a ∈ (handlePrepareRag 7 (.str "crm") (answerWith 200 "\x7b\x7d")
        twoConnectionsState).state.connections) ∧
      docsConnection ∈ (toggleConnection 1 twoConnectionsState).state.connections := by
  have h := active_membership twoConnectionsState (some docsConnection)
    (fun a ha => by cases ha; decide)
  exact ⟨fun a ha => h.2.1 7 (.str "crm") (answerWith 200 "\x7b\x7d") a ha,
    (h.2.2.2 1 docsConnection rfl (by decide)).1⟩

/-- C30 as stated fails: with `docsConnection` active and in the registry,
toggling its id leaves the active connection `connected` while the set holds
only a `disconnected` copy, and removing its id leaves it active while the
set is empty: after neither is the active connection a member of the set. -/
theorem active_membership_counterexample :
    docsConnection ∈ oneMongoState.connections ∧
      activeAfter (some docsConnection) (toggleConnection 7 oneMongoState) =
        some docsConnection ∧
      (toggleConnection 7 oneMongoState).state.connections =
        [{ docsConnection with status := "disconnected" }] ∧
      docsConnection ∉ (toggleConnection 7 oneMongoState).state.connections ∧
      activeAfter (some docsConnection) (removeConnection 7 oneMongoState) =
        some docsConnection ∧
      (removeConnection 7 oneMongoState).state.connections = [] := by
  decide

/-! ## Selection and dispatch -/

/-- The bundle with a truthy primary collection is source (i) of the
precedence rule. -/
theorem primarySource_toMetadata (metadata : JsVal) (hBundle : metadata.truthy = true)
    (hPrimary : (getProp metadata "primary_collection").truthy = true) :
    primarySource (toMetadata metadata) = some (getProp metadata "primary_collection") := by
  unfold toMetadata primarySource
  simp only [hBundle, if_true, hPrimary]

/-- C28: selecting a history entry replaces only the current query: the
metadata bundle stays at the value the most recent generation set, whatever
the selected entry's own metadata, so a following dispatch of the selected
query to a ready document-store connection sends its one request to the
primary collection of the most recent generation's bundle. -/
theorem select_keeps_metadata (st : AppState) (entry : HistoryEntry) (conn : Connection)
    (promptReply : Option String) (server : JsVal → FetchOutcome) (rs : QueryResultsState)
    (query : String) (hType : conn.type = .Mongodb) (hReady : conn.rag_ready.truthy = true)
    (hQuery : entry.sqlQuery = .str query)
    (hBundle : st.currentMetadata.truthy = true)
    (hPrimary : (getProp st.currentMetadata "primary_collection").truthy = true) :
    (handleSelectQuery entry st).currentMetadata = st.currentMetadata ∧
      (handleSelectQuery entry st).currentQuery = .str query ∧
      (handleSelectQuery entry st).queries = st.queries ∧
      (∀ (now : Nat) (stamp input schema : String) (sqlQuery metadata : JsVal) (base : AppState),
        sqlQuery.truthy = true →
        st = handleGenerateQuery now stamp input schema sqlQuery metadata base →
        (handleSelectQuery entry st).currentMetadata = defaultNull metadata) ∧
      sentCollections (handleExecute query (some conn)
        (toMetadata (handleSelectQuery entry st).currentMetadata) promptReply server rs) =
        [getProp st.currentMetadata "primary_collection"] := by
  refine ⟨rfl, hQuery, rfl, ?_, ?_⟩
  · intro now stamp input schema sqlQuery metadata base hTruthy hSt
    have hSame : (defaultNull sqlQuery).truthy = true := by
      cases sqlQuery <;> exact hTruthy
    rw [hSt]
    unfold handleSelectQuery handleGenerateQuery
    simp only [hSame, if_true]
  · have hMeta : (handleSelectQuery entry st).currentMetadata = st.currentMetadata := rfl
    unfold sentCollections
    rw [hMeta, mongo_requests query conn _ promptReply server rs hType hReady,
      primarySource_toMetadata st.currentMetadata hBundle hPrimary]
    simp only [firstAvailable, Option.toList, List.map_cons, List.map_nil]
    rw [getProp_setKey_self]

/-- C28 at a concrete run: after generations for `users` and then for
`orders`, selecting the `users` entry publishes its query, and the dispatch
of it goes to the collection `orders`. -/
theorem select_keeps_metadata_witness :
    usersEntry ∈ twoQueriesApp.queries ∧
      usersEntry.metadata = .obj [("primary_collection", .str "users")] ∧
      (handleSelectQuery usersEntry twoQueriesApp).currentQuery =
        .str "\x7b\"name\":\"Bob\"\x7d" ∧
      sentCollections (handleExecute "\x7b\"name\":\"Bob\"\x7d" (some shopConnection)
        (toMetadata (handleSelectQuery usersEntry twoQueriesApp).currentMetadata) none
        (replyWith "\x7b\x7d") idleState) = [.str "orders"] := by
  have h := select_keeps_metadata twoQueriesApp usersEntry shopConnection none
    (replyWith "\x7b\x7d") idleState "\x7b\"name\":\"Bob\"\x7d" rfl (by decide) rfl
    (by decide) (by decide)
  exact ⟨by decide, rfl, h.2.1, h.2.2.2.2⟩

/-! ## Array queries -/

/-- The keys of the elements of an array open with a digit. -/
theorem indexed_keys {α : Type} (f : α → JsVal) (xs : List α) :
    ∀ (i : Nat) (p : String × JsVal), p ∈ indexed f i xs →
      ∃ c cs, p.1.data = c :: cs ∧ c.isDigit = true := by
  induction xs with
  | nil =>
    intro i p hp
    simp [indexed] at hp
  | cons x rest ih =>
    intro i p hp
    unfold indexed at hp
    rcases List.mem_cons.mp hp with h | h
    · subst h
      obtain ⟨hne, hall⟩ := toString_digits i
      have hShape : ∃ c cs, (toString i).data = c :: cs := by
        cases hd : (toString i).data with
        | nil => exact absurd hd hne
        | cons c cs => exact ⟨c, cs, rfl⟩
      obtain ⟨c, cs, hd⟩ := hShape
      exact ⟨c, cs, hd, hall c (by rw [hd]; exact List.mem_cons_self c cs)⟩
    · exact ih (i + 1) p h

/-- A key that opens with no digit is no own property of an array. -/
theorem lookupKey_indexed {α : Type} (f : α → JsVal) (xs : List α) (i : Nat) (k : String)
    (c : Char) (cs : List Char) (hk : k.data = c :: cs) (hc : c.isDigit = false) :
    lookupKey k (indexed f i xs) = none := by
  have hAll := indexed_keys f xs i
  generalize indexed f i xs = kvs at hAll
  induction kvs with
  | nil => rfl
  | cons p rest ih =>
    obtain ⟨k', v⟩ := p
    unfold lookupKey
    have hne : k' ≠ k := by
      intro he
      obtain ⟨d, ds, hd, hDigit⟩ := hAll (k', v) (List.mem_cons_self _ _)
      simp only at hd
      rw [he, hk] at hd
      cases hd
      rw [hc] at hDigit
      exact absurd hDigit (by decide)
    rw [if_neg hne]
    exact ih (fun q hq => hAll q (List.mem_cons_of_mem _ hq))

/-- No key of an array opens with the `$` sigil. -/
theorem isAggregation_arr (xs : List JsVal) : isAggregation (.arr xs) = false := by
  have hKeys : objectKeys (.arr xs) = (indexed id 0 xs).map Prod.fst := rfl
  unfold isAggregation
  rw [hKeys, any_keys]
  have hAll := indexed_keys id xs 0
  generalize indexed id 0 xs = kvs at hAll
  have hAny : kvs.any (fun p => startsWithDollar p.1) = false := by
    induction kvs with
    | nil => rfl
    | cons p rest ih =>
      rw [List.any_cons, ih (fun q hq => hAll q (List.mem_cons_of_mem _ hq))]
      obtain ⟨d, ds, hd, hDigit⟩ := hAll p (List.mem_cons_self _ _)
      unfold startsWithDollar
      rw [hd]
      simp only [Bool.or_false]
      cases hEq : (d == '$') with
      | false => rfl
      | true =>
        have : d = '$' := by simpa using hEq
        rw [this] at hDigit
        exact absurd hDigit (by decide)
  rw [hAny]
  simp

/-- The parsing block on a query that is a JSON array: the array itself,
with no candidate collection. -/
theorem parseQuery_arr (query : String) (xs : List JsVal)
    (h : JSON.parse query = some (.arr xs)) :
    parseQuery query =
      { parsedQuery := .arr xs, queryType := "mongodb", collectionName := .null } := by
  have h1 : getProp (.arr xs) "collection" = .undefined := by
    simp only [getProp, ownProps]
    rw [if_neg (by decide), lookupKey_indexed id xs 0 "collection" 'c' _ rfl (by decide)]
    rfl
  have h2 : getProp (.arr xs) "collection_name" = .undefined := by
    simp only [getProp, ownProps]
    rw [if_neg (by decide), lookupKey_indexed id xs 0 "collection_name" 'c' _ rfl (by decide)]
    rfl
  rw [parseQuery_json query (.arr xs) h (by intro hn; cases hn), h1, h2]
  rfl

/-- C29: for every query string that parses to a JSON array, the run of
`handleExecute` against a ready document-store connection sees no aggregation
(only the keys of the top-level value, the array indices, are inspected for
the `$` sigil), so every request it sends carries no `is_aggregation` and has
the parsed array, not the text, as its `query`; and it sends such a request
whenever a collection name resolves. -/
theorem array_pipeline (query : String) (xs : List JsVal) (conn : Connection)
    (metadata : Option Metadata) (promptReply : Option String)
    (server : JsVal → FetchOutcome) (st : QueryResultsState)
    (hParse : JSON.parse query = some (.arr xs)) (hType : conn.type = .Mongodb)
    (hReady : conn.rag_ready.truthy = true) :
    isAggregation (parseQuery query).parsedQuery = false ∧
      (∀ r ∈ (handleExecute query (some conn) metadata promptReply server st).requests,
        hasKey r "is_aggregation" = false ∧ getProp r "query" = .arr xs ∧
          getProp r "query" ≠ .str query) ∧
      (∀ name, firstAvailable [primarySource metadata, relevantSource metadata,
          embeddedSource query, promptSource promptReply] = some name →
        ∃ r, (handleExecute query (some conn) metadata promptReply server st).requests = [r] ∧
          getProp r "collection_name" = name) := by
  have hQuery := parseQuery_arr query xs hParse
  have hAgg : isAggregation (parseQuery query).parsedQuery = false := by
    rw [hQuery]
    exact isAggregation_arr xs
  have hRequests := mongo_requests query conn metadata promptReply server st hType hReady
  refine ⟨hAgg, ?_, ?_⟩
  · intro r hr
    rw [hRequests] at hr
    obtain ⟨name, -, rfl⟩ := List.mem_map.mp hr
    have hFlag := mongo_request_flag query conn name
    have hSent := mongo_request_query query conn name
    rw [hAgg] at hFlag hSent
    simp only [Bool.false_eq_true, if_false] at hFlag hSent
    rw [hQuery] at hSent
    refine ⟨?_, hSent, ?_⟩
    · unfold hasKey ownProps
      rw [hFlag]
      rfl
    · rw [hSent]
      intro hn
      cases hn
  · intro name hName
    rw [hRequests, hName]
    exact ⟨_, rfl, getProp_setKey_self _ _ _⟩

/-- C29 at a concrete run: the one-stage pipeline `[{"$group": {"_id":
"$status"}}]` is sent as a parsed array to the collection `orders`, without
`is_aggregation`. -/
theorem array_pipeline_witness :
    ∃ r, (handleExecute "[\x7b\"$group\":\x7b\"_id\":\"$status\"\x7d\x7d]" (some shopConnection)
        (some ordersMetadata) none (replyWith "\x7b\x7d") idleState).requests = [r] ∧
      hasKey r "is_aggregation" = false ∧
      getProp r "query" = .arr [.obj [("$group", .obj [("_id", .str "$status")])]] := by
  obtain ⟨-, hAll, hSent⟩ :=
    array_pipeline "[\x7b\"$group\":\x7b\"_id\":\"$status\"\x7d\x7d]"
      [.obj [("$group", .obj [("_id", .str "$status")])]] shopConnection (some ordersMetadata)
      none (replyWith "\x7b\x7d") idleState (by decide) rfl (by decide)
  obtain ⟨r, hr, -⟩ := hSent (.str "orders") (by decide)
  have h := hAll r (by rw [hr]; exact List.mem_singleton_self r)
  exact ⟨r, hr, h.1, h.2.1⟩

end AIDatabaseAssistant
